import Mathlib

/-!
# VATSWIM C/C++ SDK: telemetry interpretation

A shallow embedding of `sdk/cpp/include/swim/types.h`,
`sdk/cpp/include/swim/telemetry.h`, `sdk/cpp/include/swim/json.h`,
`sdk/cpp/include/swim/http.h` and `sdk/cpp/include/swim/swim.h`: the
airport-zone classifier, the OOOI (Out, Off, On, In) transition detector, the
flight-phase estimator, the position throttle, the JSON builder, the HTTP
transport and the ingestion client, with the properties the specification
states about them.

Conventions of the embedding.

* A C `float`/`double` value is a `CFloat`: a finite value (an exact rational;
  every finite IEEE value is one), plus or minus infinity, or NaN.  The
  comparisons below follow IEEE 754: every ordered comparison with a NaN is
  false.
* `time_t` is `Int`.  The reading of `time(NULL)` taken inside a function is an
  explicit argument `now` of its embedding.
* A pointer argument is an `Option`: `none` is the null pointer.  A function
  that writes through a pointer returns the pointee after the call.
* An `int`/`int32_t` value is an `Int`; the result of `int` arithmetic is wrapped
  to 32 bits (`wrapInt32`).  Differences of `time_t` clock readings are not
  wrapped.
* Arithmetic on `double` values is IEEE 754 binary64 in the default rounding
  mode: the result of `+`, `-`, `*` and `sqrt` is the exact result rounded to the
  nearest binary64 value, ties to even, each operation rounded on its own (no
  extended precision, no fused multiply-add); a result of magnitude 2^1024 or
  more is an infinity.  The sign of a zero is not kept.
* Heap allocation (`malloc`, `realloc`) succeeds, so `swim_json_init` returns
  true and the buffer of a JSON builder is an unbounded `String`.  The functions
  of the JSON builder are embedded on a builder that is not null and return the
  builder after the call; their callers ignore the `bool` they return.
* The formatting done by the C library (`snprintf` of a `double`, `gmtime` and
  `strftime` of a clock reading) is a parameter `CLib` of the functions that use
  it.
* `swim_http_post` is the build with `SWIM_USE_CURL`.  What libcurl reports for
  the transfer (result code, error texts, HTTP status code, response text) is an
  explicit argument `CurlOutcome`; the request handed to libcurl is returned in
  the outcome.  The client functions also return the trace of what they did: the
  entries they serialized and the calls of `swim_http_post` they made.
-/

namespace Swim

/-! ## Floating-point values and their comparisons -/

/-- A C floating-point value. -/
inductive CFloat where
  | finite (q : ℚ)
  | posInf
  | negInf
  | nan
  deriving DecidableEq

namespace CFloat

/-- The C comparison `a < b`. -/
def lt : CFloat → CFloat → Bool
  | finite a, finite b => decide (a < b)
  | finite _, posInf => true
  | negInf, finite _ => true
  | negInf, posInf => true
  | _, _ => false

/-- The C comparison `a <= b`. -/
def le : CFloat → CFloat → Bool
  | finite a, finite b => decide (a ≤ b)
  | finite _, posInf => true
  | negInf, finite _ => true
  | negInf, posInf => true
  | posInf, posInf => true
  | negInf, negInf => true
  | _, _ => false

/-- The C comparison `a > b`. -/
def gt (a b : CFloat) : Bool := lt b a

/-- The C comparison `a >= b`. -/
def ge (a b : CFloat) : Bool := le b a

end CFloat

/-! ## `types.h` -/

/-- Airport zone enumeration (for OOOI detection). -/
inductive SwimAirportZone where
  | SWIM_ZONE_UNKNOWN
  | SWIM_ZONE_PARKING
  | SWIM_ZONE_TAXIWAY
  | SWIM_ZONE_HOLD
  | SWIM_ZONE_RUNWAY
  | SWIM_ZONE_AIRBORNE
  | SWIM_ZONE_APPROACH
  | SWIM_ZONE_FINAL
  deriving DecidableEq

open SwimAirportZone

/-- OOOI times (Out, Off, On, In); `0` is the unset value. -/
structure SwimOOOI where
  out_utc : Int
  off_utc : Int
  on_utc : Int
  in_utc : Int
  deriving DecidableEq

/-- OOOI detector state. -/
structure SwimOOOIDetector where
  current_zone : SwimAirportZone
  previous_zone : SwimAirportZone
  times : SwimOOOI
  out_detected : Bool
  off_detected : Bool
  on_detected : Bool
  in_detected : Bool
  last_update : Int
  deriving DecidableEq

/-! ## `telemetry.h`: thresholds -/

/-- Max GS when parked (knots). -/
def SWIM_OOOI_PARKED_MAX_GS : CFloat := .finite 5
/-- Min GS for taxi (knots). -/
def SWIM_OOOI_TAXI_MIN_GS : CFloat := .finite 3
/-- Max GS for taxi (knots); declared, never read. -/
def SWIM_OOOI_TAXI_MAX_GS : CFloat := .finite 30
/-- Min GS for takeoff roll (knots). -/
def SWIM_OOOI_TAKEOFF_MIN_GS : CFloat := .finite 60
/-- Min AGL to be airborne (feet). -/
def SWIM_OOOI_AIRBORNE_MIN_AGL : CFloat := .finite 50
/-- Max AGL for approach (feet). -/
def SWIM_OOOI_APPROACH_MAX_AGL : CFloat := .finite 3000
/-- Max AGL for final (feet). -/
def SWIM_OOOI_FINAL_MAX_AGL : CFloat := .finite 1000
/-- Min VS for climb detection (fpm). -/
def SWIM_OOOI_CLIMB_MIN_VS : CFloat := .finite 300
/-- Max VS for descent detection (fpm). -/
def SWIM_OOOI_DESCENT_MAX_VS : CFloat := .finite (-300)

/-! ## `telemetry.h`: OOOI detector functions -/

/-- The detector state `memset` to zero with both zones set to Unknown. -/
def zeroDetector : SwimOOOIDetector :=
  { current_zone := SWIM_ZONE_UNKNOWN
    previous_zone := SWIM_ZONE_UNKNOWN
    times := { out_utc := 0, off_utc := 0, on_utc := 0, in_utc := 0 }
    out_detected := false
    off_detected := false
    on_detected := false
    in_detected := false
    last_update := 0 }

/-- Initialize OOOI detector state: a null pointer is left alone, any pointee
is overwritten. -/
def swim_oooi_init (detector : Option SwimOOOIDetector) : Option SwimOOOIDetector :=
  match detector with
  | none => none
  | some _ => some zeroDetector

/-- Detect current airport zone from telemetry. -/
def swim_detect_zone (gs_kts : CFloat) (on_ground : Bool) (agl_ft : CFloat)
    (vs_fpm : CFloat) (parking_brake : Bool) : SwimAirportZone :=
  if !on_ground && agl_ft.gt SWIM_OOOI_AIRBORNE_MIN_AGL then
    if agl_ft.le SWIM_OOOI_FINAL_MAX_AGL && vs_fpm.lt SWIM_OOOI_DESCENT_MAX_VS then
      SWIM_ZONE_FINAL
    else if agl_ft.le SWIM_OOOI_APPROACH_MAX_AGL && vs_fpm.lt (.finite 0) then
      SWIM_ZONE_APPROACH
    else
      SWIM_ZONE_AIRBORNE
  else if on_ground then
    if gs_kts.lt SWIM_OOOI_PARKED_MAX_GS && parking_brake then
      SWIM_ZONE_PARKING
    else if gs_kts.ge SWIM_OOOI_TAKEOFF_MIN_GS then
      SWIM_ZONE_RUNWAY
    else if gs_kts.ge SWIM_OOOI_TAXI_MIN_GS then
      SWIM_ZONE_TAXIWAY
    else if !parking_brake && gs_kts.lt SWIM_OOOI_PARKED_MAX_GS then
      SWIM_ZONE_HOLD
    else
      SWIM_ZONE_PARKING
  else
    SWIM_ZONE_UNKNOWN

/-- The zone-transition block of `swim_oooi_update` (the body of
`if (new_zone != detector->current_zone)`): the zones are shifted, then the
four rules are checked in source order, each reading the fields as the earlier
ones left them.  The result is the detector and `event_detected`. -/
def oooiTransition (detector : SwimOOOIDetector) (now : Int)
    (new_zone : SwimAirportZone) : SwimOOOIDetector × Bool :=
  let d0 : SwimOOOIDetector :=
    { detector with previous_zone := detector.current_zone, current_zone := new_zone }
  -- OUT detection: Parking -> Taxiway (pushback complete)
  let s1 : SwimOOOIDetector × Bool :=
    if !d0.out_detected &&
        d0.previous_zone == SWIM_ZONE_PARKING &&
        (new_zone == SWIM_ZONE_TAXIWAY || new_zone == SWIM_ZONE_HOLD) then
      ({ d0 with times := { d0.times with out_utc := now }, out_detected := true }, true)
    else (d0, false)
  -- OFF detection: Ground -> Airborne (wheels up)
  let s2 : SwimOOOIDetector × Bool :=
    if !s1.1.off_detected &&
        s1.1.out_detected &&
        (s1.1.previous_zone == SWIM_ZONE_RUNWAY ||
         s1.1.previous_zone == SWIM_ZONE_TAXIWAY) &&
        new_zone == SWIM_ZONE_AIRBORNE then
      ({ s1.1 with times := { s1.1.times with off_utc := now }, off_detected := true }, true)
    else s1
  -- ON detection: Airborne/Final -> Runway (wheels down)
  let s3 : SwimOOOIDetector × Bool :=
    if !s2.1.on_detected &&
        s2.1.off_detected &&
        (s2.1.previous_zone == SWIM_ZONE_AIRBORNE ||
         s2.1.previous_zone == SWIM_ZONE_APPROACH ||
         s2.1.previous_zone == SWIM_ZONE_FINAL) &&
        (new_zone == SWIM_ZONE_RUNWAY || new_zone == SWIM_ZONE_TAXIWAY) then
      ({ s2.1 with times := { s2.1.times with on_utc := now }, on_detected := true }, true)
    else s2
  -- IN detection: Taxiway -> Parking (arrived at gate)
  let s4 : SwimOOOIDetector × Bool :=
    if !s3.1.in_detected &&
        s3.1.on_detected &&
        (s3.1.previous_zone == SWIM_ZONE_TAXIWAY ||
         s3.1.previous_zone == SWIM_ZONE_HOLD) &&
        new_zone == SWIM_ZONE_PARKING then
      ({ s3.1 with times := { s3.1.times with in_utc := now }, in_detected := true }, true)
    else s3
  s4

/-- Update OOOI detector with new telemetry data.  Returns the detector after
the call and the function's return value (true if any OOOI event was
detected). -/
def swim_oooi_update (detector : Option SwimOOOIDetector) (now : Int)
    (gs_kts : CFloat) (on_ground : Bool) (agl_ft : CFloat) (vs_fpm : CFloat)
    (parking_brake : Bool) : Option SwimOOOIDetector × Bool :=
  match detector with
  | none => (none, false)
  | some d =>
    let new_zone := swim_detect_zone gs_kts on_ground agl_ft vs_fpm parking_brake
    let s : SwimOOOIDetector × Bool :=
      if new_zone != d.current_zone then oooiTransition d now new_zone
      else (d, false)
    (some { s.1 with last_update := now }, s.2)

/-- Reset OOOI detector for a new flight. -/
def swim_oooi_reset (detector : Option SwimOOOIDetector) : Option SwimOOOIDetector :=
  swim_oooi_init detector

/-- Check if flight is complete (all OOOI times captured). -/
def swim_oooi_is_complete (detector : Option SwimOOOIDetector) : Bool :=
  match detector with
  | none => false
  | some d => d.out_detected && d.off_detected && d.on_detected && d.in_detected

/-- Get OOOI times from detector: the value of `*oooi` after the call. -/
def swim_oooi_get_times (detector : Option SwimOOOIDetector) (oooi : Option SwimOOOI) :
    Option SwimOOOI :=
  match detector, oooi with
  | some d, some _ => some d.times
  | _, o => o

/-! ## Runs of the detector -/

/-- One telemetry frame handed to `swim_oooi_update`, with the clock reading of
that call. -/
structure Frame where
  now : Int
  gs_kts : CFloat
  on_ground : Bool
  agl_ft : CFloat
  vs_fpm : CFloat
  parking_brake : Bool

/-- The zone `swim_detect_zone` gives a frame. -/
def Frame.zone (f : Frame) : SwimAirportZone :=
  swim_detect_zone f.gs_kts f.on_ground f.agl_ft f.vs_fpm f.parking_brake

/-- One `swim_oooi_update` call on a frame. -/
def updateFrame (detector : Option SwimOOOIDetector) (f : Frame) :
    Option SwimOOOIDetector × Bool :=
  swim_oooi_update detector f.now f.gs_kts f.on_ground f.agl_ft f.vs_fpm f.parking_brake

/-- The detector after a sequence of `swim_oooi_update` calls, first frame first. -/
def runUpdates (detector : Option SwimOOOIDetector) : List Frame → Option SwimOOOIDetector
  | [] => detector
  | f :: fs => runUpdates (updateFrame detector f).1 fs

/-- The return values of a sequence of `swim_oooi_update` calls, in call order. -/
def runReturns (detector : Option SwimOOOIDetector) : List Frame → List Bool
  | [] => []
  | f :: fs => (updateFrame detector f).2 :: runReturns (updateFrame detector f).1 fs

/-- The value of `swim_oooi_is_complete` after each call of a sequence. -/
def runComplete (detector : Option SwimOOOIDetector) : List Frame → List Bool
  | [] => []
  | f :: fs =>
    swim_oooi_is_complete (updateFrame detector f).1 :: runComplete (updateFrame detector f).1 fs

/-- The ordering invariant of the four one-shot flags. -/
def FlagsOrdered (d : SwimOOOIDetector) : Prop :=
  (d.off_detected = true → d.out_detected = true) ∧
  (d.on_detected = true → d.off_detected = true) ∧
  (d.in_detected = true → d.on_detected = true)

/-- The end-to-end scenario of the specification: eight frames whose stated
fields are fixed and whose remaining fields (and clock readings) are those of
the frames `o1 .. o8`. -/
def scenarioFrames (o1 o2 o3 o4 o5 o6 o7 o8 : Frame) : List Frame :=
  [ { o1 with gs_kts := .finite 0, on_ground := true, parking_brake := true },
    { o2 with gs_kts := .finite 0, on_ground := true, parking_brake := false },
    { o3 with gs_kts := .finite 15, on_ground := true, parking_brake := false },
    { o4 with gs_kts := .finite 80, on_ground := true, parking_brake := false },
    { o5 with gs_kts := .finite 150, on_ground := false, agl_ft := .finite 100,
              vs_fpm := .finite 2000 },
    { o6 with gs_kts := .finite 140, on_ground := true, agl_ft := .finite 0,
              vs_fpm := .finite (-500) },
    { o7 with gs_kts := .finite 20, on_ground := true },
    { o8 with gs_kts := .finite 0, on_ground := true, parking_brake := true } ]

/-- The first three frames of the end-to-end scenario: parked with the brake
set, stopped with the brake released, taxiing at 15 kt. -/
def scenarioOutFrames (o1 o2 o3 : Frame) : List Frame :=
  [ { o1 with gs_kts := .finite 0, on_ground := true, parking_brake := true },
    { o2 with gs_kts := .finite 0, on_ground := true, parking_brake := false },
    { o3 with gs_kts := .finite 15, on_ground := true, parking_brake := false } ]

/-- Whether call number `k` (counted from 0) of a run is the call in which the
given flag goes from false to true. -/
def firedIn (flag : SwimOOOIDetector → Bool) (detector : Option SwimOOOIDetector)
    (frames : List Frame) (k : Nat) : Bool :=
  decide (k < frames.length) &&
    match runUpdates detector (frames.take k), runUpdates detector (frames.take (k + 1)) with
    | some b, some a => !flag b && flag a
    | _, _ => false

/-- The number of the four flags that are set. -/
def flagsSet (d : SwimOOOIDetector) : Nat :=
  d.out_detected.toNat + d.off_detected.toNat + d.on_detected.toNat + d.in_detected.toNat

/-- The number of flags one call sets: the flags that are unset in the detector
before the call and set in the detector after it. -/
def flagsNewlySet (before after : SwimOOOIDetector) : Nat :=
  (!before.out_detected && after.out_detected).toNat +
  (!before.off_detected && after.off_detected).toNat +
  (!before.on_detected && after.on_detected).toNat +
  (!before.in_detected && after.in_detected).toNat

/-! ## Assignments to the timestamps -/

/-- The four timestamp fields of `SwimOOOI`. -/
inductive SwimOOOIField where
  | out_utc
  | off_utc
  | on_utc
  | in_utc
  deriving DecidableEq

/-- One assignment `detector->times.field = value`. -/
structure StampWrite where
  field : SwimOOOIField
  value : Int
  deriving DecidableEq

/-- The `times` structure after one assignment to a field of it. -/
def SwimOOOI.write (t : SwimOOOI) (w : StampWrite) : SwimOOOI :=
  match w.field with
  | .out_utc => { t with out_utc := w.value }
  | .off_utc => { t with off_utc := w.value }
  | .on_utc => { t with on_utc := w.value }
  | .in_utc => { t with in_utc := w.value }

/-- The flag that goes with a timestamp field. -/
def SwimOOOIField.flag (x : SwimOOOIField) (d : SwimOOOIDetector) : Bool :=
  match x with
  | .out_utc => d.out_detected
  | .off_utc => d.off_detected
  | .on_utc => d.on_detected
  | .in_utc => d.in_detected

/-- The zone-transition block of `swim_oooi_update` together with the
assignments to `detector->times` it performs, in program order. -/
def oooiTransitionStamps (detector : SwimOOOIDetector) (now : Int)
    (new_zone : SwimAirportZone) : SwimOOOIDetector × Bool × List StampWrite :=
  let d0 : SwimOOOIDetector :=
    { detector with previous_zone := detector.current_zone, current_zone := new_zone }
  -- OUT detection: Parking -> Taxiway (pushback complete)
  let s1 : SwimOOOIDetector × Bool × List StampWrite :=
    if !d0.out_detected &&
        d0.previous_zone == SWIM_ZONE_PARKING &&
        (new_zone == SWIM_ZONE_TAXIWAY || new_zone == SWIM_ZONE_HOLD) then
      ({ d0 with times := { d0.times with out_utc := now }, out_detected := true }, true,
       [⟨.out_utc, now⟩])
    else (d0, false, [])
  -- OFF detection: Ground -> Airborne (wheels up)
  let s2 : SwimOOOIDetector × Bool × List StampWrite :=
    if !s1.1.off_detected &&
        s1.1.out_detected &&
        (s1.1.previous_zone == SWIM_ZONE_RUNWAY ||
         s1.1.previous_zone == SWIM_ZONE_TAXIWAY) &&
        new_zone == SWIM_ZONE_AIRBORNE then
      ({ s1.1 with times := { s1.1.times with off_utc := now }, off_detected := true }, true,
       s1.2.2 ++ [⟨.off_utc, now⟩])
    else s1
  -- ON detection: Airborne/Final -> Runway (wheels down)
  let s3 : SwimOOOIDetector × Bool × List StampWrite :=
    if !s2.1.on_detected &&
        s2.1.off_detected &&
        (s2.1.previous_zone == SWIM_ZONE_AIRBORNE ||
         s2.1.previous_zone == SWIM_ZONE_APPROACH ||
         s2.1.previous_zone == SWIM_ZONE_FINAL) &&
        (new_zone == SWIM_ZONE_RUNWAY || new_zone == SWIM_ZONE_TAXIWAY) then
      ({ s2.1 with times := { s2.1.times with on_utc := now }, on_detected := true }, true,
       s2.2.2 ++ [⟨.on_utc, now⟩])
    else s2
  -- IN detection: Taxiway -> Parking (arrived at gate)
  let s4 : SwimOOOIDetector × Bool × List StampWrite :=
    if !s3.1.in_detected &&
        s3.1.on_detected &&
        (s3.1.previous_zone == SWIM_ZONE_TAXIWAY ||
         s3.1.previous_zone == SWIM_ZONE_HOLD) &&
        new_zone == SWIM_ZONE_PARKING then
      ({ s3.1 with times := { s3.1.times with in_utc := now }, in_detected := true }, true,
       s3.2.2 ++ [⟨.in_utc, now⟩])
    else s3
  s4

/-- The function `swim_oooi_update` together with the assignments to
`detector->times` the call performs, in program order: the detector after the
call, the return value and the assignments. -/
def swim_oooi_update_stamps (detector : Option SwimOOOIDetector) (now : Int)
    (gs_kts : CFloat) (on_ground : Bool) (agl_ft : CFloat) (vs_fpm : CFloat)
    (parking_brake : Bool) : Option SwimOOOIDetector × Bool × List StampWrite :=
  match detector with
  | none => (none, false, [])
  | some d =>
    let new_zone := swim_detect_zone gs_kts on_ground agl_ft vs_fpm parking_brake
    let s : SwimOOOIDetector × Bool × List StampWrite :=
      if new_zone != d.current_zone then oooiTransitionStamps d now new_zone
      else (d, false, [])
    (some { s.1 with last_update := now }, s.2.1, s.2.2)

/-- The assignments to `detector->times` performed over a sequence of
`swim_oooi_update` calls, in order. -/
def runStamps (detector : Option SwimOOOIDetector) : List Frame → List StampWrite
  | [] => []
  | f :: fs =>
    (swim_oooi_update_stamps detector f.now f.gs_kts f.on_ground f.agl_ft f.vs_fpm
        f.parking_brake).2.2 ++
      runStamps (swim_oooi_update_stamps detector f.now f.gs_kts f.on_ground f.agl_ft f.vs_fpm
        f.parking_brake).1 fs

/-! ## Orderings of the timestamps -/

/-- The timestamps of the detected events are in chain order. -/
def TimesOrdered (d : SwimOOOIDetector) : Prop :=
  (d.off_detected = true → d.times.out_utc ≤ d.times.off_utc) ∧
  (d.on_detected = true → d.times.off_utc ≤ d.times.on_utc) ∧
  (d.in_detected = true → d.times.on_utc ≤ d.times.in_utc)

/-- Every timestamp of a detected event is at most `c`. -/
def StampsAtMost (d : SwimOOOIDetector) (c : Int) : Prop :=
  (d.out_detected = true → d.times.out_utc ≤ c) ∧
  (d.off_detected = true → d.times.off_utc ≤ c) ∧
  (d.on_detected = true → d.times.on_utc ≤ c) ∧
  (d.in_detected = true → d.times.in_utc ≤ c)

/-! ## Machine integers and `double` arithmetic for the throttle -/

/-- The value of a mathematical integer stored in an `int32_t`/`int`
(two's-complement wrap-around). -/
def wrapInt32 (x : Int) : Int := (x + 2147483648) % 4294967296 - 2147483648

/-- The C library `abs` on `int`: the absolute value, wrapped (so that
`abs(INT_MIN)` is `INT_MIN`). -/
def absInt32 (x : Int) : Int := wrapInt32 |x|

namespace CFloat

/-- The C negation `-a`. -/
def neg : CFloat → CFloat
  | finite a => finite (-a)
  | posInf => negInf
  | negInf => posInf
  | nan => nan

/-- The sum `a + b` before rounding: a finite sum is exact. -/
def add : CFloat → CFloat → CFloat
  | nan, _ => nan
  | _, nan => nan
  | finite a, finite b => finite (a + b)
  | posInf, negInf => nan
  | negInf, posInf => nan
  | posInf, _ => posInf
  | _, posInf => posInf
  | negInf, _ => negInf
  | _, negInf => negInf

/-- The difference `a - b` before rounding: a finite difference is exact. -/
def sub (a b : CFloat) : CFloat := add a (neg b)

/-- The product `a * b` before rounding: a finite product is exact. -/
def mul : CFloat → CFloat → CFloat
  | nan, _ => nan
  | _, nan => nan
  | finite a, finite b => finite (a * b)
  | finite a, posInf => if a = 0 then nan else if 0 < a then posInf else negInf
  | finite a, negInf => if a = 0 then nan else if 0 < a then negInf else posInf
  | posInf, finite b => if b = 0 then nan else if 0 < b then posInf else negInf
  | negInf, finite b => if b = 0 then nan else if 0 < b then negInf else posInf
  | posInf, posInf => posInf
  | negInf, negInf => posInf
  | posInf, negInf => negInf
  | negInf, posInf => negInf

/-- The integer part of the base-2 logarithm, by halving at most `fuel` times. -/
def log2Fuel : Nat → Nat → Nat
  | 0, _ => 0
  | fuel + 1, n => if 2 ≤ n then log2Fuel fuel (n / 2) + 1 else 0

/-- The integer part of the base-2 logarithm of `n > 0` (and 0 for 0). -/
def ilog2 (n : Nat) : Nat := log2Fuel n n

/-- The integer nearest to `n / d` for `d > 0`, a tie going to the even one. -/
def roundHalfEven (n d : Nat) : Nat :=
  if 2 * (n % d) < d then n / d
  else if d < 2 * (n % d) then n / d + 1
  else if (n / d) % 2 = 0 then n / d else n / d + 1

/-- The integer part of the base-2 logarithm of `n / d` for `n, d > 0`. -/
def floorLog2 (n d : Nat) : Int :=
  if ilog2 d ≤ ilog2 n then
    if d * 2 ^ (ilog2 n - ilog2 d) ≤ n then ((ilog2 n - ilog2 d : Nat) : Int)
    else ((ilog2 n - ilog2 d : Nat) : Int) - 1
  else
    if d ≤ n * 2 ^ (ilog2 d - ilog2 n) then -((ilog2 d - ilog2 n : Nat) : Int)
    else -((ilog2 d - ilog2 n : Nat) : Int) - 1

/-- The binary64 value nearest to the positive rational `n / d`, ties to even:
the significand has 53 bits, the exponent of the last place is at least -1074
(subnormal numbers), and a result of magnitude 2^1024 or more is infinite. -/
def roundPos (n d : Nat) : CFloat :=
  let p : Int := max (floorLog2 n d - 52) (-1074)
  let m : Nat := if 0 ≤ p then roundHalfEven n (d * 2 ^ p.toNat)
                 else roundHalfEven (n * 2 ^ (-p).toNat) d
  let v : ℚ := if 0 ≤ p then ((m * 2 ^ p.toNat : Nat) : ℚ)
               else (m : ℚ) / ((2 ^ (-p).toNat : Nat) : ℚ)
  if (2 : ℚ) ^ 1024 ≤ v then posInf else finite v

/-- The binary64 value nearest to a rational, ties to even (the rounding of
every IEEE 754 operation in the default mode).  The sign of a zero is not
kept: no comparison reads it. -/
def roundDouble (q : ℚ) : CFloat :=
  if q = 0 then finite 0
  else if 0 < q then roundPos q.num.toNat q.den
  else neg (roundPos (-q).num.toNat q.den)

/-- A value rounded to binary64: infinities and NaN stay. -/
def round : CFloat → CFloat
  | finite q => roundDouble q
  | x => x

/-- The C addition `a + b` on `double`. -/
def dadd (a b : CFloat) : CFloat := (a.add b).round

/-- The C subtraction `a - b` on `double`. -/
def dsub (a b : CFloat) : CFloat := (a.sub b).round

/-- The C multiplication `a * b` on `double`. -/
def dmul (a b : CFloat) : CFloat := (a.mul b).round

/-- The largest `r` with `r * r <= n` among `r0 + j` for `j < 2 ^ k`, found bit
by bit from bit `k - 1` down. -/
def isqrtBits (n : Nat) : Nat → Nat → Nat
  | 0, r => r
  | k + 1, r =>
    if (r + 2 ^ k) * (r + 2 ^ k) ≤ n then isqrtBits n k (r + 2 ^ k) else isqrtBits n k r

/-- The integer part of the square root of `n`. -/
def isqrt (n : Nat) : Nat := isqrtBits n (ilog2 n / 2 + 1) 0

/-- The correctly rounded square root of the positive rational `n / d`.  With
`K = 55 + ilog2 d`, `t` is the integer part of `sqrt (n / d) * 2 ^ K` and has at
least 55 bits.  When `t` is the root exactly, `t / 2 ^ K` is rounded; otherwise
the root lies strictly between `t` and `t + 1`, a range that holds no binary64
value and no midpoint of two, and `(t + 1/2) / 2 ^ K` is rounded to the same
value as the root. -/
def sqrtPos (n d : Nat) : CFloat :=
  let K : Nat := 55 + ilog2 d
  let t : Nat := isqrt (n * 4 ^ K / d)
  if t * t * d = n * 4 ^ K then roundDouble ((t : ℚ) / ((2 ^ K : Nat) : ℚ))
  else roundDouble (((2 * t + 1 : Nat) : ℚ) / ((2 ^ (K + 1) : Nat) : ℚ))

/-- The C library `sqrt` on `double` (correctly rounded, as IEEE 754 requires):
the root of a negative value is a NaN. -/
def dsqrt : CFloat → CFloat
  | nan => nan
  | negInf => nan
  | posInf => posInf
  | finite q =>
    if q = 0 then finite 0
    else if q < 0 then nan
    else sqrtPos q.num.toNat q.den

end CFloat

/-! ## `types.h`: positions -/

/-- Geographic position. -/
structure SwimPosition where
  latitude : CFloat
  longitude : CFloat
  altitude_ft : Int
  heading_deg : Int
  groundspeed_kts : Int
  vertical_rate : Int
  true_airspeed : Int
  mach_number : CFloat
  on_ground : Bool

/-! ## `telemetry.h`: position rate limiting -/

/-- Position throttle state. -/
structure SwimPositionThrottle where
  last_send_time : Int
  last_lat : CFloat
  last_lon : CFloat
  last_alt : Int
  min_interval_sec : Int
  min_distance_nm : CFloat
  min_alt_change_ft : Int

/-- Initialize position throttle: the state is zeroed and the three thresholds
are set, each to its default when the argument is not positive. -/
def swim_throttle_init (throttle : Option SwimPositionThrottle) (interval_sec : Int)
    (distance_nm : CFloat) (alt_change_ft : Int) : Option SwimPositionThrottle :=
  match throttle with
  | none => none
  | some _ =>
    some { last_send_time := 0
           last_lat := .finite 0
           last_lon := .finite 0
           last_alt := 0
           min_interval_sec := if interval_sec > 0 then interval_sec else 5
           min_distance_nm := if distance_nm.gt (.finite 0) then distance_nm else .finite (1 / 2)
           min_alt_change_ft := if alt_change_ft > 0 then alt_change_ft else 100 }

/-- Check if position should be sent based on throttling rules.  The function
writes nothing through its pointers; its result is its return value. -/
def swim_throttle_should_send (throttle : Option SwimPositionThrottle)
    (pos : Option SwimPosition) (now : Int) : Bool :=
  match throttle, pos with
  | some t, some p =>
    -- Always send if never sent before
    if t.last_send_time == 0 then true
    -- Check time interval
    else if now - t.last_send_time < t.min_interval_sec then false
    else
      -- Check altitude change
      let alt_diff := absInt32 (wrapInt32 (p.altitude_ft - t.last_alt))
      if alt_diff ≥ t.min_alt_change_ft then true
      else
        -- Check distance change (simple approximation)
        let lat_diff := p.latitude.dsub t.last_lat
        let lon_diff := p.longitude.dsub t.last_lon
        let dist_deg := ((lat_diff.dmul lat_diff).dadd (lon_diff.dmul lon_diff)).dsqrt
        let dist_nm := dist_deg.dmul (.finite 60) -- Rough conversion
        if dist_nm.ge t.min_distance_nm then true
        -- Time exceeded, send anyway
        else if now - t.last_send_time ≥ wrapInt32 (t.min_interval_sec * 3) then true
        else false
  | _, _ => false

/-- The value of `dist_nm` that `swim_throttle_should_send` computes for a
throttle and a position, in `double` arithmetic. -/
def throttleDistNm (t : SwimPositionThrottle) (p : SwimPosition) : CFloat :=
  let lat_diff := p.latitude.dsub t.last_lat
  let lon_diff := p.longitude.dsub t.last_lon
  let dist_deg := ((lat_diff.dmul lat_diff).dadd (lon_diff.dmul lon_diff)).dsqrt
  dist_deg.dmul (.finite 60)

/-- Mark position as sent: the throttle after the call. -/
def swim_throttle_mark_sent (throttle : Option SwimPositionThrottle)
    (pos : Option SwimPosition) (now : Int) : Option SwimPositionThrottle :=
  match throttle, pos with
  | some t, some p =>
    some { t with last_send_time := now
                  last_lat := p.latitude
                  last_lon := p.longitude
                  last_alt := p.altitude_ft }
  | t, _ => t

/-- The throttle after `swim_throttle_should_send` returns, with its return
value: no statement of the function assigns through `throttle`. -/
def swim_throttle_should_send_run (throttle : Option SwimPositionThrottle)
    (pos : Option SwimPosition) (now : Int) : Option SwimPositionThrottle × Bool :=
  (throttle, swim_throttle_should_send throttle pos now)

/-! ## `types.h`: statuses, records and configuration -/

/-- Flight phase enumeration. -/
inductive SwimFlightPhase where
  | SWIM_PHASE_UNKNOWN
  | SWIM_PHASE_PREFILE
  | SWIM_PHASE_PREFLIGHT
  | SWIM_PHASE_PUSHBACK
  | SWIM_PHASE_TAXI_OUT
  | SWIM_PHASE_TAKEOFF
  | SWIM_PHASE_DEPARTURE
  | SWIM_PHASE_ENROUTE
  | SWIM_PHASE_DESCENT
  | SWIM_PHASE_APPROACH
  | SWIM_PHASE_LANDING
  | SWIM_PHASE_TAXI_IN
  | SWIM_PHASE_ARRIVED
  deriving DecidableEq

/-- API response status codes. -/
inductive SwimStatus where
  | SWIM_OK
  | SWIM_ERROR_NETWORK
  | SWIM_ERROR_AUTH
  | SWIM_ERROR_RATE_LIMIT
  | SWIM_ERROR_INVALID_DATA
  | SWIM_ERROR_SERVER
  | SWIM_ERROR_TIMEOUT
  | SWIM_ERROR_BUFFER
  deriving DecidableEq

/-- API key tier. -/
inductive SwimApiTier where
  | SWIM_TIER_PUBLIC
  | SWIM_TIER_DEVELOPER
  | SWIM_TIER_PARTNER
  | SWIM_TIER_SYSTEM
  deriving DecidableEq

open SwimFlightPhase SwimStatus

/-- The batch cap of `swim_client_ingest_track`. -/
def SWIM_MAX_BATCH_TRACKS : Int := 1000
/-- The batch cap of `swim_client_ingest_adl`. -/
def SWIM_MAX_BATCH_ADL : Int := 500
/-- The size of the callsign array. -/
def SWIM_MAX_CALLSIGN : Nat := 16
/-- Default API endpoint. -/
def SWIM_DEFAULT_BASE_URL : String := "https://perti.vatcscc.org/api/swim/v1"

/-- Track update for position ingest.  A character array holds a C string,
embedded as the `String` before its terminating NUL. -/
structure SwimTrackUpdate where
  callsign : String
  position : SwimPosition
  timestamp : Int
  squawk : String

/-- ADL flight ingest data. -/
structure SwimFlightIngest where
  callsign : String
  dept_icao : String
  dest_icao : String
  cid : Int
  aircraft_type : String
  route : String
  cruise_altitude_ft : Int
  cruise_speed_kts : Int
  position : SwimPosition
  has_position : Bool
  oooi : SwimOOOI
  eta_utc : Int
  etd_utc : Int
  phase : SwimFlightPhase
  is_active : Bool

/-- API response wrapper. -/
structure SwimIngestResult where
  status : SwimStatus
  http_code : Int
  processed : Int
  created : Int
  updated : Int
  errors : Int
  error_message : String
  deriving DecidableEq

/-- Client configuration. -/
structure SwimClientConfig where
  api_key : String
  base_url : String
  source_id : String
  tier : SwimApiTier
  timeout_ms : Int
  verify_ssl : Bool
  deriving DecidableEq

/-- The macro `SWIM_IS_VALID_LAT`. -/
def SWIM_IS_VALID_LAT (lat : CFloat) : Bool :=
  lat.ge (.finite (-90)) && lat.le (.finite 90)

/-- The macro `SWIM_IS_VALID_LON`. -/
def SWIM_IS_VALID_LON (lon : CFloat) : Bool :=
  lon.ge (.finite (-180)) && lon.le (.finite 180)

/-- The macro `SWIM_IS_VALID_POSITION`. -/
def SWIM_IS_VALID_POSITION (pos : SwimPosition) : Bool :=
  SWIM_IS_VALID_LAT pos.latitude && SWIM_IS_VALID_LON pos.longitude

/-- Convert phase enum to string. -/
def swim_phase_to_string : SwimFlightPhase → String
  | SWIM_PHASE_PREFILE => "PREFILE"
  | SWIM_PHASE_PREFLIGHT => "PREFLIGHT"
  | SWIM_PHASE_PUSHBACK => "PUSHBACK"
  | SWIM_PHASE_TAXI_OUT => "TAXI_OUT"
  | SWIM_PHASE_TAKEOFF => "TAKEOFF"
  | SWIM_PHASE_DEPARTURE => "DEPARTURE"
  | SWIM_PHASE_ENROUTE => "ENROUTE"
  | SWIM_PHASE_DESCENT => "DESCENT"
  | SWIM_PHASE_APPROACH => "APPROACH"
  | SWIM_PHASE_LANDING => "LANDING"
  | SWIM_PHASE_TAXI_IN => "TAXI_IN"
  | SWIM_PHASE_ARRIVED => "ARRIVED"
  | SWIM_PHASE_UNKNOWN => "UNKNOWN"

/-! ## `json.h`: the JSON builder

The builder functions are embedded on the builder itself: every call in the
library passes the address of a local builder, and the callers ignore the
boolean the builder functions return.  Heap allocation succeeds, so the buffer
is the text appended so far. -/

/-- The C library formatting the serializer relies on: the text `snprintf`
leaves in a 64-byte buffer for the format `%.<precision>f`, and the text
`strftime` produces for the format `%Y-%m-%dT%H:%M:%SZ` from `gmtime`, or
nothing when `gmtime` returns NULL. -/
structure CLib where
  snprintf_f : Int → CFloat → String
  gmtime_strftime : Int → Option String

/-- The depth of the nesting arrays of the builder. -/
def SWIM_JSON_MAX_DEPTH : Int := 16

/-- JSON builder state. -/
structure SwimJsonBuilder where
  buffer : String
  depth : Int
  first_item : Int → Bool
  in_array : Int → Bool

/-- Initialize JSON builder: the builder and the returned success flag. -/
def swim_json_init (_initial_capacity : Int) : SwimJsonBuilder × Bool :=
  ({ buffer := "", depth := 0, first_item := fun _ => true, in_array := fun _ => false }, true)

/-- Append raw string to buffer. -/
def swim_json_append (json : SwimJsonBuilder) (str : String) : SwimJsonBuilder :=
  { json with buffer := json.buffer ++ str }

/-- Add comma if not first item. -/
def swim_json_comma (json : SwimJsonBuilder) : SwimJsonBuilder :=
  if json.depth < 0 ∨ json.depth ≥ SWIM_JSON_MAX_DEPTH then json
  else
    let j := if !json.first_item json.depth then swim_json_append json "," else json
    { j with first_item := Function.update j.first_item json.depth false }

/-- Start object. -/
def swim_json_object_start (json : SwimJsonBuilder) : SwimJsonBuilder :=
  if json.depth ≥ SWIM_JSON_MAX_DEPTH - 1 then json
  else
    let j := swim_json_append (swim_json_comma json) "\x7b"
    { j with depth := j.depth + 1
             first_item := Function.update j.first_item (j.depth + 1) true
             in_array := Function.update j.in_array (j.depth + 1) false }

/-- End object. -/
def swim_json_object_end (json : SwimJsonBuilder) : SwimJsonBuilder :=
  if json.depth ≤ 0 then json
  else swim_json_append { json with depth := json.depth - 1 } "\x7d"

/-- Start array. -/
def swim_json_array_start (json : SwimJsonBuilder) (key : Option String) : SwimJsonBuilder :=
  if json.depth ≥ SWIM_JSON_MAX_DEPTH - 1 then json
  else
    let j := swim_json_comma json
    let j :=
      match key with
      | some k => swim_json_append (swim_json_append (swim_json_append j "\"") k) "\":["
      | none => swim_json_append j "["
    { j with depth := j.depth + 1
             first_item := Function.update j.first_item (j.depth + 1) true
             in_array := Function.update j.in_array (j.depth + 1) true }

/-- End array. -/
def swim_json_array_end (json : SwimJsonBuilder) : SwimJsonBuilder :=
  if json.depth ≤ 0 then json
  else swim_json_append { json with depth := json.depth - 1 } "]"

/-- The escape loop of `swim_json_string`, one append per character. -/
def swim_json_escape (json : SwimJsonBuilder) : List Char → SwimJsonBuilder
  | [] => json
  | c :: cs =>
    let j :=
      if c = '"' ∨ c = '\\' then swim_json_append json (String.mk ['\\', c])
      else if c = '\n' then swim_json_append json "\\n"
      else if c = '\r' then swim_json_append json "\\r"
      else if c = '\t' then swim_json_append json "\\t"
      else swim_json_append json (String.mk [c])
    swim_json_escape j cs

/-- Add string value. -/
def swim_json_string (json : SwimJsonBuilder) (key : Option String) (value : Option String) :
    SwimJsonBuilder :=
  let j := swim_json_comma json
  let j :=
    match key with
    | some k => swim_json_append (swim_json_append (swim_json_append j "\"") k) "\":"
    | none => j
  match value with
  | some v => swim_json_append (swim_json_escape (swim_json_append j "\"") v.data) "\""
  | none => swim_json_append j "null"

/-- Add integer value; the text is formatted into a 64-byte buffer. -/
def swim_json_int (json : SwimJsonBuilder) (key : Option String) (value : Int) :
    SwimJsonBuilder :=
  let j := swim_json_comma json
  let buf :=
    match key with
    | some k => ("\"" ++ k ++ "\":" ++ toString value).take 63
    | none => (toString value).take 63
  swim_json_append j buf

/-- Add double value. -/
def swim_json_double (lib : CLib) (json : SwimJsonBuilder) (key : Option String)
    (value : CFloat) (precision : Int) : SwimJsonBuilder :=
  let j := swim_json_comma json
  let buf := lib.snprintf_f (if precision > 0 then precision else 6) value
  match key with
  | some k =>
    swim_json_append
      (swim_json_append (swim_json_append (swim_json_append j "\"") k) "\":") buf
  | none => swim_json_append j buf

/-- Add boolean value. -/
def swim_json_bool (json : SwimJsonBuilder) (key : Option String) (value : Bool) :
    SwimJsonBuilder :=
  let j := swim_json_comma json
  let buf :=
    match key with
    | some k => ("\"" ++ k ++ "\":" ++ (if value then "true" else "false")).take 63
    | none => ((if value then "true" else "false" : String)).take 63
  swim_json_append j buf

/-- Add null value. -/
def swim_json_null (json : SwimJsonBuilder) (key : Option String) : SwimJsonBuilder :=
  let j := swim_json_comma json
  match key with
  | some k => swim_json_append j (("\"" ++ k ++ "\":null").take 63)
  | none => swim_json_append j "null"

/-- Add ISO 8601 timestamp value. -/
def swim_json_timestamp (lib : CLib) (json : SwimJsonBuilder) (key : Option String)
    (timestamp : Int) : SwimJsonBuilder :=
  if timestamp = 0 then swim_json_null json key
  else
    match lib.gmtime_strftime timestamp with
    | none => swim_json_null json key
    | some buf => swim_json_string json key (some buf)

/-- Get final JSON string. -/
def swim_json_get (json : SwimJsonBuilder) : String := json.buffer

/-- Serialize track update to JSON object. -/
def swim_json_track (lib : CLib) (json : SwimJsonBuilder) (track : SwimTrackUpdate) :
    SwimJsonBuilder :=
  let j := swim_json_object_start json
  let j := swim_json_string j (some "callsign") (some track.callsign)
  let j := swim_json_double lib j (some "latitude") track.position.latitude 6
  let j := swim_json_double lib j (some "longitude") track.position.longitude 6
  let j := if track.position.altitude_ft ≠ 0 then
      swim_json_int j (some "altitude_ft") track.position.altitude_ft else j
  let j := if track.position.groundspeed_kts ≠ 0 then
      swim_json_int j (some "ground_speed_kts") track.position.groundspeed_kts else j
  let j := if track.position.heading_deg ≠ 0 then
      swim_json_int j (some "heading_deg") track.position.heading_deg else j
  let j := if track.position.vertical_rate ≠ 0 then
      swim_json_int j (some "vertical_rate_fpm") track.position.vertical_rate else j
  let j := if track.squawk ≠ "" then
      swim_json_string j (some "squawk") (some track.squawk) else j
  let j := if track.timestamp ≠ 0 then
      swim_json_timestamp lib j (some "timestamp") track.timestamp else j
  swim_json_object_end j

/-- Serialize flight ingest to JSON object. -/
def swim_json_flight_ingest (lib : CLib) (json : SwimJsonBuilder) (flight : SwimFlightIngest) :
    SwimJsonBuilder :=
  let j := swim_json_object_start json
  -- Required fields
  let j := swim_json_string j (some "callsign") (some flight.callsign)
  let j := swim_json_string j (some "dept_icao") (some flight.dept_icao)
  let j := swim_json_string j (some "dest_icao") (some flight.dest_icao)
  -- Optional identity
  let j := if flight.cid > 0 then swim_json_int j (some "cid") flight.cid else j
  -- Aircraft
  let j := if flight.aircraft_type ≠ "" then
      swim_json_string j (some "aircraft_type") (some flight.aircraft_type) else j
  -- Route
  let j := if flight.route ≠ "" then swim_json_string j (some "route") (some flight.route) else j
  let j := if flight.cruise_altitude_ft > 0 then
      swim_json_int j (some "cruise_altitude") flight.cruise_altitude_ft else j
  let j := if flight.cruise_speed_kts > 0 then
      swim_json_int j (some "cruise_speed") flight.cruise_speed_kts else j
  -- Position
  let j := if flight.has_position && SWIM_IS_VALID_POSITION flight.position then
      swim_json_int
        (swim_json_int
          (swim_json_int
            (swim_json_int
              (swim_json_double lib
                (swim_json_double lib j (some "latitude") flight.position.latitude 6)
                (some "longitude") flight.position.longitude 6)
              (some "altitude") flight.position.altitude_ft)
            (some "groundspeed") flight.position.groundspeed_kts)
          (some "heading") flight.position.heading_deg)
        (some "vertical_rate_fpm") flight.position.vertical_rate
    else j
  -- OOOI times
  let j := if flight.oooi.out_utc > 0 then
      swim_json_timestamp lib j (some "out_utc") flight.oooi.out_utc else j
  let j := if flight.oooi.off_utc > 0 then
      swim_json_timestamp lib j (some "off_utc") flight.oooi.off_utc else j
  let j := if flight.oooi.on_utc > 0 then
      swim_json_timestamp lib j (some "on_utc") flight.oooi.on_utc else j
  let j := if flight.oooi.in_utc > 0 then
      swim_json_timestamp lib j (some "in_utc") flight.oooi.in_utc else j
  -- ETA/ETD
  let j := if flight.eta_utc > 0 then
      swim_json_timestamp lib j (some "eta_utc") flight.eta_utc else j
  let j := if flight.etd_utc > 0 then
      swim_json_timestamp lib j (some "etd_utc") flight.etd_utc else j
  -- Phase
  let j := if flight.phase ≠ SWIM_PHASE_UNKNOWN then
      swim_json_string j (some "phase") (some (swim_phase_to_string flight.phase)) else j
  let j := swim_json_bool j (some "is_active") flight.is_active
  swim_json_object_end j

/-! ## `http.h`: the transport (the `SWIM_USE_CURL` build)

The transfer itself is libcurl's; what it reports for the one transfer a call
performs is an argument of the embedding. -/

/-- What libcurl reports for one `curl_easy_perform`: its return code, the
error buffer and `curl_easy_strerror` text, and for a completed transfer the
response code and the response body the write callback accumulated. -/
structure CurlOutcome where
  res : Int
  error_buffer : String
  strerror : String
  response_code : Int
  response_data : String

/-- The libcurl code of a completed transfer. -/
def CURLE_OK : Int := 0
/-- The libcurl code of a transfer that timed out. -/
def CURLE_OPERATION_TIMEDOUT : Int := 28

/-- HTTP client: whether the curl handle is present, and the configuration.  The
response and error buffers are scratch space refilled by every transfer. -/
structure SwimHttpClient where
  curl : Bool
  config : SwimClientConfig
  deriving DecidableEq

/-- One POST handed to libcurl. -/
structure HttpRequest where
  url : String
  headers : List String
  json_body : String
  timeout_ms : Int
  verify_ssl : Bool
  deriving DecidableEq

/-- The outcome of `swim_http_post`: the returned status, the result structure
after the call, and the transfers performed. -/
structure PostOutcome where
  status : SwimStatus
  result : Option SwimIngestResult
  requests : List HttpRequest
  deriving DecidableEq

/-- The result structure `memset` to zero. -/
def zeroResult : SwimIngestResult :=
  { status := SWIM_OK, http_code := 0, processed := 0, created := 0, updated := 0,
    errors := 0, error_message := "" }

/-- The C library `isspace`. -/
def cIsSpace (c : Char) : Bool :=
  c = ' ' ∨ c = '\t' ∨ c = '\n' ∨ c = '\x0b' ∨ c = '\x0c' ∨ c = '\r'

/-- The digits read by `atoi`, accumulated. -/
def cDigits : List Char → Int → Int
  | [], acc => acc
  | c :: cs, acc => if c.isDigit then cDigits cs (acc * 10 + (c.toNat - 48 : Int)) else acc

/-- The value of a mathematical integer as `strtol` returns it in a 64-bit
`long`: a value out of range is `LONG_MAX` or `LONG_MIN`. -/
def clampLong (x : Int) : Int :=
  if x > 9223372036854775807 then 9223372036854775807
  else if x < -9223372036854775808 then -9223372036854775808
  else x

/-- The C library `atoi`, which is `(int) strtol(s, NULL, 10)`: a value out of
the range of `long` is clamped, and the conversion to `int` wraps. -/
def cAtoi (s : List Char) : Int :=
  match s.dropWhile cIsSpace with
  | '-' :: r => wrapInt32 (clampLong (-(cDigits r 0)))
  | '+' :: r => wrapInt32 (clampLong (cDigits r 0))
  | r => wrapInt32 (clampLong (cDigits r 0))

/-- Whether the text starts with the given characters. -/
def cStartsWith : List Char → List Char → Bool
  | _, [] => true
  | [], _ :: _ => false
  | h :: hs, n :: ns => h = n && cStartsWith hs ns

/-- The C library `strstr`: the text from the first occurrence on, if any. -/
def cStrstr : List Char → List Char → Option (List Char)
  | [], needle => if needle.isEmpty then some [] else none
  | h :: hs, needle =>
    if cStartsWith (h :: hs) needle then some (h :: hs) else cStrstr hs needle

/-- The counter the response body gives for a key: `atoi` after the first
occurrence of the key text, which is `skip` characters long; `old` when the key
does not occur. -/
def parseCounter (data : String) (key : String) (skip : Nat) (old : Int) : Int :=
  match cStrstr data.data key.data with
  | some rest => cAtoi (rest.drop skip)
  | none => old

/-- Perform HTTP POST request. -/
def swim_http_post (client : Option SwimHttpClient) (endpoint : Option String)
    (json_body : Option String) (result : Option SwimIngestResult) (curl : CurlOutcome) :
    PostOutcome :=
  match client, endpoint, json_body, result with
  | some c, some ep, some body, some _ =>
    if !c.curl then ⟨SWIM_ERROR_INVALID_DATA, result, []⟩
    else
      let url :=
        ((if c.config.base_url ≠ "" then c.config.base_url else SWIM_DEFAULT_BASE_URL)
          ++ ep).take 511
      let headers :=
        ["Content-Type: application/json",
         ("Authorization: Bearer " ++ c.config.api_key).take 255] ++
        (if c.config.source_id ≠ "" then [("X-SWIM-Source: " ++ c.config.source_id).take 63]
         else [])
      let timeout := if c.config.timeout_ms > 0 then c.config.timeout_ms else 30000
      let req : HttpRequest :=
        { url := url, headers := headers, json_body := body, timeout_ms := timeout,
          verify_ssl := c.config.verify_ssl }
      -- Check result
      if curl.res ≠ CURLE_OK then
        let st := if curl.res = CURLE_OPERATION_TIMEDOUT then SWIM_ERROR_TIMEOUT
                  else SWIM_ERROR_NETWORK
        ⟨st, some { zeroResult with
                    status := st
                    error_message :=
                      ("CURL error: " ++
                        (if curl.error_buffer ≠ "" then curl.error_buffer
                         else curl.strerror)).take 255 }, [req]⟩
      else
        -- Get HTTP status code
        let http_code := curl.response_code
        let r : SwimIngestResult := { zeroResult with http_code := wrapInt32 http_code }
        -- Map HTTP status to result
        if http_code = 200 ∨ http_code = 201 then
          ⟨SWIM_OK,
           some { r with
                  status := SWIM_OK
                  processed := parseCounter curl.response_data "\"processed\":" 12 r.processed
                  created := parseCounter curl.response_data "\"created\":" 10 r.created
                  updated := parseCounter curl.response_data "\"updated\":" 10 r.updated },
           [req]⟩
        else if http_code = 401 ∨ http_code = 403 then
          ⟨SWIM_ERROR_AUTH,
           some { r with
                  status := SWIM_ERROR_AUTH
                  error_message :=
                    ("Authentication failed (HTTP " ++ toString (wrapInt32 http_code)
                      ++ ")").take 255 }, [req]⟩
        else if http_code = 429 then
          ⟨SWIM_ERROR_RATE_LIMIT,
           some { r with status := SWIM_ERROR_RATE_LIMIT
                         error_message := "Rate limit exceeded" }, [req]⟩
        else if http_code ≥ 500 then
          ⟨SWIM_ERROR_SERVER,
           some { r with
                  status := SWIM_ERROR_SERVER
                  error_message :=
                    ("Server error (HTTP " ++ toString (wrapInt32 http_code) ++ ")").take 255 },
           [req]⟩
        else
          ⟨SWIM_ERROR_INVALID_DATA,
           some { r with
                  status := SWIM_ERROR_INVALID_DATA
                  error_message :=
                    ("Request failed (HTTP " ++ toString (wrapInt32 http_code) ++ ")").take 255 },
           [req]⟩
  | _, _, _, _ => ⟨SWIM_ERROR_INVALID_DATA, result, []⟩

/-- Initialize HTTP client; `curl_handle` is whether `curl_easy_init` returns a
handle. -/
def swim_http_init (client : Option SwimHttpClient) (config : Option SwimClientConfig)
    (curl_handle : Bool) : Option SwimHttpClient × Bool :=
  match client, config with
  | some _, some cfg => (some { curl := curl_handle, config := cfg }, curl_handle)
  | c, _ => (c, false)

/-! ## `swim.h`: the client -/

/-- SWIM client. -/
structure SwimClient where
  http : SwimHttpClient
  config : SwimClientConfig
  oooi : SwimOOOIDetector
  throttle : SwimPositionThrottle
  initialized : Bool

/-- What a client call does besides computing its results, in order: each
element handed to its serializer, and each call of `swim_http_post` with its
endpoint, body and the transfers it performed. -/
inductive ClientEvent where
  | serialize_track (track : SwimTrackUpdate)
  | serialize_flight (flight : SwimFlightIngest)
  | http_post (endpoint : String) (json_body : String) (requests : List HttpRequest)

/-- The outcome of an ingest call: the returned status, the result structure
after the call, and what the call did. -/
structure IngestOutcome where
  status : SwimStatus
  result : Option SwimIngestResult
  events : List ClientEvent

/-- The outcome of `swim_client_send_position_throttled`: the returned flag, the
client and the caller's result structure after the call, and what the call
did. -/
structure SendOutcome where
  sent : Bool
  client : Option SwimClient
  result : Option SwimIngestResult
  events : List ClientEvent

/-- Initialize SWIM client; `curl_handle` is whether `curl_easy_init` returns a
handle. -/
def swim_client_init (client : Option SwimClient) (config : Option SwimClientConfig)
    (curl_handle : Bool) : Option SwimClient × Bool :=
  match client, config with
  | some _, some cfg =>
    -- Set defaults if not provided
    let cfg := if cfg.base_url = "" then { cfg with base_url := SWIM_DEFAULT_BASE_URL } else cfg
    let cfg := if cfg.timeout_ms = 0 then { cfg with timeout_ms := 30000 } else cfg
    let zeroThrottle : SwimPositionThrottle :=
      { last_send_time := 0, last_lat := .finite 0, last_lon := .finite 0, last_alt := 0,
        min_interval_sec := 0, min_distance_nm := .finite 0, min_alt_change_ft := 0 }
    let zeroHttp : SwimHttpClient :=
      { curl := false
        config := { api_key := "", base_url := "", source_id := "",
                    tier := SwimApiTier.SWIM_TIER_PUBLIC, timeout_ms := 0, verify_ssl := false } }
    -- Initialize HTTP client
    match swim_http_init (some zeroHttp) (some cfg) curl_handle with
    | (some h, true) =>
      match swim_oooi_init (some zeroDetector),
            swim_throttle_init (some zeroThrottle) 5 (.finite (1 / 2)) 100 with
      | some o, some t =>
        (some { http := h, config := cfg, oooi := o, throttle := t, initialized := true }, true)
      | _, _ => (client, false)
    | (h, _) =>
      (some { http := h.getD zeroHttp, config := cfg, oooi := zeroDetector,
              throttle := zeroThrottle, initialized := false }, false)
  | c, _ => (c, false)

/-- Ingest track updates (position data).  The array `tracks` holds at least
`count` entries. -/
def swim_client_ingest_track (lib : CLib) (client : Option SwimClient)
    (tracks : Option (List SwimTrackUpdate)) (count : Int) (result : Option SwimIngestResult)
    (curl : CurlOutcome) : IngestOutcome :=
  match client, tracks, result with
  | some c, some ts, some r =>
    if !c.initialized || decide (count ≤ 0) then
      ⟨SWIM_ERROR_INVALID_DATA,
       some { r with status := SWIM_ERROR_INVALID_DATA, error_message := "Invalid parameters" },
       []⟩
    else
      let count := if count > SWIM_MAX_BATCH_TRACKS then SWIM_MAX_BATCH_TRACKS else count
      -- Build JSON
      let init := swim_json_init (count * 256)
      if !init.2 then
        ⟨SWIM_ERROR_BUFFER,
         some { r with status := SWIM_ERROR_BUFFER
                       error_message := "Failed to allocate JSON buffer" }, []⟩
      else
        let json := swim_json_object_start init.1
        let json := swim_json_array_start json (some "tracks")
        let batch := ts.take count.toNat
        let json := batch.foldl (swim_json_track lib) json
        let json := swim_json_array_end json
        let json := swim_json_object_end json
        -- Send request
        let post := swim_http_post (some c.http) (some "/ingest/track")
          (some (swim_json_get json)) (some r) curl
        ⟨post.status, post.result,
         batch.map ClientEvent.serialize_track ++
           [ClientEvent.http_post "/ingest/track" (swim_json_get json) post.requests]⟩
  | _, _, some r =>
    ⟨SWIM_ERROR_INVALID_DATA,
     some { r with status := SWIM_ERROR_INVALID_DATA, error_message := "Invalid parameters" },
     []⟩
  | _, _, none => ⟨SWIM_ERROR_INVALID_DATA, none, []⟩

/-- Ingest ADL flight data.  The array `flights` holds at least `count`
entries. -/
def swim_client_ingest_adl (lib : CLib) (client : Option SwimClient)
    (flights : Option (List SwimFlightIngest)) (count : Int) (result : Option SwimIngestResult)
    (curl : CurlOutcome) : IngestOutcome :=
  match client, flights, result with
  | some c, some fs, some r =>
    if !c.initialized || decide (count ≤ 0) then
      ⟨SWIM_ERROR_INVALID_DATA,
       some { r with status := SWIM_ERROR_INVALID_DATA, error_message := "Invalid parameters" },
       []⟩
    else
      let count := if count > SWIM_MAX_BATCH_ADL then SWIM_MAX_BATCH_ADL else count
      -- Build JSON
      let init := swim_json_init (count * 512)
      if !init.2 then
        ⟨SWIM_ERROR_BUFFER,
         some { r with status := SWIM_ERROR_BUFFER
                       error_message := "Failed to allocate JSON buffer" }, []⟩
      else
        let json := swim_json_object_start init.1
        let json := swim_json_array_start json (some "flights")
        let batch := fs.take count.toNat
        let json := batch.foldl (swim_json_flight_ingest lib) json
        let json := swim_json_array_end json
        let json := swim_json_object_end json
        -- Send request
        let post := swim_http_post (some c.http) (some "/ingest/adl")
          (some (swim_json_get json)) (some r) curl
        ⟨post.status, post.result,
         batch.map ClientEvent.serialize_flight ++
           [ClientEvent.http_post "/ingest/adl" (swim_json_get json) post.requests]⟩
  | _, _, some r =>
    ⟨SWIM_ERROR_INVALID_DATA,
     some { r with status := SWIM_ERROR_INVALID_DATA, error_message := "Invalid parameters" },
     []⟩
  | _, _, none => ⟨SWIM_ERROR_INVALID_DATA, none, []⟩

/-- Check if position should be sent based on throttling. -/
def swim_client_should_send_position (client : Option SwimClient) (pos : Option SwimPosition)
    (now : Int) : Bool :=
  match client, pos with
  | some c, some p => swim_throttle_should_send (some c.throttle) (some p) now
  | _, _ => false

/-- Mark position as sent: the client after the call. -/
def swim_client_mark_position_sent (client : Option SwimClient) (pos : Option SwimPosition)
    (now : Int) : Option SwimClient :=
  match client, pos with
  | some c, some p =>
    match swim_throttle_mark_sent (some c.throttle) (some p) now with
    | some t => some { c with throttle := t }
    | none => some c
  | c, _ => c

/-- Convenience function: send single track if throttle allows.  The three clock
readings are those of the throttle check, of the track timestamp and of
`swim_throttle_mark_sent`; `local_result` is the content of the local result
structure used when the caller passes none. -/
def swim_client_send_position_throttled (lib : CLib) (client : Option SwimClient)
    (callsign : Option String) (pos : Option SwimPosition) (result : Option SwimIngestResult)
    (now_check now_stamp now_mark : Int) (local_result : SwimIngestResult)
    (curl : CurlOutcome) : SendOutcome :=
  match client, callsign, pos with
  | some c, some cs, some p =>
    if !c.initialized then ⟨false, client, result, []⟩
    else if !swim_client_should_send_position client pos now_check then
      -- Throttled
      ⟨false, client, result, []⟩
    else
      -- Build track update
      let track : SwimTrackUpdate :=
        { callsign := cs.take (SWIM_MAX_CALLSIGN - 1), position := p, timestamp := now_stamp,
          squawk := "" }
      -- Send
      let out := swim_client_ingest_track lib client (some [track]) 1
        (some (result.getD local_result)) curl
      let result' := if result.isSome then out.result else none
      if out.status = SWIM_OK then
        ⟨true, swim_client_mark_position_sent client pos now_mark, result', out.events⟩
      else ⟨false, client, result', out.events⟩
  | _, _, _ => ⟨false, client, result, []⟩

/-! ## The text the serializer writes

Closed forms of what the builder functions append, used to state and prove the
shape of the request bodies. -/

/-- The separator `swim_json_comma` writes: a comma when the depth is an index
of the nesting arrays and a value was already written at it. -/
def jsonSep (j : SwimJsonBuilder) : String :=
  if j.depth < 0 ∨ j.depth ≥ SWIM_JSON_MAX_DEPTH then ""
  else if j.first_item j.depth then "" else ","

/-- The builder after a value with the given text is written at the current
depth: separator, text, and the depth marked as no longer empty. -/
def jsonEmit (j : SwimJsonBuilder) (text : String) : SwimJsonBuilder :=
  { j with buffer := j.buffer ++ (jsonSep j ++ text)
           first_item :=
             if j.depth < 0 ∨ j.depth ≥ SWIM_JSON_MAX_DEPTH then j.first_item
             else Function.update j.first_item j.depth false }

/-- The builder after the values with the given texts are written in order. -/
def jsonEmitAll (j : SwimJsonBuilder) (texts : List String) : SwimJsonBuilder :=
  texts.foldl jsonEmit j

/-- The text the escape loop of `swim_json_string` appends. -/
def jsonEscapeText : List Char → String
  | [] => ""
  | c :: cs =>
    (if c = '"' ∨ c = '\\' then String.mk ['\\', c]
     else if c = '\n' then "\\n"
     else if c = '\r' then "\\r"
     else if c = '\t' then "\\t"
     else String.mk [c]) ++ jsonEscapeText cs

/-- The text of a key: quoted and followed by a colon, or nothing. -/
def jsonKeyText (key : Option String) : String :=
  match key with
  | some k => "\"" ++ (k ++ "\":")
  | none => ""

/-- The text `swim_json_string` writes after the separator. -/
def jsonStringText (key : Option String) (value : Option String) : String :=
  jsonKeyText key ++
    (match value with
     | some v => "\"" ++ (jsonEscapeText v.data ++ "\"")
     | none => "null")

/-- The text `swim_json_int` writes after the separator. -/
def jsonIntText (key : Option String) (value : Int) : String :=
  match key with
  | some k => ("\"" ++ k ++ "\":" ++ toString value).take 63
  | none => (toString value).take 63

/-- The text `swim_json_double` writes after the separator. -/
def jsonDoubleText (lib : CLib) (key : Option String) (value : CFloat) (precision : Int) :
    String :=
  jsonKeyText key ++ lib.snprintf_f (if precision > 0 then precision else 6) value

/-- The text `swim_json_bool` writes after the separator. -/
def jsonBoolText (key : Option String) (value : Bool) : String :=
  match key with
  | some k => ("\"" ++ k ++ "\":" ++ (if value then "true" else "false")).take 63
  | none => ((if value then "true" else "false" : String)).take 63

/-- The text `swim_json_null` writes after the separator. -/
def jsonNullText (key : Option String) : String :=
  match key with
  | some k => ("\"" ++ k ++ "\":null").take 63
  | none => "null"

/-- The text `swim_json_timestamp` writes after the separator. -/
def jsonTimestampText (lib : CLib) (key : Option String) (timestamp : Int) : String :=
  if timestamp = 0 then jsonNullText key
  else
    match lib.gmtime_strftime timestamp with
    | none => jsonNullText key
    | some buf => jsonStringText key (some buf)

/-- The field texts `swim_json_track` writes between the braces, in order. -/
def trackFields (lib : CLib) (track : SwimTrackUpdate) : List String :=
  [jsonStringText (some "callsign") (some track.callsign),
   jsonDoubleText lib (some "latitude") track.position.latitude 6,
   jsonDoubleText lib (some "longitude") track.position.longitude 6] ++
  (if track.position.altitude_ft ≠ 0 then
    [jsonIntText (some "altitude_ft") track.position.altitude_ft] else []) ++
  (if track.position.groundspeed_kts ≠ 0 then
    [jsonIntText (some "ground_speed_kts") track.position.groundspeed_kts] else []) ++
  (if track.position.heading_deg ≠ 0 then
    [jsonIntText (some "heading_deg") track.position.heading_deg] else []) ++
  (if track.position.vertical_rate ≠ 0 then
    [jsonIntText (some "vertical_rate_fpm") track.position.vertical_rate] else []) ++
  (if track.squawk ≠ "" then [jsonStringText (some "squawk") (some track.squawk)] else []) ++
  (if track.timestamp ≠ 0 then
    [jsonTimestampText lib (some "timestamp") track.timestamp] else [])

/-- The field texts `swim_json_flight_ingest` writes between the braces, in
order. -/
def flightFields (lib : CLib) (flight : SwimFlightIngest) : List String :=
  [jsonStringText (some "callsign") (some flight.callsign),
   jsonStringText (some "dept_icao") (some flight.dept_icao),
   jsonStringText (some "dest_icao") (some flight.dest_icao)] ++
  (if flight.cid > 0 then [jsonIntText (some "cid") flight.cid] else []) ++
  (if flight.aircraft_type ≠ "" then
    [jsonStringText (some "aircraft_type") (some flight.aircraft_type)] else []) ++
  (if flight.route ≠ "" then [jsonStringText (some "route") (some flight.route)] else []) ++
  (if flight.cruise_altitude_ft > 0 then
    [jsonIntText (some "cruise_altitude") flight.cruise_altitude_ft] else []) ++
  (if flight.cruise_speed_kts > 0 then
    [jsonIntText (some "cruise_speed") flight.cruise_speed_kts] else []) ++
  (if (flight.has_position && SWIM_IS_VALID_POSITION flight.position) = true then
    [jsonDoubleText lib (some "latitude") flight.position.latitude 6,
     jsonDoubleText lib (some "longitude") flight.position.longitude 6,
     jsonIntText (some "altitude") flight.position.altitude_ft,
     jsonIntText (some "groundspeed") flight.position.groundspeed_kts,
     jsonIntText (some "heading") flight.position.heading_deg,
     jsonIntText (some "vertical_rate_fpm") flight.position.vertical_rate] else []) ++
  (if flight.oooi.out_utc > 0 then
    [jsonTimestampText lib (some "out_utc") flight.oooi.out_utc] else []) ++
  (if flight.oooi.off_utc > 0 then
    [jsonTimestampText lib (some "off_utc") flight.oooi.off_utc] else []) ++
  (if flight.oooi.on_utc > 0 then
    [jsonTimestampText lib (some "on_utc") flight.oooi.on_utc] else []) ++
  (if flight.oooi.in_utc > 0 then
    [jsonTimestampText lib (some "in_utc") flight.oooi.in_utc] else []) ++
  (if flight.eta_utc > 0 then [jsonTimestampText lib (some "eta_utc") flight.eta_utc] else []) ++
  (if flight.etd_utc > 0 then [jsonTimestampText lib (some "etd_utc") flight.etd_utc] else []) ++
  (if flight.phase ≠ SWIM_PHASE_UNKNOWN then
    [jsonStringText (some "phase") (some (swim_phase_to_string flight.phase))] else []) ++
  [jsonBoolText (some "is_active") flight.is_active]

/-- The object `swim_json_track` writes for a track update: the text it leaves
in a freshly initialised builder. -/
def trackObject (lib : CLib) (track : SwimTrackUpdate) : String :=
  swim_json_get (swim_json_track lib (swim_json_init 0).1 track)

/-- The object `swim_json_flight_ingest` writes for a flight: the text it leaves
in a freshly initialised builder. -/
def flightObject (lib : CLib) (flight : SwimFlightIngest) : String :=
  swim_json_get (swim_json_flight_ingest lib (swim_json_init 0).1 flight)

/-- The body the `Build JSON` block of `swim_client_ingest_track` leaves in the
builder for the entries it serializes. -/
def trackBatchBody (lib : CLib) (batch : List SwimTrackUpdate) (capacity : Int) : String :=
  swim_json_get
    (swim_json_object_end
      (swim_json_array_end
        (batch.foldl (swim_json_track lib)
          (swim_json_array_start (swim_json_object_start (swim_json_init capacity).1)
            (some "tracks")))))

/-- The body the `Build JSON` block of `swim_client_ingest_adl` leaves in the
builder for the entries it serializes. -/
def flightBatchBody (lib : CLib) (batch : List SwimFlightIngest) (capacity : Int) : String :=
  swim_json_get
    (swim_json_object_end
      (swim_json_array_end
        (batch.foldl (swim_json_flight_ingest lib)
          (swim_json_array_start (swim_json_object_start (swim_json_init capacity).1)
            (some "flights")))))

/-- The number of entries an ingest call serializes: `count` capped. -/
def batchSize (count cap : Int) : Nat := (if count > cap then cap else count).toNat

/-! ## Sample values -/

/-- A C library whose formatting functions return fixed texts. -/
def sampleLib : CLib :=
  { snprintf_f := fun _ _ => "40.641300", gmtime_strftime := fun _ => some "2023-11-14T22:13:20Z" }

/-- A client configuration. -/
def sampleConfig : SwimClientConfig :=
  { api_key := "swim_par_key", base_url := "", source_id := "msfs_plugin",
    tier := SwimApiTier.SWIM_TIER_PARTNER, timeout_ms := 5000, verify_ssl := true }

/-- An initialised client whose throttle last sent at clock 1700000000. -/
def sampleClient : SwimClient :=
  { http := { curl := true
              config := { sampleConfig with base_url := SWIM_DEFAULT_BASE_URL } }
    config := { sampleConfig with base_url := SWIM_DEFAULT_BASE_URL }
    oooi := zeroDetector
    throttle := { last_send_time := 1700000000, last_lat := .finite 40, last_lon := .finite (-70),
                  last_alt := 10000, min_interval_sec := 5, min_distance_nm := .finite (1 / 2),
                  min_alt_change_ft := 100 }
    initialized := true }

/-- A position. -/
def samplePosition : SwimPosition :=
  { latitude := .finite 40, longitude := .finite (-70), altitude_ft := 10150, heading_deg := 90,
    groundspeed_kts := 250, vertical_rate := 0, true_airspeed := 250, mach_number := .finite 0,
    on_ground := false }

/-- A track update. -/
def sampleTrack : SwimTrackUpdate :=
  { callsign := "UAL123", position := samplePosition, timestamp := 1700000000, squawk := "1200" }

/-- A flight. -/
def sampleFlight : SwimFlightIngest :=
  { callsign := "UAL123", dept_icao := "KJFK", dest_icao := "KLAX", cid := 0,
    aircraft_type := "B738", route := "", cruise_altitude_ft := 35000, cruise_speed_kts := 450,
    position := samplePosition, has_position := true,
    oooi := { out_utc := 0, off_utc := 0, on_utc := 0, in_utc := 0 }, eta_utc := 0, etd_utc := 0,
    phase := SWIM_PHASE_ENROUTE, is_active := true }

/-- A completed transfer answered with HTTP 200. -/
def sampleCurlOk : CurlOutcome :=
  { res := 0, error_buffer := "", strerror := "", response_code := 200,
    response_data := "\x7b\"processed\":1,\"created\":1,\"updated\":0\x7d" }

/-- A completed transfer answered with HTTP 202. -/
def sampleCurlAccepted : CurlOutcome :=
  { res := 0, error_buffer := "", strerror := "", response_code := 202, response_data := "" }

/-- A transfer that timed out. -/
def sampleCurlTimeout : CurlOutcome :=
  { res := 28, error_buffer := "Operation timed out", strerror := "Timeout was reached",
    response_code := 0, response_data := "" }

/-- A throttle that last sent from latitude 0, longitude 0 and 10000 ft at
clock 1700000000, with interval 5 s, altitude threshold 100 ft and the given
distance threshold. -/
def throttleAtOrigin (min_distance_nm : ℚ) : SwimPositionThrottle :=
  { last_send_time := 1700000000, last_lat := .finite 0, last_lon := .finite 0,
    last_alt := 10000, min_interval_sec := 5, min_distance_nm := .finite min_distance_nm,
    min_alt_change_ft := 100 }

/-- A position at the given latitude and longitude and 10000 ft. -/
def positionAt (lat lon : ℚ) : SwimPosition :=
  { latitude := .finite lat, longitude := .finite lon, altitude_ft := 10000, heading_deg := 90,
    groundspeed_kts := 250, vertical_rate := 0, true_airspeed := 250, mach_number := .finite 0,
    on_ground := false }

/-! ## `telemetry.h`: flight phase detection -/

/-- Detect flight phase from telemetry and OOOI state; the detector can be
null. -/
def swim_detect_phase (detector : Option SwimOOOIDetector) (gs_kts : CFloat)
    (on_ground : Bool) (agl_ft : CFloat) (vs_fpm : CFloat) (dist_to_dest_nm : CFloat) :
    SwimFlightPhase :=
  -- `detector && detector->flag`
  let has (flag : SwimOOOIDetector → Bool) : Bool :=
    match detector with
    | some d => flag d
    | none => false
  -- Check OOOI state if available
  if has (fun d => d.in_detected) then SWIM_PHASE_ARRIVED
  else if has (fun d => d.on_detected) then SWIM_PHASE_TAXI_IN
  -- Ground phases
  else if on_ground then
    if gs_kts.lt (.finite 5) then
      if has (fun d => d.on_detected) then SWIM_PHASE_TAXI_IN
      else if has (fun d => d.out_detected) then SWIM_PHASE_TAXI_OUT
      else SWIM_PHASE_PREFLIGHT
    else if gs_kts.ge (.finite 60) then
      -- High speed on ground - takeoff or landing roll
      if has (fun d => d.off_detected && !d.on_detected) then SWIM_PHASE_LANDING
      else SWIM_PHASE_TAKEOFF
    -- Taxiing
    else if has (fun d => d.on_detected) then SWIM_PHASE_TAXI_IN
    else if has (fun d => d.out_detected) then SWIM_PHASE_TAXI_OUT
    else SWIM_PHASE_PUSHBACK
  -- Airborne phases
  else if agl_ft.lt (.finite 3000) && vs_fpm.gt SWIM_OOOI_CLIMB_MIN_VS then
    SWIM_PHASE_DEPARTURE
  else if agl_ft.lt (.finite 3000) && vs_fpm.lt SWIM_OOOI_DESCENT_MAX_VS then
    SWIM_PHASE_APPROACH
  else if vs_fpm.lt SWIM_OOOI_DESCENT_MAX_VS || dist_to_dest_nm.lt (.finite 100) then
    SWIM_PHASE_DESCENT
  else SWIM_PHASE_ENROUTE

/-- The return statement `swim_detect_zone` leaves through, numbered in source
order from 1 to 9: Final, Approach, Airborne, Parking (parked), Runway,
Taxiway, Hold, Parking (the last statement of the ground branch), Unknown. -/
def swim_detect_zone_return (gs_kts : CFloat) (on_ground : Bool) (agl_ft : CFloat)
    (vs_fpm : CFloat) (parking_brake : Bool) : SwimAirportZone × Nat :=
  if !on_ground && agl_ft.gt SWIM_OOOI_AIRBORNE_MIN_AGL then
    if agl_ft.le SWIM_OOOI_FINAL_MAX_AGL && vs_fpm.lt SWIM_OOOI_DESCENT_MAX_VS then
      (SWIM_ZONE_FINAL, 1)
    else if agl_ft.le SWIM_OOOI_APPROACH_MAX_AGL && vs_fpm.lt (.finite 0) then
      (SWIM_ZONE_APPROACH, 2)
    else
      (SWIM_ZONE_AIRBORNE, 3)
  else if on_ground then
    if gs_kts.lt SWIM_OOOI_PARKED_MAX_GS && parking_brake then
      (SWIM_ZONE_PARKING, 4)
    else if gs_kts.ge SWIM_OOOI_TAKEOFF_MIN_GS then
      (SWIM_ZONE_RUNWAY, 5)
    else if gs_kts.ge SWIM_OOOI_TAXI_MIN_GS then
      (SWIM_ZONE_TAXIWAY, 6)
    else if !parking_brake && gs_kts.lt SWIM_OOOI_PARKED_MAX_GS then
      (SWIM_ZONE_HOLD, 7)
    else
      (SWIM_ZONE_PARKING, 8)
  else
    (SWIM_ZONE_UNKNOWN, 9)

/-! ## Keys of the fields of a serialized object -/

/-- A field text carries the key `key`: it starts with the quoted key followed
by a colon. -/
def fieldHasKey (key field : String) : Prop :=
  (jsonKeyText (some key)).data <+: field.data

instance (key field : String) : Decidable (fieldHasKey key field) := by
  unfold fieldHasKey
  infer_instance

/-- A key is present in an object with the given field texts: one of the fields
carries it. -/
def objectHasKey (key : String) (fields : List String) : Prop :=
  ∃ f ∈ fields, fieldHasKey key f

instance (key : String) (fields : List String) : Decidable (objectHasKey key fields) := by
  unfold objectHasKey
  infer_instance

/-- The keys `swim_json_track` passes to the builder. -/
def trackKeyNames : List String :=
  ["callsign", "latitude", "longitude", "altitude_ft", "ground_speed_kts", "heading_deg",
   "vertical_rate_fpm", "squawk", "timestamp"]

/-- The keys of the fields `swim_json_track` writes, in order. -/
def trackKeys (track : SwimTrackUpdate) : List String :=
  ["callsign", "latitude", "longitude"] ++
  (if track.position.altitude_ft ≠ 0 then ["altitude_ft"] else []) ++
  (if track.position.groundspeed_kts ≠ 0 then ["ground_speed_kts"] else []) ++
  (if track.position.heading_deg ≠ 0 then ["heading_deg"] else []) ++
  (if track.position.vertical_rate ≠ 0 then ["vertical_rate_fpm"] else []) ++
  (if track.squawk ≠ "" then ["squawk"] else []) ++
  (if track.timestamp ≠ 0 then ["timestamp"] else [])

/-- A C library that formats every value as 0.000000 and has no calendar. -/
def zeroLib : CLib :=
  { snprintf_f := fun _ _ => "0.000000", gmtime_strftime := fun _ => none }

/-- A track update all of whose fields are empty or zero. -/
def zeroTrack : SwimTrackUpdate :=
  { callsign := ""
    position := { latitude := .finite 0, longitude := .finite 0, altitude_ft := 0,
                  heading_deg := 0, groundspeed_kts := 0, vertical_rate := 0, true_airspeed := 0,
                  mach_number := .finite 0, on_ground := false }
    timestamp := 0
    squawk := "" }

/-! ## Runs of throttled sends -/

/-- The arguments of one `swim_client_send_position_throttled` call, with the
clock readings, the local result structure and the libcurl report of that
call. -/
structure SendCall where
  callsign : Option String
  pos : Option SwimPosition
  result : Option SwimIngestResult
  now_check : Int
  now_stamp : Int
  now_mark : Int
  local_result : SwimIngestResult
  curl : CurlOutcome

/-- One `swim_client_send_position_throttled` call. -/
def sendCall (lib : CLib) (client : Option SwimClient) (k : SendCall) : SendOutcome :=
  swim_client_send_position_throttled lib client k.callsign k.pos k.result k.now_check
    k.now_stamp k.now_mark k.local_result k.curl

/-- The outcomes of a sequence of `swim_client_send_position_throttled` calls
on one client, in call order. -/
def runSends (lib : CLib) (client : Option SwimClient) : List SendCall → List SendOutcome
  | [] => []
  | k :: ks => sendCall lib client k :: runSends lib (sendCall lib client k).client ks

/-- The client after a sequence of `swim_client_send_position_throttled`
calls. -/
def clientAfterSends (lib : CLib) (client : Option SwimClient) :
    List SendCall → Option SwimClient
  | [] => client
  | k :: ks => clientAfterSends lib (sendCall lib client k).client ks

/-- A call for `samplePosition` whose transfer is answered 200, with the clock
readings of the throttle check and of `swim_throttle_mark_sent`. -/
def sampleSend (t_check t_mark : Int) : SendCall :=
  { callsign := some "UAL123", pos := some samplePosition, result := none,
    now_check := t_check, now_stamp := t_check, now_mark := t_mark,
    local_result := zeroResult, curl := sampleCurlOk }

/-! ## Auxiliary facts about one update -/

set_option maxHeartbeats 1000000 in
/-- The transition block computed field by field from the state before it: each
rule's guard only reads fields that no earlier rule of the same call can have
changed in a way that matters, because the zone pairs of the four rules are
pairwise incompatible. -/
theorem oooiTransition_eq (d : SwimOOOIDetector) (now : Int) (z : SwimAirportZone) :
    oooiTransition d now z =
      ({ current_zone := z
         previous_zone := d.current_zone
         times :=
           { out_utc :=
               if (!d.out_detected && d.current_zone == SWIM_ZONE_PARKING &&
                   (z == SWIM_ZONE_TAXIWAY || z == SWIM_ZONE_HOLD)) = true
               then now else d.times.out_utc
             off_utc :=
               if (!d.off_detected && d.out_detected &&
                   (d.current_zone == SWIM_ZONE_RUNWAY || d.current_zone == SWIM_ZONE_TAXIWAY) &&
                   z == SWIM_ZONE_AIRBORNE) = true
               then now else d.times.off_utc
             on_utc :=
               if (!d.on_detected && d.off_detected &&
                   (d.current_zone == SWIM_ZONE_AIRBORNE || d.current_zone == SWIM_ZONE_APPROACH ||
                     d.current_zone == SWIM_ZONE_FINAL) &&
                   (z == SWIM_ZONE_RUNWAY || z == SWIM_ZONE_TAXIWAY)) = true
               then now else d.times.on_utc
             in_utc :=
               if (!d.in_detected && d.on_detected &&
                   (d.current_zone == SWIM_ZONE_TAXIWAY || d.current_zone == SWIM_ZONE_HOLD) &&
                   z == SWIM_ZONE_PARKING) = true
               then now else d.times.in_utc }
         out_detected := d.out_detected ||
           (d.current_zone == SWIM_ZONE_PARKING && (z == SWIM_ZONE_TAXIWAY || z == SWIM_ZONE_HOLD))
         off_detected := d.off_detected ||
           (d.out_detected &&
             (d.current_zone == SWIM_ZONE_RUNWAY || d.current_zone == SWIM_ZONE_TAXIWAY) &&
             z == SWIM_ZONE_AIRBORNE)
         on_detected := d.on_detected ||
           (d.off_detected &&
             (d.current_zone == SWIM_ZONE_AIRBORNE || d.current_zone == SWIM_ZONE_APPROACH ||
               d.current_zone == SWIM_ZONE_FINAL) &&
             (z == SWIM_ZONE_RUNWAY || z == SWIM_ZONE_TAXIWAY))
         in_detected := d.in_detected ||
           (d.on_detected &&
             (d.current_zone == SWIM_ZONE_TAXIWAY || d.current_zone == SWIM_ZONE_HOLD) &&
             z == SWIM_ZONE_PARKING)
         last_update := d.last_update },
       (!d.out_detected && d.current_zone == SWIM_ZONE_PARKING &&
           (z == SWIM_ZONE_TAXIWAY || z == SWIM_ZONE_HOLD)) ||
         (!d.off_detected && d.out_detected &&
           (d.current_zone == SWIM_ZONE_RUNWAY || d.current_zone == SWIM_ZONE_TAXIWAY) &&
           z == SWIM_ZONE_AIRBORNE) ||
         (!d.on_detected && d.off_detected &&
           (d.current_zone == SWIM_ZONE_AIRBORNE || d.current_zone == SWIM_ZONE_APPROACH ||
             d.current_zone == SWIM_ZONE_FINAL) &&
           (z == SWIM_ZONE_RUNWAY || z == SWIM_ZONE_TAXIWAY)) ||
         (!d.in_detected && d.on_detected &&
           (d.current_zone == SWIM_ZONE_TAXIWAY || d.current_zone == SWIM_ZONE_HOLD) &&
           z == SWIM_ZONE_PARKING)) := by
  rcases d with ⟨cz, pz, ⟨t1, t2, t3, t4⟩, o, f, n, i, lu⟩
  cases o <;> cases f <;> cases n <;> cases i <;> cases cz <;> cases z <;> rfl

/-- One update of a non-null detector, by whether the frame's zone is the
detector's current zone. -/
theorem updateFrame_some (d : SwimOOOIDetector) (f : Frame) :
    updateFrame (some d) f =
      if f.zone = d.current_zone then (some { d with last_update := f.now }, false)
      else (some { (oooiTransition d f.now f.zone).1 with last_update := f.now },
            (oooiTransition d f.now f.zone).2) := by
  by_cases h : f.zone = d.current_zone
  · have h' : swim_detect_zone f.gs_kts f.on_ground f.agl_ft f.vs_fpm f.parking_brake
        = d.current_zone := h
    simp [updateFrame, swim_oooi_update, h, h']
  · have h' : ¬ swim_detect_zone f.gs_kts f.on_ground f.agl_ft f.vs_fpm f.parking_brake
        = d.current_zone := h
    simp [updateFrame, swim_oooi_update, h, h', Frame.zone]

/-- The ordering invariant holds of the initial state. -/
theorem flagsOrdered_zero : FlagsOrdered zeroDetector := by
  simp [FlagsOrdered, zeroDetector]

/-- One update of a non-null detector yields a detector, and preserves the
ordering invariant. -/
theorem flagsOrdered_update (d : SwimOOOIDetector) (f : Frame) (h : FlagsOrdered d) :
    ∃ d', (updateFrame (some d) f).1 = some d' ∧ FlagsOrdered d' := by
  rw [updateFrame_some]
  by_cases hz : f.zone = d.current_zone
  · rw [if_pos hz]
    exact ⟨_, rfl, h⟩
  · rw [if_neg hz]
    refine ⟨_, rfl, ?_⟩
    rcases h with ⟨h1, h2, h3⟩
    simp only [FlagsOrdered, oooiTransition_eq]
    generalize f.zone = z at *
    rcases d with ⟨cz, pz, ts, o, ff, n, i, lu⟩
    cases o <;> cases ff <;> cases n <;> cases i <;> simp_all

/-- Any run from a non-null detector satisfying the invariant ends in one. -/
theorem flagsOrdered_run (fs : List Frame) :
    ∀ d : SwimOOOIDetector, FlagsOrdered d →
      ∃ d', runUpdates (some d) fs = some d' ∧ FlagsOrdered d' := by
  induction fs with
  | nil => intro d h; exact ⟨d, rfl, h⟩
  | cons f fs ih =>
    intro d h
    obtain ⟨d1, e1, h1⟩ := flagsOrdered_update d f h
    obtain ⟨d2, e2, h2⟩ := ih d1 h1
    exact ⟨d2, by simp [runUpdates, e1, e2], h2⟩

/-- One update of a non-null detector on a frame of known zone. -/
theorem updateFrame_of_zone (d : SwimOOOIDetector) (f : Frame) (z : SwimAirportZone)
    (hz : f.zone = z) :
    updateFrame (some d) f =
      if z = d.current_zone then (some { d with last_update := f.now }, false)
      else (some { (oooiTransition d f.now z).1 with last_update := f.now },
            (oooiTransition d f.now z).2) := by
  rw [updateFrame_some, hz]

/-- The zones of the eight scenario frames. -/
theorem scenarioFrames_zones (o1 o2 o3 o4 o5 o6 o7 o8 : Frame) :
    (scenarioFrames o1 o2 o3 o4 o5 o6 o7 o8).map Frame.zone =
      [SWIM_ZONE_PARKING, SWIM_ZONE_HOLD, SWIM_ZONE_TAXIWAY, SWIM_ZONE_RUNWAY,
       SWIM_ZONE_AIRBORNE, SWIM_ZONE_RUNWAY, SWIM_ZONE_TAXIWAY, SWIM_ZONE_PARKING] := by
  simp [scenarioFrames, Frame.zone, swim_detect_zone, CFloat.lt, CFloat.le, CFloat.gt, CFloat.ge,
    SWIM_OOOI_PARKED_MAX_GS, SWIM_OOOI_TAXI_MIN_GS, SWIM_OOOI_TAKEOFF_MIN_GS,
    SWIM_OOOI_AIRBORNE_MIN_AGL, SWIM_OOOI_APPROACH_MAX_AGL, SWIM_OOOI_FINAL_MAX_AGL,
    SWIM_OOOI_DESCENT_MAX_VS]
  norm_num

/-- The return values and completeness readings of the scenario run. -/
theorem scenarioFrames_run (o1 o2 o3 o4 o5 o6 o7 o8 : Frame) :
    runReturns (some zeroDetector) (scenarioFrames o1 o2 o3 o4 o5 o6 o7 o8) =
      [false, true, false, false, true, true, false, true] ∧
    runComplete (some zeroDetector) (scenarioFrames o1 o2 o3 o4 o5 o6 o7 o8) =
      [false, false, false, false, false, false, false, true] := by
  have hz := scenarioFrames_zones o1 o2 o3 o4 o5 o6 o7 o8
  simp only [scenarioFrames, List.map_cons, List.map_nil, List.cons.injEq, and_true] at hz
  obtain ⟨z1, z2, z3, z4, z5, z6, z7, z8⟩ := hz
  have e1 := updateFrame_of_zone zeroDetector _ _ z1
  have e2 := updateFrame_of_zone
    ⟨SWIM_ZONE_PARKING, SWIM_ZONE_UNKNOWN, ⟨0, 0, 0, 0⟩, false, false, false, false, o1.now⟩
    _ _ z2
  have e3 := updateFrame_of_zone
    ⟨SWIM_ZONE_HOLD, SWIM_ZONE_PARKING, ⟨o2.now, 0, 0, 0⟩, true, false, false, false, o2.now⟩
    _ _ z3
  have e4 := updateFrame_of_zone
    ⟨SWIM_ZONE_TAXIWAY, SWIM_ZONE_HOLD, ⟨o2.now, 0, 0, 0⟩, true, false, false, false, o3.now⟩
    _ _ z4
  have e5 := updateFrame_of_zone
    ⟨SWIM_ZONE_RUNWAY, SWIM_ZONE_TAXIWAY, ⟨o2.now, 0, 0, 0⟩, true, false, false, false, o4.now⟩
    _ _ z5
  have e6 := updateFrame_of_zone
    ⟨SWIM_ZONE_AIRBORNE, SWIM_ZONE_RUNWAY, ⟨o2.now, o5.now, 0, 0⟩, true, true, false, false,
      o5.now⟩ _ _ z6
  have e7 := updateFrame_of_zone
    ⟨SWIM_ZONE_RUNWAY, SWIM_ZONE_AIRBORNE, ⟨o2.now, o5.now, o6.now, 0⟩, true, true, true, false,
      o6.now⟩ _ _ z7
  have e8 := updateFrame_of_zone
    ⟨SWIM_ZONE_TAXIWAY, SWIM_ZONE_RUNWAY, ⟨o2.now, o5.now, o6.now, 0⟩, true, true, true, false,
      o7.now⟩ _ _ z8
  simp [oooiTransition, zeroDetector] at e1 e2 e3 e4 e5 e6 e7 e8
  simp [scenarioFrames, runReturns, runComplete, swim_oooi_is_complete, zeroDetector,
    e1, e2, e3, e4, e5, e6, e7, e8]

/-! ## Auxiliary facts about runs, machine integers and real square roots -/

/-- The zones of the first three scenario frames. -/
theorem scenarioOutFrames_zones (o1 o2 o3 : Frame) :
    (scenarioOutFrames o1 o2 o3).map Frame.zone =
      [SWIM_ZONE_PARKING, SWIM_ZONE_HOLD, SWIM_ZONE_TAXIWAY] := by
  simp [scenarioOutFrames, Frame.zone, swim_detect_zone, CFloat.lt, CFloat.le, CFloat.gt,
    CFloat.ge, SWIM_OOOI_PARKED_MAX_GS, SWIM_OOOI_TAXI_MIN_GS, SWIM_OOOI_TAKEOFF_MIN_GS]
  norm_num

set_option maxHeartbeats 1000000 in
/-- One update of a non-null detector never clears a flag, and returns true
only when it sets one: the count of set flags grows by the number of flags the
call sets, which is one when the call returns true and zero when it returns
false. -/
theorem flagsSet_update (d : SwimOOOIDetector) (f : Frame) :
    ∃ d', (updateFrame (some d) f).1 = some d' ∧
      flagsSet d + flagsNewlySet d d' = flagsSet d' ∧
      flagsNewlySet d d' = (updateFrame (some d) f).2.toNat := by
  rw [updateFrame_some]
  by_cases hz : f.zone = d.current_zone
  · rw [if_pos hz]
    refine ⟨_, rfl, ?_⟩
    rcases d with ⟨cz, pz, ts, o, ff, n, i, lu⟩
    cases o <;> cases ff <;> cases n <;> cases i <;> exact ⟨rfl, rfl⟩
  · rw [if_neg hz]
    refine ⟨_, rfl, ?_⟩
    simp only [oooiTransition_eq]
    generalize f.zone = z at *
    rcases d with ⟨cz, pz, ts, o, ff, n, i, lu⟩
    cases o <;> cases ff <;> cases n <;> cases i <;> cases cz <;> cases z <;> exact ⟨rfl, rfl⟩

/-- At most four flags are set. -/
theorem flagsSet_le_four (d : SwimOOOIDetector) : flagsSet d ≤ 4 := by
  rcases d with ⟨cz, pz, ts, o, ff, n, i, lu⟩
  cases o <;> cases ff <;> cases n <;> cases i <;> simp [flagsSet]

/-- Over any run from a non-null detector, the flags gained are one for each
call that returns true. -/
theorem flagsSet_run (fs : List Frame) :
    ∀ d : SwimOOOIDetector,
      ∃ d', runUpdates (some d) fs = some d' ∧
        flagsSet d + (runReturns (some d) fs).count true = flagsSet d' := by
  induction fs with
  | nil => intro d; exact ⟨d, rfl, rfl⟩
  | cons f fs ih =>
    intro d
    obtain ⟨d1, e1, h1, r1⟩ := flagsSet_update d f
    obtain ⟨d2, e2, h2⟩ := ih d1
    refine ⟨d2, by simp [runUpdates, e1, e2], ?_⟩
    simp only [runReturns, e1, List.count_cons]
    cases hb : (updateFrame (some d) f).2 <;> simp [hb] at r1 ⊢ <;> omega

/-- A run over a concatenation is the run over the second part from the state
the first part ends in. -/
theorem runUpdates_append (xs ys : List Frame) :
    ∀ d : Option SwimOOOIDetector,
      runUpdates d (xs ++ ys) = runUpdates (runUpdates d xs) ys := by
  induction xs with
  | nil => intro d; rfl
  | cons x xs ih => intro d; simp [runUpdates, ih]

/-- One update of a non-null detector keeps every set flag set, and a flag it
sets had its prerequisite flag set before the call. -/
theorem flags_step (d : SwimOOOIDetector) (f : Frame) :
    ∃ d', (updateFrame (some d) f).1 = some d' ∧
      (d.out_detected = true → d'.out_detected = true) ∧
      (d.off_detected = true → d'.off_detected = true) ∧
      (d.on_detected = true → d'.on_detected = true) ∧
      (d.in_detected = true → d'.in_detected = true) ∧
      (d.off_detected = false → d'.off_detected = true → d.out_detected = true) ∧
      (d.on_detected = false → d'.on_detected = true → d.off_detected = true) ∧
      (d.in_detected = false → d'.in_detected = true → d.on_detected = true) := by
  rw [updateFrame_some]
  by_cases hz : f.zone = d.current_zone
  · rw [if_pos hz]
    refine ⟨_, rfl, ?_⟩
    rcases d with ⟨cz, pz, ts, o, ff, n, i, lu⟩
    cases o <;> cases ff <;> cases n <;> cases i <;> simp
  · rw [if_neg hz]
    refine ⟨_, rfl, ?_⟩
    simp only [oooiTransition_eq]
    generalize f.zone = z at *
    rcases d with ⟨cz, pz, ts, o, ff, n, i, lu⟩
    cases o <;> cases ff <;> cases n <;> cases i <;> simp

/-- Over any run from a non-null detector every set flag stays set. -/
theorem flags_mono_run (fs : List Frame) :
    ∀ d : SwimOOOIDetector,
      ∃ d', runUpdates (some d) fs = some d' ∧
        (d.out_detected = true → d'.out_detected = true) ∧
        (d.off_detected = true → d'.off_detected = true) ∧
        (d.on_detected = true → d'.on_detected = true) ∧
        (d.in_detected = true → d'.in_detected = true) := by
  induction fs with
  | nil => intro d; exact ⟨d, rfl, id, id, id, id⟩
  | cons f fs ih =>
    intro d
    obtain ⟨d1, e1, a1, a2, a3, a4, -⟩ := flags_step d f
    obtain ⟨d2, e2, b1, b2, b3, b4⟩ := ih d1
    exact ⟨d2, by simp [runUpdates, e1, e2], fun h => b1 (a1 h), fun h => b2 (a2 h),
      fun h => b3 (a3 h), fun h => b4 (a4 h)⟩

/-- One update keeps the timestamps of the detected events in chain order and
at most the clock reading of the call, when they were at most that reading
before. -/
theorem timesOrdered_update (d : SwimOOOIDetector) (f : Frame)
    (ho : FlagsOrdered d) (ht : TimesOrdered d) (hb : StampsAtMost d f.now) :
    ∃ d', (updateFrame (some d) f).1 = some d' ∧
      FlagsOrdered d' ∧ TimesOrdered d' ∧ StampsAtMost d' f.now := by
  rw [updateFrame_some]
  by_cases hz : f.zone = d.current_zone
  · rw [if_pos hz]
    exact ⟨_, rfl, ho, ht, hb⟩
  · rw [if_neg hz]
    refine ⟨_, rfl, ?_⟩
    rcases ho with ⟨o1, o2, o3⟩
    rcases ht with ⟨t1, t2, t3⟩
    rcases hb with ⟨b1, b2, b3, b4⟩
    simp only [FlagsOrdered, TimesOrdered, StampsAtMost, oooiTransition_eq]
    generalize f.zone = z at *
    generalize f.now = c at *
    rcases d with ⟨cz, pz, ⟨u1, u2, u3, u4⟩, o, ff, n, i, lu⟩
    cases o <;> cases ff <;> cases n <;> cases i <;> simp_all

/-- A bound on the stamps stays a bound when it grows. -/
theorem stampsAtMost_mono (d : SwimOOOIDetector) (c c' : Int) (h : StampsAtMost d c)
    (hc : c ≤ c') : StampsAtMost d c' :=
  ⟨fun x => (h.1 x).trans hc, fun x => (h.2.1 x).trans hc, fun x => (h.2.2.1 x).trans hc,
   fun x => (h.2.2.2 x).trans hc⟩

/-- Over a run with non-decreasing clock readings the timestamps of the detected
events stay in chain order. -/
theorem timesOrdered_run (fs : List Frame) :
    ∀ d : SwimOOOIDetector, FlagsOrdered d → TimesOrdered d →
      (fs.map Frame.now).Sorted (· ≤ ·) → (∀ g ∈ fs, StampsAtMost d g.now) →
      ∃ d', runUpdates (some d) fs = some d' ∧ FlagsOrdered d' ∧ TimesOrdered d' := by
  induction fs with
  | nil => intro d ho ht _ _; exact ⟨d, rfl, ho, ht⟩
  | cons f fs ih =>
    intro d ho ht hs hb
    rw [List.map_cons, List.sorted_cons] at hs
    obtain ⟨d1, e1, ho1, ht1, hb1⟩ :=
      timesOrdered_update d f ho ht (hb f (List.mem_cons_self f fs))
    have hb1' : ∀ g ∈ fs, StampsAtMost d1 g.now := fun g hg =>
      stampsAtMost_mono d1 f.now g.now hb1 (hs.1 g.now (List.mem_map_of_mem Frame.now hg))
    obtain ⟨d2, e2, h2⟩ := ih d1 ho1 ht1 hs.2 hb1'
    exact ⟨d2, by simp [runUpdates, e1, e2], h2⟩

/-- What `firedIn` says, spelled out. -/
theorem firedIn_iff (flag : SwimOOOIDetector → Bool) (d0 : Option SwimOOOIDetector)
    (frames : List Frame) (k : Nat) :
    firedIn flag d0 frames k = true ↔
      k < frames.length ∧ ∃ b a, runUpdates d0 (frames.take k) = some b ∧
        runUpdates d0 (frames.take (k + 1)) = some a ∧ flag b = false ∧ flag a = true := by
  unfold firedIn
  cases h1 : runUpdates d0 (frames.take k) <;> cases h2 : runUpdates d0 (frames.take (k + 1)) <;>
    simp

/-- The state before call `j` is reached from the state before call `i <= j` by
the calls in between. -/
theorem runUpdates_take_le (d0 : Option SwimOOOIDetector) (frames : List Frame) (i j : Nat)
    (h : i ≤ j) :
    runUpdates d0 (frames.take j) =
      runUpdates (runUpdates d0 (frames.take i)) ((frames.take j).drop i) := by
  rw [← runUpdates_append]
  congr 1
  have : frames.take i = (frames.take j).take i := by
    rw [List.take_take, min_eq_left h]
  rw [this, List.take_append_drop]

/-- The state after call `k` is one update of the state before it. -/
theorem runUpdates_take_succ (d0 : Option SwimOOOIDetector) (frames : List Frame) (k : Nat)
    (h : k < frames.length) :
    runUpdates d0 (frames.take (k + 1)) =
      (updateFrame (runUpdates d0 (frames.take k)) (frames.get ⟨k, h⟩)).1 := by
  rw [List.take_succ, runUpdates_append]
  simp [List.getElem?_eq_getElem h, runUpdates]

/-- If a later event can only fire in a state where an earlier one is already
detected, and the earlier flag is never cleared, then in every run from the
initial state the earlier event fires in a strictly earlier call. -/
theorem firedIn_lt (E L : SwimOOOIDetector → Bool) (frames : List Frame)
    (hmono : ∀ (fs : List Frame) (d : SwimOOOIDetector), E d = true →
      ∃ d', runUpdates (some d) fs = some d' ∧ E d' = true)
    (hpre : ∀ (d : SwimOOOIDetector) (f : Frame) (d' : SwimOOOIDetector), FlagsOrdered d →
      (updateFrame (some d) f).1 = some d' → L d = false → L d' = true → E d = true)
    (i j : Nat) (hi : firedIn E (some zeroDetector) frames i = true)
    (hj : firedIn L (some zeroDetector) frames j = true) : i < j := by
  rw [firedIn_iff] at hi hj
  obtain ⟨-, bi, ai, ebi, -, hEb, -⟩ := hi
  obtain ⟨hjl, bj, aj, ebj, eaj, hLb, hLa⟩ := hj
  by_contra hcon
  push_neg at hcon
  obtain ⟨bj', ebj', hord⟩ := flagsOrdered_run (frames.take j) zeroDetector flagsOrdered_zero
  rw [ebj] at ebj'
  cases ebj'
  rw [runUpdates_take_succ _ _ _ hjl, ebj] at eaj
  have hE : E bj = true := hpre bj _ aj hord eaj hLb hLa
  obtain ⟨d', ed', hE'⟩ := hmono ((frames.take i).drop j) bj hE
  rw [runUpdates_take_le _ _ j i hcon, ebj, ed'] at ebi
  cases ebi
  rw [hE'] at hEb
  exact Bool.noConfusion hEb

/-- Within the `int32_t` range the wrap-around is the identity. -/
theorem wrapInt32_of_range (x : Int) (h1 : -2147483648 ≤ x) (h2 : x ≤ 2147483647) :
    wrapInt32 x = x := by
  unfold wrapInt32
  omega

/-- When neither the difference nor its absolute value overflows, the computed
`alt_diff` is the absolute difference. -/
theorem absInt32_wrapInt32_of_range (x : Int) (h1 : -2147483647 ≤ x) (h2 : x ≤ 2147483647) :
    absInt32 (wrapInt32 x) = |x| := by
  rw [wrapInt32_of_range x (by omega) h2]
  unfold absInt32
  apply wrapInt32_of_range
  · have := abs_nonneg x; omega
  · exact abs_le.mpr ⟨by omega, h2⟩

/-- The comparison `sqrt(q) * k >= m` over the reals, for rational `q >= 0` and
`k > 0`, decided without a square root. -/
theorem real_sqrt_mul_ge_iff (q k m : ℚ) (hq : 0 ≤ q) (hk : 0 < k) :
    (m : ℝ) ≤ Real.sqrt (q : ℝ) * (k : ℝ) ↔ (m ≤ 0 ∨ m * m ≤ k * k * q) := by
  have hqR : (0 : ℝ) ≤ (q : ℝ) := by exact_mod_cast hq
  have hkR : (0 : ℝ) < (k : ℝ) := by exact_mod_cast hk
  have hs : (0 : ℝ) ≤ Real.sqrt (q : ℝ) := Real.sqrt_nonneg _
  have key : (m ≤ 0 ∨ m * m ≤ k * k * q) ↔ (m : ℝ) ≤ Real.sqrt (q : ℝ) * (k : ℝ) := by
    constructor
    · rintro (h | h)
      · have hm : (m : ℝ) ≤ 0 := by exact_mod_cast h
        exact hm.trans (mul_nonneg hs hkR.le)
      · have hR : (m : ℝ) * m ≤ k * k * q := by exact_mod_cast h
        by_contra hc
        push_neg at hc
        have hpos : (0 : ℝ) ≤ Real.sqrt (q : ℝ) * (k : ℝ) := mul_nonneg hs hkR.le
        have h2 : (Real.sqrt (q : ℝ) * k) * (Real.sqrt (q : ℝ) * k) < (m : ℝ) * m :=
          mul_self_lt_mul_self hpos hc
        have h3 : (Real.sqrt (q : ℝ) * k) * (Real.sqrt (q : ℝ) * k) = k * k * q := by
          have := Real.mul_self_sqrt hqR
          calc (Real.sqrt (q : ℝ) * k) * (Real.sqrt (q : ℝ) * k)
              = k * k * (Real.sqrt (q : ℝ) * Real.sqrt (q : ℝ)) := by ring
            _ = k * k * q := by rw [this]
        linarith
    · intro h
      by_cases hm : m ≤ 0
      · exact Or.inl hm
      · right
        push_neg at hm
        have hmR : (0 : ℝ) < (m : ℝ) := by exact_mod_cast hm
        have h2 : (m : ℝ) * m ≤ (Real.sqrt (q : ℝ) * k) * (Real.sqrt (q : ℝ) * k) :=
          mul_self_le_mul_self hmR.le h
        have h3 : (Real.sqrt (q : ℝ) * k) * (Real.sqrt (q : ℝ) * k) = k * k * q := by
          have := Real.mul_self_sqrt hqR
          calc (Real.sqrt (q : ℝ) * k) * (Real.sqrt (q : ℝ) * k)
              = k * k * (Real.sqrt (q : ℝ) * Real.sqrt (q : ℝ)) := by ring
            _ = k * k * q := by rw [this]
        have h4 : (m : ℝ) * m ≤ k * k * q := by linarith
        exact_mod_cast h4
  exact key.symm

/-! ## Auxiliary facts about the assignments to the timestamps -/

set_option maxHeartbeats 2000000 in
/-- The transition block with its assignments, computed from the state before
it: the detector and the return value are those of `oooiTransition`, and each
rule that fires contributes the assignment of its timestamp. -/
theorem oooiTransitionStamps_eq (d : SwimOOOIDetector) (now : Int) (z : SwimAirportZone) :
    oooiTransitionStamps d now z =
      ((oooiTransition d now z).1, (oooiTransition d now z).2,
       (if (!d.out_detected && d.current_zone == SWIM_ZONE_PARKING &&
             (z == SWIM_ZONE_TAXIWAY || z == SWIM_ZONE_HOLD)) = true
          then [⟨.out_utc, now⟩] else []) ++
       (if (!d.off_detected && d.out_detected &&
             (d.current_zone == SWIM_ZONE_RUNWAY || d.current_zone == SWIM_ZONE_TAXIWAY) &&
             z == SWIM_ZONE_AIRBORNE) = true
          then [⟨.off_utc, now⟩] else []) ++
       (if (!d.on_detected && d.off_detected &&
             (d.current_zone == SWIM_ZONE_AIRBORNE || d.current_zone == SWIM_ZONE_APPROACH ||
               d.current_zone == SWIM_ZONE_FINAL) &&
             (z == SWIM_ZONE_RUNWAY || z == SWIM_ZONE_TAXIWAY)) = true
          then [⟨.on_utc, now⟩] else []) ++
       (if (!d.in_detected && d.on_detected &&
             (d.current_zone == SWIM_ZONE_TAXIWAY || d.current_zone == SWIM_ZONE_HOLD) &&
             z == SWIM_ZONE_PARKING) = true
          then [⟨.in_utc, now⟩] else [])) := by
  rcases d with ⟨cz, pz, ⟨t1, t2, t3, t4⟩, o, f, n, i, lu⟩
  cases o <;> cases f <;> cases n <;> cases i <;> cases cz <;> cases z <;> rfl

set_option maxHeartbeats 2000000 in
/-- The assignments of one transition block: there are as many as the return
value says (one or none), the timestamps after the block are the timestamps
before it with the assignments applied, and each assignment is to the timestamp
of a flag that the block takes from unset to set. -/
theorem oooiTransitionStamps_spec (d : SwimOOOIDetector) (now : Int) (z : SwimAirportZone) :
    (oooiTransitionStamps d now z).2.2.length = (oooiTransition d now z).2.toNat ∧
    (oooiTransition d now z).1.times =
      (oooiTransitionStamps d now z).2.2.foldl SwimOOOI.write d.times ∧
    (oooiTransitionStamps d now z).2.2.Forall
      (fun w => w.field.flag d = false ∧ w.field.flag (oooiTransition d now z).1 = true) := by
  rw [oooiTransitionStamps_eq, oooiTransition_eq]
  rcases d with ⟨cz, pz, ⟨t1, t2, t3, t4⟩, o, f, n, i, lu⟩
  cases o <;> cases f <;> cases n <;> cases i <;> cases cz <;> cases z <;>
    first
      | exact ⟨rfl, rfl, trivial⟩
      | exact ⟨rfl, rfl, rfl, rfl⟩

/-- One `swim_oooi_update` call with its assignments: the detector and the
return value are those of `swim_oooi_update`; there are as many assignments as
the return value says, the timestamps after the call are the timestamps before
it with the assignments applied, and each assignment is to the timestamp of a
flag that the call takes from unset to set. -/
theorem swim_oooi_update_stamps_spec (d : SwimOOOIDetector) (f : Frame) :
    ∃ d' log,
      swim_oooi_update_stamps (some d) f.now f.gs_kts f.on_ground f.agl_ft f.vs_fpm
        f.parking_brake = (some d', (updateFrame (some d) f).2, log) ∧
      (updateFrame (some d) f).1 = some d' ∧
      log.length = (updateFrame (some d) f).2.toNat ∧
      d'.times = log.foldl SwimOOOI.write d.times ∧
      (∀ w ∈ log, w.field.flag d = false ∧ w.field.flag d' = true) := by
  have hz : swim_detect_zone f.gs_kts f.on_ground f.agl_ft f.vs_fpm f.parking_brake = f.zone :=
    rfl
  rw [updateFrame_some]
  unfold swim_oooi_update_stamps
  simp only [hz]
  by_cases h : f.zone = d.current_zone
  · have hb : (f.zone != d.current_zone) = false := by simp [h]
    rw [if_pos h]
    simp only [hb, Bool.false_eq_true, if_false]
    exact ⟨_, _, rfl, rfl, rfl, rfl, fun w hw => absurd hw (List.not_mem_nil w)⟩
  · have hb : (f.zone != d.current_zone) = true := by simp [h]
    obtain ⟨h1, h2, h3⟩ := oooiTransitionStamps_spec d f.now f.zone
    rw [if_neg h]
    simp only [hb, if_true]
    rw [oooiTransitionStamps_eq] at h1 h2 h3 ⊢
    refine ⟨_, _, rfl, rfl, h1, h2, ?_⟩
    intro w hw
    have := (List.forall_iff_forall_mem.mp h3) w hw
    cases hf : w.field <;> simp only [hf, SwimOOOIField.flag] at this ⊢ <;> exact this

/-- A flag that is set stays set over one `swim_oooi_update` call. -/
theorem flag_update_mono (d d' : SwimOOOIDetector) (f : Frame) (x : SwimOOOIField)
    (h : (updateFrame (some d) f).1 = some d') (hx : x.flag d = true) : x.flag d' = true := by
  obtain ⟨d1, e1, h1, h2, h3, h4, -⟩ := flags_step d f
  have e : d1 = d' := Option.some.inj (e1.symm.trans h)
  rw [e] at h1 h2 h3 h4
  cases x
  · exact h1 hx
  · exact h2 hx
  · exact h3 hx
  · exact h4 hx

/-- The assignments of a run from a non-null detector: one for each call that
returns true; the timestamps at the end are the timestamps at the start with
the assignments applied in order; each is to the timestamp of a flag that was
unset at the start; and no timestamp is assigned twice. -/
theorem runStamps_spec (fs : List Frame) :
    ∀ d : SwimOOOIDetector,
      ∃ d', runUpdates (some d) fs = some d' ∧
        (runStamps (some d) fs).length = (runReturns (some d) fs).count true ∧
        d'.times = (runStamps (some d) fs).foldl SwimOOOI.write d.times ∧
        (∀ w ∈ runStamps (some d) fs, w.field.flag d = false) ∧
        ((runStamps (some d) fs).map StampWrite.field).Nodup := by
  induction fs with
  | nil => intro d; exact ⟨d, rfl, rfl, rfl, fun w hw => absurd hw (List.not_mem_nil w),
      List.nodup_nil⟩
  | cons f fs ih =>
    intro d
    obtain ⟨d1, log, e, e1, hl, ht, hf⟩ := swim_oooi_update_stamps_spec d f
    obtain ⟨d2, e2, hl2, ht2, hf2, hn2⟩ := ih d1
    have hlen : log.length ≤ 1 := by rw [hl]; exact Bool.toNat_le _
    refine ⟨d2, by simp [runUpdates, e1, e2], ?_, ?_, ?_, ?_⟩
    · simp only [runStamps, runReturns, e, e1, List.length_append, hl, hl2, List.count_cons]
      cases (updateFrame (some d) f).2 <;> simp
      omega
    · simp only [runStamps, e, List.foldl_append, ← ht, ht2]
    · intro w hw
      simp only [runStamps, e, List.mem_append] at hw
      rcases hw with hw | hw
      · exact (hf w hw).1
      · cases h : w.field.flag d
        · rfl
        · have t1 := flag_update_mono d d1 f w.field e1 h
          rw [hf2 w hw] at t1
          cases t1
    · simp only [runStamps, e, List.map_append]
      refine List.Nodup.append ?_ hn2 ?_
      · match log, hlen with
        | [], _ => exact List.nodup_nil
        | [a], _ => exact List.nodup_singleton _
      · intro x hx1 hx2
        obtain ⟨w1, hw1, rfl⟩ := List.mem_map.mp hx1
        obtain ⟨w2, hw2, e12⟩ := List.mem_map.mp hx2
        have t1 := (hf w1 hw1).2
        have t2 := hf2 w2 hw2
        rw [e12, t1] at t2
        cases t2

/-! ## Auxiliary facts about the `double` arithmetic -/

/-- Halving finds the integer part of the base-2 logarithm when the fuel
suffices. -/
theorem CFloat.log2Fuel_spec :
    ∀ (fuel n : Nat), 0 < n → n ≤ fuel →
      2 ^ CFloat.log2Fuel fuel n ≤ n ∧ n < 2 ^ (CFloat.log2Fuel fuel n + 1) := by
  intro fuel
  induction fuel with
  | zero => intro n h0 h; omega
  | succ fuel ih =>
    intro n h0 h
    unfold CFloat.log2Fuel
    split_ifs with h2
    · obtain ⟨a, b⟩ := ih (n / 2) (by omega) (by omega)
      constructor
      · rw [pow_succ]
        omega
      · rw [pow_succ]
        omega
    · have : n = 1 := by omega
      subst this
      simp

/-- The integer part of the base-2 logarithm: `2 ^ ilog2 n <= n < 2 ^ (ilog2 n + 1)`. -/
theorem CFloat.ilog2_spec (n : Nat) (h : 0 < n) :
    2 ^ CFloat.ilog2 n ≤ n ∧ n < 2 ^ (CFloat.ilog2 n + 1) :=
  CFloat.log2Fuel_spec n n h le_rfl

/-- The nearest integer: `roundHalfEven n d` is within one half of `n / d`. -/
theorem CFloat.roundHalfEven_spec (n d : Nat) (hd : 0 < d) :
    2 * (CFloat.roundHalfEven n d * d) ≤ 2 * n + d ∧
    2 * n ≤ 2 * (CFloat.roundHalfEven n d * d) + d := by
  have hm := Nat.div_add_mod n d
  have hlt := Nat.mod_lt n hd
  unfold CFloat.roundHalfEven
  generalize n / d = q at *
  generalize n % d = r at *
  subst hm
  have e1 : (q + 1) * d = d * q + d := by ring
  have e2 : q * d = d * q := Nat.mul_comm _ _
  split_ifs <;> rw [e2] at * <;> constructor <;> omega

/-- The bit-by-bit search keeps `r * r <= n < (r + 2 ^ k) * (r + 2 ^ k)` and ends
with the integer part of the square root. -/
theorem CFloat.isqrtBits_spec (n : Nat) :
    ∀ (k r : Nat), r * r ≤ n → n < (r + 2 ^ k) * (r + 2 ^ k) →
      CFloat.isqrtBits n k r * CFloat.isqrtBits n k r ≤ n ∧
      n < (CFloat.isqrtBits n k r + 1) * (CFloat.isqrtBits n k r + 1) := by
  intro k
  induction k with
  | zero =>
    intro r h1 h2
    simpa [CFloat.isqrtBits] using And.intro h1 h2
  | succ k ih =>
    intro r h1 h2
    unfold CFloat.isqrtBits
    split_ifs with hc
    · apply ih _ hc
      have : r + 2 ^ k + 2 ^ k = r + 2 ^ (k + 1) := by rw [pow_succ]; omega
      rw [this]
      exact h2
    · exact ih r h1 (by omega)

/-- The integer part of the square root:
`isqrt n * isqrt n <= n < (isqrt n + 1) * (isqrt n + 1)`. -/
theorem CFloat.isqrt_spec (n : Nat) :
    CFloat.isqrt n * CFloat.isqrt n ≤ n ∧ n < (CFloat.isqrt n + 1) * (CFloat.isqrt n + 1) := by
  unfold CFloat.isqrt
  apply CFloat.isqrtBits_spec n _ 0 (Nat.zero_le _)
  rcases Nat.eq_zero_or_pos n with h | h
  · subst h
    positivity
  · have h1 := (CFloat.ilog2_spec n h).2
    have h2 : 2 ^ (CFloat.ilog2 n + 1) ≤
        (0 + 2 ^ (CFloat.ilog2 n / 2 + 1)) * (0 + 2 ^ (CFloat.ilog2 n / 2 + 1)) := by
      rw [Nat.zero_add, ← pow_add]
      exact Nat.pow_le_pow_right (by norm_num) (by omega)
    omega

/-- Known values of the `double` arithmetic: the binary64 values nearest to
1/10 and 1/120, a tie at the smallest subnormal, the overflow threshold, the
square roots of 2 and of the smallest subnormal, and 0.1 + 0.2. -/
theorem CFloat.binary64_known_values :
    CFloat.roundDouble (1 / 10) = .finite (3602879701896397 / 2 ^ 55) ∧
    CFloat.roundDouble (1 / 120) = .finite (4803839602528529 / 2 ^ 59) ∧
    CFloat.roundDouble (1 / 2 ^ 1075) = .finite 0 ∧
    CFloat.roundDouble (3 / 2 ^ 1075) = .finite (2 / 2 ^ 1074) ∧
    CFloat.roundDouble (2 ^ 1024 - 2 ^ 970 - 1) = .finite (2 ^ 1024 - 2 ^ 971) ∧
    CFloat.roundDouble (2 ^ 1024 - 2 ^ 970) = .posInf ∧
    CFloat.roundDouble (-(2 ^ 1024)) = .negInf ∧
    CFloat.dsqrt (.finite 2) = .finite (6369051672525773 / 2 ^ 52) ∧
    CFloat.dsqrt (.finite (1 / 2 ^ 1074)) = .finite (1 / 2 ^ 537) ∧
    CFloat.dsqrt (.finite (-1)) = .nan ∧
    CFloat.dadd (.finite (3602879701896397 / 2 ^ 55)) (.finite (3602879701896397 / 2 ^ 54)) =
      .finite (1351079888211149 / 2 ^ 52) ∧
    CFloat.dmul .posInf (.finite 0) = .nan ∧
    CFloat.dsub .posInf .posInf = .nan := by
  refine ⟨?_, ?_, ?_, ?_, ?_, ?_, ?_, ?_, ?_, ?_, ?_, ?_, ?_⟩ <;> decide!

/-! ## The OOOI transition detector: properties -/

/-- Claim C1 (ordering invariant).  From an initialised or a reset detector, any
sequence of `swim_oooi_update` calls, whatever the samples and clock readings,
ends in a detector whose flags satisfy off_detected -> out_detected,
on_detected -> off_detected and in_detected -> on_detected: OFF is never
reported before OUT, ON never before OFF, IN never before ON. -/
theorem oooi_flags_ordered_after_any_run (d0 : SwimOOOIDetector) (frames : List Frame) :
    (∃ d, runUpdates (swim_oooi_init (some d0)) frames = some d ∧
      (d.off_detected = true → d.out_detected = true) ∧
      (d.on_detected = true → d.off_detected = true) ∧
      (d.in_detected = true → d.on_detected = true)) ∧
    (∃ d, runUpdates (swim_oooi_reset (some d0)) frames = some d ∧
      (d.off_detected = true → d.out_detected = true) ∧
      (d.on_detected = true → d.off_detected = true) ∧
      (d.in_detected = true → d.on_detected = true)) :=
  ⟨flagsOrdered_run frames zeroDetector flagsOrdered_zero,
   flagsOrdered_run frames zeroDetector flagsOrdered_zero⟩

/-- Claim C2 (one-shot).  For every detector state and frame, and for each of
the four events, a flag that is set before one `swim_oooi_update` call is still
set after it and its timestamp is the one it had before: the update never
clears a flag and never overwrites a stamped time. -/
theorem oooi_update_one_shot (d : SwimOOOIDetector) (f : Frame) :
    ∃ d', (updateFrame (some d) f).1 = some d' ∧
      (d.out_detected = true →
        d'.out_detected = true ∧ d'.times.out_utc = d.times.out_utc) ∧
      (d.off_detected = true →
        d'.off_detected = true ∧ d'.times.off_utc = d.times.off_utc) ∧
      (d.on_detected = true →
        d'.on_detected = true ∧ d'.times.on_utc = d.times.on_utc) ∧
      (d.in_detected = true →
        d'.in_detected = true ∧ d'.times.in_utc = d.times.in_utc) := by
  rw [updateFrame_some]
  by_cases hz : f.zone = d.current_zone
  · rw [if_pos hz]
    exact ⟨_, rfl, fun h => ⟨h, rfl⟩, fun h => ⟨h, rfl⟩, fun h => ⟨h, rfl⟩, fun h => ⟨h, rfl⟩⟩
  · rw [if_neg hz]
    refine ⟨_, rfl, ?_⟩
    simp only [oooiTransition_eq]
    refine ⟨?_, ?_, ?_, ?_⟩ <;> intro h <;> simp [h]

/-- Claim C3 (OUT rule).  One `swim_oooi_update` call turns out_detected from
false to true exactly when, before the call, out_detected was false, the zone
of the sample differs from current_zone, current_zone was Parking and the zone
of the sample is Taxiway or Hold; in that case out_utc becomes the clock
reading of the call, and in every other case out_detected and out_utc are what
they were. -/
theorem oooi_update_out_rule (d : SwimOOOIDetector) (f : Frame) :
    ∃ d', (updateFrame (some d) f).1 = some d' ∧
      ((d.out_detected = false ∧ d'.out_detected = true) ↔
        (d.out_detected = false ∧ f.zone ≠ d.current_zone ∧
          d.current_zone = SWIM_ZONE_PARKING ∧
          (f.zone = SWIM_ZONE_TAXIWAY ∨ f.zone = SWIM_ZONE_HOLD))) ∧
      ((d.out_detected = false ∧ f.zone ≠ d.current_zone ∧
          d.current_zone = SWIM_ZONE_PARKING ∧
          (f.zone = SWIM_ZONE_TAXIWAY ∨ f.zone = SWIM_ZONE_HOLD)) →
        d'.out_detected = true ∧ d'.times.out_utc = f.now) ∧
      (¬ (d.out_detected = false ∧ f.zone ≠ d.current_zone ∧
          d.current_zone = SWIM_ZONE_PARKING ∧
          (f.zone = SWIM_ZONE_TAXIWAY ∨ f.zone = SWIM_ZONE_HOLD)) →
        d'.out_detected = d.out_detected ∧ d'.times.out_utc = d.times.out_utc) := by
  rw [updateFrame_some]
  by_cases hz : f.zone = d.current_zone
  · rw [if_pos hz]
    refine ⟨_, rfl, ?_⟩
    simp [hz]
  · rw [if_neg hz]
    refine ⟨_, rfl, ?_⟩
    simp only [oooiTransition_eq]
    generalize f.zone = z at *
    rcases d with ⟨cz, pz, ts, o, ff, n, i, lu⟩
    cases o <;> simp_all

/-- Claim C4 (OFF rule).  One `swim_oooi_update` call turns off_detected from
false to true exactly when, before the call, off_detected was false,
out_detected was true, current_zone was Runway or Taxiway and the sample is
classified Airborne; in that case off_utc becomes the clock reading of the
call, and in every other case off_detected and off_utc are what they were. -/
theorem oooi_update_off_rule (d : SwimOOOIDetector) (f : Frame) :
    ∃ d', (updateFrame (some d) f).1 = some d' ∧
      ((d.off_detected = false ∧ d'.off_detected = true) ↔
        (d.off_detected = false ∧ d.out_detected = true ∧
          (d.current_zone = SWIM_ZONE_RUNWAY ∨ d.current_zone = SWIM_ZONE_TAXIWAY) ∧
          f.zone = SWIM_ZONE_AIRBORNE)) ∧
      ((d.off_detected = false ∧ d.out_detected = true ∧
          (d.current_zone = SWIM_ZONE_RUNWAY ∨ d.current_zone = SWIM_ZONE_TAXIWAY) ∧
          f.zone = SWIM_ZONE_AIRBORNE) →
        d'.off_detected = true ∧ d'.times.off_utc = f.now) ∧
      (¬ (d.off_detected = false ∧ d.out_detected = true ∧
          (d.current_zone = SWIM_ZONE_RUNWAY ∨ d.current_zone = SWIM_ZONE_TAXIWAY) ∧
          f.zone = SWIM_ZONE_AIRBORNE) →
        d'.off_detected = d.off_detected ∧ d'.times.off_utc = d.times.off_utc) := by
  rw [updateFrame_some]
  by_cases hz : f.zone = d.current_zone
  · rw [if_pos hz]
    refine ⟨_, rfl, ?_⟩
    generalize f.zone = z at *
    rcases d with ⟨cz, pz, ts, o, ff, n, i, lu⟩
    cases ff <;> cases o <;> simp_all
    cases cz <;> simp_all
  · rw [if_neg hz]
    refine ⟨_, rfl, ?_⟩
    simp only [oooiTransition_eq]
    generalize f.zone = z at *
    rcases d with ⟨cz, pz, ts, o, ff, n, i, lu⟩
    cases ff <;> cases o <;> simp_all

/-- Claim C5 (ON rule).  One `swim_oooi_update` call turns on_detected from
false to true exactly when, before the call, on_detected was false,
off_detected was true, current_zone was Airborne, Approach or Final and the
sample is classified Runway or Taxiway; in that case on_utc becomes the clock
reading of the call, and in every other case on_detected and on_utc are what
they were. -/
theorem oooi_update_on_rule (d : SwimOOOIDetector) (f : Frame) :
    ∃ d', (updateFrame (some d) f).1 = some d' ∧
      ((d.on_detected = false ∧ d'.on_detected = true) ↔
        (d.on_detected = false ∧ d.off_detected = true ∧
          (d.current_zone = SWIM_ZONE_AIRBORNE ∨ d.current_zone = SWIM_ZONE_APPROACH ∨
            d.current_zone = SWIM_ZONE_FINAL) ∧
          (f.zone = SWIM_ZONE_RUNWAY ∨ f.zone = SWIM_ZONE_TAXIWAY))) ∧
      ((d.on_detected = false ∧ d.off_detected = true ∧
          (d.current_zone = SWIM_ZONE_AIRBORNE ∨ d.current_zone = SWIM_ZONE_APPROACH ∨
            d.current_zone = SWIM_ZONE_FINAL) ∧
          (f.zone = SWIM_ZONE_RUNWAY ∨ f.zone = SWIM_ZONE_TAXIWAY)) →
        d'.on_detected = true ∧ d'.times.on_utc = f.now) ∧
      (¬ (d.on_detected = false ∧ d.off_detected = true ∧
          (d.current_zone = SWIM_ZONE_AIRBORNE ∨ d.current_zone = SWIM_ZONE_APPROACH ∨
            d.current_zone = SWIM_ZONE_FINAL) ∧
          (f.zone = SWIM_ZONE_RUNWAY ∨ f.zone = SWIM_ZONE_TAXIWAY)) →
        d'.on_detected = d.on_detected ∧ d'.times.on_utc = d.times.on_utc) := by
  rw [updateFrame_some]
  by_cases hz : f.zone = d.current_zone
  · rw [if_pos hz]
    refine ⟨_, rfl, ?_⟩
    generalize f.zone = z at *
    rcases d with ⟨cz, pz, ts, o, ff, n, i, lu⟩
    cases n <;> cases ff <;> simp_all
    cases cz <;> simp_all
  · rw [if_neg hz]
    refine ⟨_, rfl, ?_⟩
    simp only [oooiTransition_eq]
    generalize f.zone = z at *
    rcases d with ⟨cz, pz, ts, o, ff, n, i, lu⟩
    cases n <;> cases ff <;> simp_all
    cases cz <;> simp_all

/-- Claim C6 (IN rule).  One `swim_oooi_update` call turns in_detected from
false to true exactly when, before the call, in_detected was false, on_detected
was true, current_zone was Taxiway or Hold and the sample is classified
Parking; in that case in_utc becomes the clock reading of the call, and in
every other case in_detected and in_utc are what they were. -/
theorem oooi_update_in_rule (d : SwimOOOIDetector) (f : Frame) :
    ∃ d', (updateFrame (some d) f).1 = some d' ∧
      ((d.in_detected = false ∧ d'.in_detected = true) ↔
        (d.in_detected = false ∧ d.on_detected = true ∧
          (d.current_zone = SWIM_ZONE_TAXIWAY ∨ d.current_zone = SWIM_ZONE_HOLD) ∧
          f.zone = SWIM_ZONE_PARKING)) ∧
      ((d.in_detected = false ∧ d.on_detected = true ∧
          (d.current_zone = SWIM_ZONE_TAXIWAY ∨ d.current_zone = SWIM_ZONE_HOLD) ∧
          f.zone = SWIM_ZONE_PARKING) →
        d'.in_detected = true ∧ d'.times.in_utc = f.now) ∧
      (¬ (d.in_detected = false ∧ d.on_detected = true ∧
          (d.current_zone = SWIM_ZONE_TAXIWAY ∨ d.current_zone = SWIM_ZONE_HOLD) ∧
          f.zone = SWIM_ZONE_PARKING) →
        d'.in_detected = d.in_detected ∧ d'.times.in_utc = d.times.in_utc) := by
  rw [updateFrame_some]
  by_cases hz : f.zone = d.current_zone
  · rw [if_pos hz]
    refine ⟨_, rfl, ?_⟩
    generalize f.zone = z at *
    rcases d with ⟨cz, pz, ts, o, ff, n, i, lu⟩
    cases i <;> cases n <;> simp_all
    cases cz <;> simp_all
  · rw [if_neg hz]
    refine ⟨_, rfl, ?_⟩
    simp only [oooiTransition_eq]
    generalize f.zone = z at *
    rcases d with ⟨cz, pz, ts, o, ff, n, i, lu⟩
    cases i <;> cases n <;> simp_all

/-- Claim C7 (return value).  On a non-null detector `swim_oooi_update` returns
true if and only if at least one of the four rules fired in that call, that
is, at least one of out_detected, off_detected, on_detected, in_detected is
false before the call and true after it. -/
theorem oooi_update_returns_true_iff_rule_fired (d : SwimOOOIDetector) (f : Frame) :
    ∃ d', (updateFrame (some d) f).1 = some d' ∧
      ((updateFrame (some d) f).2 = true ↔
        ((d.out_detected = false ∧ d'.out_detected = true) ∨
         (d.off_detected = false ∧ d'.off_detected = true) ∨
         (d.on_detected = false ∧ d'.on_detected = true) ∨
         (d.in_detected = false ∧ d'.in_detected = true))) := by
  rw [updateFrame_some]
  by_cases hz : f.zone = d.current_zone
  · rw [if_pos hz]
    refine ⟨_, rfl, ?_⟩
    rcases d with ⟨cz, pz, ts, o, ff, n, i, lu⟩
    cases o <;> cases ff <;> cases n <;> cases i <;> simp
  · rw [if_neg hz]
    refine ⟨_, rfl, ?_⟩
    simp only [oooiTransition_eq]
    generalize f.zone = z at *
    rcases d with ⟨cz, pz, ts, o, ff, n, i, lu⟩
    cases o <;> cases ff <;> cases n <;> cases i <;> simp

/-- Claim C8 (same-zone samples are no-ops).  When the zone of the sample is the
current_zone of the detector, `swim_oooi_update` returns false and the detector
after the call is the detector before it with last_update set to the clock
reading of the call: both zones, the four flags and the four times are
unchanged. -/
theorem oooi_update_same_zone_noop (d : SwimOOOIDetector) (f : Frame)
    (h : f.zone = d.current_zone) :
    updateFrame (some d) f = (some { d with last_update := f.now }, false) ∧
    (∃ d', (updateFrame (some d) f).1 = some d' ∧
      d'.current_zone = d.current_zone ∧ d'.previous_zone = d.previous_zone ∧
      d'.out_detected = d.out_detected ∧ d'.off_detected = d.off_detected ∧
      d'.on_detected = d.on_detected ∧ d'.in_detected = d.in_detected ∧
      d'.times = d.times ∧ d'.last_update = f.now) := by
  rw [updateFrame_some, if_pos h]
  exact ⟨rfl, _, rfl, rfl, rfl, rfl, rfl, rfl, rfl, rfl, rfl⟩

/-- The same-zone property at a parked detector receiving a parked frame. -/
theorem oooi_update_same_zone_noop_witness :
    (Frame.mk 1700000000 (.finite 0) true (.finite 0) (.finite 0) true).zone =
        (SwimOOOIDetector.mk SWIM_ZONE_PARKING SWIM_ZONE_UNKNOWN ⟨0, 0, 0, 0⟩
          false false false false 1699999999).current_zone ∧
      updateFrame
        (some (SwimOOOIDetector.mk SWIM_ZONE_PARKING SWIM_ZONE_UNKNOWN ⟨0, 0, 0, 0⟩
          false false false false 1699999999))
        (Frame.mk 1700000000 (.finite 0) true (.finite 0) (.finite 0) true) =
      (some (SwimOOOIDetector.mk SWIM_ZONE_PARKING SWIM_ZONE_UNKNOWN ⟨0, 0, 0, 0⟩
          false false false false 1700000000), false) :=
  ⟨by decide,
   (oooi_update_same_zone_noop
      (SwimOOOIDetector.mk SWIM_ZONE_PARKING SWIM_ZONE_UNKNOWN ⟨0, 0, 0, 0⟩
        false false false false 1699999999)
      (Frame.mk 1700000000 (.finite 0) true (.finite 0) (.finite 0) true) (by decide)).1⟩

/-- Claim C9 (reset).  On every detector state `swim_oooi_reset` produces exactly
what `swim_oooi_init` produces: both zones Unknown, the four times 0, the four
flags false and last_update 0; right after a reset `swim_oooi_is_complete` is
false and `swim_oooi_get_times` copies out four unset times. -/
theorem oooi_reset_is_init (d : SwimOOOIDetector) (o : SwimOOOI) :
    swim_oooi_reset (some d) = swim_oooi_init (some d) ∧
    swim_oooi_reset (some d) =
      some { current_zone := SWIM_ZONE_UNKNOWN
             previous_zone := SWIM_ZONE_UNKNOWN
             times := { out_utc := 0, off_utc := 0, on_utc := 0, in_utc := 0 }
             out_detected := false
             off_detected := false
             on_detected := false
             in_detected := false
             last_update := 0 } ∧
    swim_oooi_is_complete (swim_oooi_reset (some d)) = false ∧
    swim_oooi_get_times (swim_oooi_reset (some d)) (some o) =
      some { out_utc := 0, off_utc := 0, on_utc := 0, in_utc := 0 } :=
  ⟨rfl, rfl, rfl, rfl⟩

/-- Claim C10 (end-to-end scenario).  The eight scenario frames, whatever the
fields and clock readings the scenario leaves open, are classified Parking,
Hold, Taxiway, Runway, Airborne, Runway, Taxiway, Parking; fed in this order to
a freshly initialised detector, exactly four of the eight `swim_oooi_update`
calls return true, and `swim_oooi_is_complete` is false after each of the first
seven calls and true after the eighth. -/
theorem oooi_end_to_end_scenario (d0 : SwimOOOIDetector) (o1 o2 o3 o4 o5 o6 o7 o8 : Frame) :
    (scenarioFrames o1 o2 o3 o4 o5 o6 o7 o8).map Frame.zone =
      [SWIM_ZONE_PARKING, SWIM_ZONE_HOLD, SWIM_ZONE_TAXIWAY, SWIM_ZONE_RUNWAY,
       SWIM_ZONE_AIRBORNE, SWIM_ZONE_RUNWAY, SWIM_ZONE_TAXIWAY, SWIM_ZONE_PARKING] ∧
    (runReturns (swim_oooi_init (some d0)) (scenarioFrames o1 o2 o3 o4 o5 o6 o7 o8)).length = 8 ∧
    (runReturns (swim_oooi_init (some d0)) (scenarioFrames o1 o2 o3 o4 o5 o6 o7 o8)).count true
      = 4 ∧
    runComplete (swim_oooi_init (some d0)) (scenarioFrames o1 o2 o3 o4 o5 o6 o7 o8) =
      [false, false, false, false, false, false, false, true] := by
  have hr := scenarioFrames_run o1 o2 o3 o4 o5 o6 o7 o8
  refine ⟨scenarioFrames_zones o1 o2 o3 o4 o5 o6 o7 o8, ?_, ?_, ?_⟩
  · show (runReturns (some zeroDetector) _).length = 8
    rw [hr.1]; rfl
  · show (runReturns (some zeroDetector) _).count true = 4
    rw [hr.1]; rfl
  · exact hr.2

/-! ## The OOOI transition detector: scenario prefix, event ordering, event count -/

/-- Claim C11, refuted as stated: with the clock readings 1, 2, 3 the detector
after the second call does not have out_detected false and out_utc unset, so
the third call is not the one that fires OUT. -/
theorem oooi_scenario_out_on_third_counterexample :
    ¬ (∃ d2 d3 : SwimOOOIDetector,
        runUpdates (swim_oooi_init (some zeroDetector))
          [ Frame.mk 1 (.finite 0) true (.finite 0) (.finite 0) true,
            Frame.mk 2 (.finite 0) true (.finite 0) (.finite 0) false ] = some d2 ∧
        d2.out_detected = false ∧ d2.times.out_utc = 0 ∧
        updateFrame (some d2) (Frame.mk 3 (.finite 15) true (.finite 0) (.finite 0) false) =
          (some d3, true) ∧
        d3.out_detected = true ∧ d3.times.out_utc = 3) := by
  rintro ⟨d2, d3, h2, hout, -⟩
  have e : runUpdates (swim_oooi_init (some zeroDetector))
      [ Frame.mk 1 (.finite 0) true (.finite 0) (.finite 0) true,
        Frame.mk 2 (.finite 0) true (.finite 0) (.finite 0) false ] =
      some ⟨SWIM_ZONE_HOLD, SWIM_ZONE_PARKING, ⟨2, 0, 0, 0⟩, true, false, false, false, 2⟩ := by
    decide
  rw [e] at h2
  cases h2
  simp at hout

/-- Claim C11, amended.  In the end-to-end scenario (fresh detector fed Parking,
then Hold, then Taxiway) OUT fires on the second sample: out_detected is false
and out_utc unset after the first call; the second call (the change from
Parking to Hold) is the one that returns true, sets out_detected and stamps
out_utc with its clock reading; the third call (the change to Taxiway) returns
false and leaves out_detected and out_utc as they are. -/
theorem oooi_scenario_out_on_second (d0 : SwimOOOIDetector) (o1 o2 o3 : Frame) :
    (scenarioOutFrames o1 o2 o3).map Frame.zone =
      [SWIM_ZONE_PARKING, SWIM_ZONE_HOLD, SWIM_ZONE_TAXIWAY] ∧
    runReturns (swim_oooi_init (some d0)) (scenarioOutFrames o1 o2 o3) = [false, true, false] ∧
    (∃ d1 d2 d3 : SwimOOOIDetector,
      runUpdates (swim_oooi_init (some d0)) ((scenarioOutFrames o1 o2 o3).take 1) = some d1 ∧
      runUpdates (swim_oooi_init (some d0)) ((scenarioOutFrames o1 o2 o3).take 2) = some d2 ∧
      runUpdates (swim_oooi_init (some d0)) (scenarioOutFrames o1 o2 o3) = some d3 ∧
      d1.out_detected = false ∧ d1.times.out_utc = 0 ∧
      d2.out_detected = true ∧ d2.times.out_utc = o2.now ∧
      d3.out_detected = true ∧ d3.times.out_utc = o2.now) := by
  have hz := scenarioOutFrames_zones o1 o2 o3
  refine ⟨hz, ?_⟩
  simp only [scenarioOutFrames, List.map_cons, List.map_nil, List.cons.injEq, and_true] at hz
  obtain ⟨z1, z2, z3⟩ := hz
  have e1 := updateFrame_of_zone zeroDetector _ _ z1
  have e2 := updateFrame_of_zone
    ⟨SWIM_ZONE_PARKING, SWIM_ZONE_UNKNOWN, ⟨0, 0, 0, 0⟩, false, false, false, false, o1.now⟩
    _ _ z2
  have e3 := updateFrame_of_zone
    ⟨SWIM_ZONE_HOLD, SWIM_ZONE_PARKING, ⟨o2.now, 0, 0, 0⟩, true, false, false, false, o2.now⟩
    _ _ z3
  simp [oooiTransition, zeroDetector] at e1 e2 e3
  simp [scenarioOutFrames, runReturns, runUpdates, swim_oooi_init, zeroDetector, e1, e2, e3]

/-- Claim C12 (output ordering OUT < OFF < ON < IN).  For every run of
`swim_oooi_update` calls on a freshly initialised detector whose clock readings
are non-decreasing: whenever two events of the chain OUT, OFF, ON, IN both
fire, the earlier one in the chain fires in a strictly earlier call; and in the
final detector, for any two events that are both detected, the timestamp of the
earlier one in the chain is not later than that of the later one. -/
theorem oooi_output_ordering (d0 : SwimOOOIDetector) (frames : List Frame)
    (hclock : (frames.map Frame.now).Sorted (· ≤ ·)) :
    (∀ i j, firedIn SwimOOOIDetector.out_detected (swim_oooi_init (some d0)) frames i = true →
      firedIn SwimOOOIDetector.off_detected (swim_oooi_init (some d0)) frames j = true → i < j) ∧
    (∀ i j, firedIn SwimOOOIDetector.off_detected (swim_oooi_init (some d0)) frames i = true →
      firedIn SwimOOOIDetector.on_detected (swim_oooi_init (some d0)) frames j = true → i < j) ∧
    (∀ i j, firedIn SwimOOOIDetector.on_detected (swim_oooi_init (some d0)) frames i = true →
      firedIn SwimOOOIDetector.in_detected (swim_oooi_init (some d0)) frames j = true → i < j) ∧
    (∀ i j, firedIn SwimOOOIDetector.out_detected (swim_oooi_init (some d0)) frames i = true →
      firedIn SwimOOOIDetector.on_detected (swim_oooi_init (some d0)) frames j = true → i < j) ∧
    (∀ i j, firedIn SwimOOOIDetector.out_detected (swim_oooi_init (some d0)) frames i = true →
      firedIn SwimOOOIDetector.in_detected (swim_oooi_init (some d0)) frames j = true → i < j) ∧
    (∀ i j, firedIn SwimOOOIDetector.off_detected (swim_oooi_init (some d0)) frames i = true →
      firedIn SwimOOOIDetector.in_detected (swim_oooi_init (some d0)) frames j = true → i < j) ∧
    (∃ d, runUpdates (swim_oooi_init (some d0)) frames = some d ∧
      (d.out_detected = true → d.off_detected = true → d.times.out_utc ≤ d.times.off_utc) ∧
      (d.off_detected = true → d.on_detected = true → d.times.off_utc ≤ d.times.on_utc) ∧
      (d.on_detected = true → d.in_detected = true → d.times.on_utc ≤ d.times.in_utc) ∧
      (d.out_detected = true → d.on_detected = true → d.times.out_utc ≤ d.times.on_utc) ∧
      (d.out_detected = true → d.in_detected = true → d.times.out_utc ≤ d.times.in_utc) ∧
      (d.off_detected = true → d.in_detected = true → d.times.off_utc ≤ d.times.in_utc)) := by
  have m1 : ∀ (fs : List Frame) (d : SwimOOOIDetector), d.out_detected = true →
      ∃ d', runUpdates (some d) fs = some d' ∧ d'.out_detected = true := fun fs d h => by
    obtain ⟨d', e, a, -⟩ := flags_mono_run fs d
    exact ⟨d', e, a h⟩
  have m2 : ∀ (fs : List Frame) (d : SwimOOOIDetector), d.off_detected = true →
      ∃ d', runUpdates (some d) fs = some d' ∧ d'.off_detected = true := fun fs d h => by
    obtain ⟨d', e, -, a, -⟩ := flags_mono_run fs d
    exact ⟨d', e, a h⟩
  have m3 : ∀ (fs : List Frame) (d : SwimOOOIDetector), d.on_detected = true →
      ∃ d', runUpdates (some d) fs = some d' ∧ d'.on_detected = true := fun fs d h => by
    obtain ⟨d', e, -, -, a, -⟩ := flags_mono_run fs d
    exact ⟨d', e, a h⟩
  have p1 : ∀ (d : SwimOOOIDetector) (f : Frame) (d' : SwimOOOIDetector), FlagsOrdered d →
      (updateFrame (some d) f).1 = some d' → d.off_detected = false → d'.off_detected = true →
      d.out_detected = true := fun d f d' _ e hb ha => by
    obtain ⟨d'', e', -, -, -, -, a, -⟩ := flags_step d f
    rw [e] at e'; cases e'
    exact a hb ha
  have p2 : ∀ (d : SwimOOOIDetector) (f : Frame) (d' : SwimOOOIDetector), FlagsOrdered d →
      (updateFrame (some d) f).1 = some d' → d.on_detected = false → d'.on_detected = true →
      d.off_detected = true := fun d f d' _ e hb ha => by
    obtain ⟨d'', e', -, -, -, -, -, a, -⟩ := flags_step d f
    rw [e] at e'; cases e'
    exact a hb ha
  have p3 : ∀ (d : SwimOOOIDetector) (f : Frame) (d' : SwimOOOIDetector), FlagsOrdered d →
      (updateFrame (some d) f).1 = some d' → d.in_detected = false → d'.in_detected = true →
      d.on_detected = true := fun d f d' _ e hb ha => by
    obtain ⟨d'', e', -, -, -, -, -, -, a⟩ := flags_step d f
    rw [e] at e'; cases e'
    exact a hb ha
  refine ⟨?_, ?_, ?_, ?_, ?_, ?_, ?_⟩
  · exact firedIn_lt _ _ frames m1 p1
  · exact firedIn_lt _ _ frames m2 p2
  · exact firedIn_lt _ _ frames m3 p3
  · exact firedIn_lt _ _ frames m1 (fun d f d' ho e hb ha => ho.1 (p2 d f d' ho e hb ha))
  · exact firedIn_lt _ _ frames m1
      (fun d f d' ho e hb ha => ho.1 (ho.2.1 (p3 d f d' ho e hb ha)))
  · exact firedIn_lt _ _ frames m2 (fun d f d' ho e hb ha => ho.2.1 (p3 d f d' ho e hb ha))
  · obtain ⟨d, e, ho, ht⟩ := timesOrdered_run frames zeroDetector flagsOrdered_zero
      (by simp [TimesOrdered, zeroDetector]) hclock
      (fun g _ => by simp [StampsAtMost, zeroDetector])
    obtain ⟨o1, o2, o3⟩ := ho
    obtain ⟨t1, t2, t3⟩ := ht
    exact ⟨d, e, fun _ h => t1 h, fun _ h => t2 h, fun _ h => t3 h,
      fun _ h => (t1 (o2 h)).trans (t2 h),
      fun _ h => ((t1 (o2 (o3 h))).trans (t2 (o3 h))).trans (t3 h),
      fun _ h => (t2 (o3 h)).trans (t3 h)⟩

/-- The ordering property on a complete flight with the clock readings 1 to 8:
all four events are detected and their timestamps are in chain order. -/
theorem oooi_output_ordering_witness :
    ((scenarioFrames ⟨1, .finite 0, true, .finite 0, .finite 0, false⟩ ⟨2, .finite 0, true, .finite 0, .finite 0, false⟩
        ⟨3, .finite 0, true, .finite 0, .finite 0, false⟩ ⟨4, .finite 0, true, .finite 0, .finite 0, false⟩
        ⟨5, .finite 0, true, .finite 0, .finite 0, false⟩ ⟨6, .finite 0, true, .finite 0, .finite 0, false⟩
        ⟨7, .finite 0, true, .finite 0, .finite 0, false⟩ ⟨8, .finite 0, true, .finite 0, .finite 0, false⟩).map
      Frame.now).Sorted (· ≤ ·) ∧
    (∃ d, runUpdates (swim_oooi_init (some zeroDetector))
        (scenarioFrames ⟨1, .finite 0, true, .finite 0, .finite 0, false⟩ ⟨2, .finite 0, true, .finite 0, .finite 0, false⟩
          ⟨3, .finite 0, true, .finite 0, .finite 0, false⟩ ⟨4, .finite 0, true, .finite 0, .finite 0, false⟩
          ⟨5, .finite 0, true, .finite 0, .finite 0, false⟩ ⟨6, .finite 0, true, .finite 0, .finite 0, false⟩
          ⟨7, .finite 0, true, .finite 0, .finite 0, false⟩ ⟨8, .finite 0, true, .finite 0, .finite 0, false⟩) = some d ∧
      (d.out_detected = true → d.off_detected = true → d.times.out_utc ≤ d.times.off_utc) ∧
      (d.off_detected = true → d.on_detected = true → d.times.off_utc ≤ d.times.on_utc) ∧
      (d.on_detected = true → d.in_detected = true → d.times.on_utc ≤ d.times.in_utc) ∧
      (d.out_detected = true → d.on_detected = true → d.times.out_utc ≤ d.times.on_utc) ∧
      (d.out_detected = true → d.in_detected = true → d.times.out_utc ≤ d.times.in_utc) ∧
      (d.off_detected = true → d.in_detected = true → d.times.off_utc ≤ d.times.in_utc)) ∧
    swim_oooi_is_complete (runUpdates (swim_oooi_init (some zeroDetector))
        (scenarioFrames ⟨1, .finite 0, true, .finite 0, .finite 0, false⟩ ⟨2, .finite 0, true, .finite 0, .finite 0, false⟩
          ⟨3, .finite 0, true, .finite 0, .finite 0, false⟩ ⟨4, .finite 0, true, .finite 0, .finite 0, false⟩
          ⟨5, .finite 0, true, .finite 0, .finite 0, false⟩ ⟨6, .finite 0, true, .finite 0, .finite 0, false⟩
          ⟨7, .finite 0, true, .finite 0, .finite 0, false⟩ ⟨8, .finite 0, true, .finite 0, .finite 0, false⟩)) = true :=
  ⟨by decide,
   (oooi_output_ordering zeroDetector
      (scenarioFrames ⟨1, .finite 0, true, .finite 0, .finite 0, false⟩ ⟨2, .finite 0, true, .finite 0, .finite 0, false⟩
        ⟨3, .finite 0, true, .finite 0, .finite 0, false⟩ ⟨4, .finite 0, true, .finite 0, .finite 0, false⟩
        ⟨5, .finite 0, true, .finite 0, .finite 0, false⟩ ⟨6, .finite 0, true, .finite 0, .finite 0, false⟩
        ⟨7, .finite 0, true, .finite 0, .finite 0, false⟩ ⟨8, .finite 0, true, .finite 0, .finite 0, false⟩)
      (by decide)).2.2.2.2.2.2,
   by decide⟩

/-- Claim C13 (at most four events).  For every sequence of `swim_oooi_update`
calls on a detector that has just been initialised or reset, whatever the
samples and the length, at most four calls return true and the detector stamps
at most four timestamps: the calls make at most four assignments to the fields
of `times`, no field is assigned twice, and the timestamps at the end of the run
are the zero timestamps with exactly those assignments applied.  The
assignments are those of `swim_oooi_update_stamps`, which returns the same
detector and the same value as `swim_oooi_update` on every call. -/
theorem oooi_at_most_four_events (d0 : SwimOOOIDetector) (frames : List Frame) :
    (runReturns (swim_oooi_init (some d0)) frames).count true ≤ 4 ∧
    (runStamps (swim_oooi_init (some d0)) frames).length ≤ 4 ∧
    (runReturns (swim_oooi_reset (some d0)) frames).count true ≤ 4 ∧
    (runStamps (swim_oooi_reset (some d0)) frames).length ≤ 4 ∧
    ((runStamps (swim_oooi_init (some d0)) frames).map StampWrite.field).Nodup ∧
    (∃ d', runUpdates (swim_oooi_init (some d0)) frames = some d' ∧
      d'.times =
        (runStamps (swim_oooi_init (some d0)) frames).foldl SwimOOOI.write
          zeroDetector.times) ∧
    (∀ (d : SwimOOOIDetector) (f : Frame),
      (swim_oooi_update_stamps (some d) f.now f.gs_kts f.on_ground f.agl_ft f.vs_fpm
          f.parking_brake).1 =
        (swim_oooi_update (some d) f.now f.gs_kts f.on_ground f.agl_ft f.vs_fpm
          f.parking_brake).1 ∧
      (swim_oooi_update_stamps (some d) f.now f.gs_kts f.on_ground f.agl_ft f.vs_fpm
          f.parking_brake).2.1 =
        (swim_oooi_update (some d) f.now f.gs_kts f.on_ground f.agl_ft f.vs_fpm
          f.parking_brake).2) := by
  have hagree : ∀ (d : SwimOOOIDetector) (f : Frame),
      (swim_oooi_update_stamps (some d) f.now f.gs_kts f.on_ground f.agl_ft f.vs_fpm
          f.parking_brake).1 =
        (swim_oooi_update (some d) f.now f.gs_kts f.on_ground f.agl_ft f.vs_fpm
          f.parking_brake).1 ∧
      (swim_oooi_update_stamps (some d) f.now f.gs_kts f.on_ground f.agl_ft f.vs_fpm
          f.parking_brake).2.1 =
        (swim_oooi_update (some d) f.now f.gs_kts f.on_ground f.agl_ft f.vs_fpm
          f.parking_brake).2 := by
    intro d f
    obtain ⟨d1, log, e, e1, -⟩ := swim_oooi_update_stamps_spec d f
    rw [e]
    exact ⟨e1.symm, rfl⟩
  obtain ⟨d', -, h⟩ := flagsSet_run frames zeroDetector
  obtain ⟨d'', e, hl, ht, -, hn⟩ := runStamps_spec frames zeroDetector
  have h4 := flagsSet_le_four d'
  have hz : flagsSet zeroDetector = 0 := rfl
  have hr : (runReturns (some zeroDetector) frames).count true ≤ 4 := by omega
  have hs : (runStamps (some zeroDetector) frames).length ≤ 4 := by rw [hl]; exact hr
  exact ⟨hr, hs, hr, hs, hn, ⟨d'', e, ht⟩, hagree⟩

/-! ## The zone classifier: properties -/

/-- Claim C14 (airborne classification).  For every sample with on_ground false
and AGL > 50, whatever the ground speed and brake state, `swim_detect_zone`
returns Final if AGL <= 1000 and vertical rate < -300, otherwise Approach if
AGL <= 3000 and vertical rate < 0, otherwise Airborne.  AGL exactly 1000 and
exactly 3000 are inside their bands, vertical rate exactly -300 is not Final,
vertical rate exactly 0 is not Approach, and AGL exactly 50 is not airborne. -/
theorem detect_zone_airborne_rules (gs agl vs : CFloat) (pb : Bool)
    (h : agl.gt (.finite 50) = true) :
    swim_detect_zone gs false agl vs pb =
        (if agl.le (.finite 1000) = true ∧ vs.lt (.finite (-300)) = true then SWIM_ZONE_FINAL
         else if agl.le (.finite 3000) = true ∧ vs.lt (.finite 0) = true then SWIM_ZONE_APPROACH
         else SWIM_ZONE_AIRBORNE) ∧
    swim_detect_zone gs false (.finite 1000) (.finite (-301)) pb = SWIM_ZONE_FINAL ∧
    swim_detect_zone gs false (.finite 1001) (.finite (-301)) pb = SWIM_ZONE_APPROACH ∧
    swim_detect_zone gs false (.finite 3000) (.finite (-1)) pb = SWIM_ZONE_APPROACH ∧
    swim_detect_zone gs false (.finite 3001) (.finite (-1)) pb = SWIM_ZONE_AIRBORNE ∧
    swim_detect_zone gs false (.finite 500) (.finite (-300)) pb = SWIM_ZONE_APPROACH ∧
    swim_detect_zone gs false (.finite 2000) (.finite 0) pb = SWIM_ZONE_AIRBORNE ∧
    swim_detect_zone gs false (.finite 50) vs pb ≠ SWIM_ZONE_AIRBORNE ∧
    swim_detect_zone gs false (.finite 50) vs pb ≠ SWIM_ZONE_APPROACH ∧
    swim_detect_zone gs false (.finite 50) vs pb ≠ SWIM_ZONE_FINAL := by
  refine ⟨?_, ?_, ?_, ?_, ?_, ?_, ?_, ?_, ?_, ?_⟩
  · have h' : agl.gt SWIM_OOOI_AIRBORNE_MIN_AGL = true := h
    simp only [swim_detect_zone, h', Bool.not_false, Bool.true_and, if_true,
      SWIM_OOOI_FINAL_MAX_AGL, SWIM_OOOI_DESCENT_MAX_VS, SWIM_OOOI_APPROACH_MAX_AGL,
      Bool.and_eq_true]
  all_goals
    simp [swim_detect_zone, CFloat.lt, CFloat.le, CFloat.gt, CFloat.ge,
      SWIM_OOOI_AIRBORNE_MIN_AGL, SWIM_OOOI_APPROACH_MAX_AGL, SWIM_OOOI_FINAL_MAX_AGL,
      SWIM_OOOI_DESCENT_MAX_VS] <;> norm_num

/-- The airborne classification on a short-final sample. -/
theorem detect_zone_airborne_rules_witness :
    (CFloat.finite 800).gt (.finite 50) = true ∧
    swim_detect_zone (.finite 140) false (.finite 800) (.finite (-700)) false =
      SWIM_ZONE_FINAL :=
  ⟨by decide,
   (detect_zone_airborne_rules (.finite 140) (.finite 800) (.finite (-700)) false
      (by decide)).1.trans (by decide)⟩

/-- Claim C15 (ground classification).  For every sample with on_ground true,
whatever the AGL and vertical rate, `swim_detect_zone` returns Parking if
gs < 5 and the brake is set, otherwise Runway if gs >= 60, otherwise Taxiway if
gs >= 3, otherwise Hold if the brake is not set and gs < 5, otherwise Parking.
Speeds exactly 5 (brake set), 60 and 3 (brake released) classify as Taxiway,
Runway and Taxiway. -/
theorem detect_zone_ground_rules (gs agl vs : CFloat) (pb : Bool) :
    swim_detect_zone gs true agl vs pb =
        (if gs.lt (.finite 5) = true ∧ pb = true then SWIM_ZONE_PARKING
         else if gs.ge (.finite 60) = true then SWIM_ZONE_RUNWAY
         else if gs.ge (.finite 3) = true then SWIM_ZONE_TAXIWAY
         else if pb = false ∧ gs.lt (.finite 5) = true then SWIM_ZONE_HOLD
         else SWIM_ZONE_PARKING) ∧
    swim_detect_zone (.finite 5) true agl vs true = SWIM_ZONE_TAXIWAY ∧
    swim_detect_zone (.finite 60) true agl vs pb = SWIM_ZONE_RUNWAY ∧
    swim_detect_zone (.finite 3) true agl vs false = SWIM_ZONE_TAXIWAY := by
  refine ⟨?_, ?_, ?_, ?_⟩
  · cases pb <;>
    simp [swim_detect_zone, SWIM_OOOI_PARKED_MAX_GS, SWIM_OOOI_TAKEOFF_MIN_GS,
      SWIM_OOOI_TAXI_MIN_GS]
  all_goals
    cases pb <;>
    simp [swim_detect_zone, CFloat.lt, CFloat.le, CFloat.gt, CFloat.ge,
      SWIM_OOOI_PARKED_MAX_GS, SWIM_OOOI_TAKEOFF_MIN_GS, SWIM_OOOI_TAXI_MIN_GS] <;> norm_num

/-- Claim C16, refuted as stated: a sample with finite ground speed, AGL and
vertical rate (150 kt, off the ground at 30 ft AGL, climbing 500 fpm) is
classified Unknown. -/
theorem detect_zone_unknown_reachable :
    swim_detect_zone (.finite 150) false (.finite 30) (.finite 500) false =
      SWIM_ZONE_UNKNOWN := by decide

/-- Claim C16, amended.  For every sample with finite ground speed, AGL and
vertical rate, `swim_detect_zone` returns Unknown exactly when on_ground is
false and AGL <= 50; for every other such sample it returns a zone other than
Unknown. -/
theorem detect_zone_unknown_iff (gs agl vs : ℚ) (og pb : Bool) :
    swim_detect_zone (.finite gs) og (.finite agl) (.finite vs) pb = SWIM_ZONE_UNKNOWN ↔
      (og = false ∧ agl ≤ 50) := by
  cases og <;>
    simp only [swim_detect_zone, CFloat.lt, CFloat.le, CFloat.gt, CFloat.ge,
      SWIM_OOOI_PARKED_MAX_GS, SWIM_OOOI_TAKEOFF_MIN_GS, SWIM_OOOI_TAXI_MIN_GS,
      SWIM_OOOI_AIRBORNE_MIN_AGL, SWIM_OOOI_APPROACH_MAX_AGL, SWIM_OOOI_FINAL_MAX_AGL,
      SWIM_OOOI_DESCENT_MAX_VS] <;>
    split_ifs <;> simp_all

/-! ## The position throttle: properties -/

/-- Claim C18 (minimum interval).  For every throttle with last_send_time other
than 0 and every position, if now - last_send_time < min_interval_sec then
`swim_throttle_should_send` returns false, however large the altitude or
position change. -/
theorem throttle_min_interval_suppresses (t : SwimPositionThrottle) (p : SwimPosition)
    (now : Int) (h0 : t.last_send_time ≠ 0)
    (h : now - t.last_send_time < t.min_interval_sec) :
    swim_throttle_should_send (some t) (some p) now = false := by
  simp [swim_throttle_should_send, h0, h]

/-- Interval 5 s, call 2 s after the last send: suppressed. -/
theorem throttle_min_interval_suppresses_witness :
    (SwimPositionThrottle.mk 1700000000 (.finite 40) (.finite (-70)) 10000 5 (.finite (1 / 2))
        100).last_send_time ≠ 0 ∧
      1700000002 -
        (SwimPositionThrottle.mk 1700000000 (.finite 40) (.finite (-70)) 10000 5
          (.finite (1 / 2)) 100).last_send_time <
        (SwimPositionThrottle.mk 1700000000 (.finite 40) (.finite (-70)) 10000 5
          (.finite (1 / 2)) 100).min_interval_sec ∧
      swim_throttle_should_send
        (some (SwimPositionThrottle.mk 1700000000 (.finite 40) (.finite (-70)) 10000 5
          (.finite (1 / 2)) 100))
        (some (SwimPosition.mk (.finite 40) (.finite (-70)) 10000 90 250 0 250 (.finite 0) false))
        1700000002 = false :=
  ⟨by decide, by decide,
   throttle_min_interval_suppresses
      (SwimPositionThrottle.mk 1700000000 (.finite 40) (.finite (-70)) 10000 5 (.finite (1 / 2))
        100)
      (SwimPosition.mk (.finite 40) (.finite (-70)) 10000 90 250 0 250 (.finite 0) false)
      1700000002 (by decide) (by decide)⟩

/-- Claim C19 (altitude trigger).  For every throttle with last_send_time other
than 0 and every position, if now - last_send_time >= min_interval_sec and
|altitude_ft - last_alt| >= min_alt_change_ft, the difference and its absolute
value being representable in `int32_t`, then `swim_throttle_should_send`
returns true whatever the horizontal movement. -/
theorem throttle_altitude_trigger (t : SwimPositionThrottle) (p : SwimPosition) (now : Int)
    (h0 : t.last_send_time ≠ 0)
    (hint : now - t.last_send_time ≥ t.min_interval_sec)
    (hlo : -2147483647 ≤ p.altitude_ft - t.last_alt)
    (hhi : p.altitude_ft - t.last_alt ≤ 2147483647)
    (halt : |p.altitude_ft - t.last_alt| ≥ t.min_alt_change_ft) :
    swim_throttle_should_send (some t) (some p) now = true := by
  have hi : ¬ now - t.last_send_time < t.min_interval_sec := by omega
  have ha : t.min_alt_change_ft ≤ absInt32 (wrapInt32 (p.altitude_ft - t.last_alt)) := by
    rw [absInt32_wrapInt32_of_range _ hlo hhi]; exact halt
  simp [swim_throttle_should_send, h0, hi, ha]

/-- Interval 5 s, threshold 100 ft, call 6 s after the last send with an
altitude delta of 150 ft and no horizontal movement: sent. -/
theorem throttle_altitude_trigger_witness :
    (SwimPositionThrottle.mk 1700000000 (.finite 40) (.finite (-70)) 10000 5 (.finite (1 / 2))
        100).last_send_time ≠ 0 ∧
      |(SwimPosition.mk (.finite 40) (.finite (-70)) 10150 90 250 0 250 (.finite 0)
          false).altitude_ft -
        (SwimPositionThrottle.mk 1700000000 (.finite 40) (.finite (-70)) 10000 5
          (.finite (1 / 2)) 100).last_alt| ≥
        (SwimPositionThrottle.mk 1700000000 (.finite 40) (.finite (-70)) 10000 5
          (.finite (1 / 2)) 100).min_alt_change_ft ∧
      swim_throttle_should_send
        (some (SwimPositionThrottle.mk 1700000000 (.finite 40) (.finite (-70)) 10000 5
          (.finite (1 / 2)) 100))
        (some (SwimPosition.mk (.finite 40) (.finite (-70)) 10150 90 250 0 250 (.finite 0) false))
        1700000006 = true :=
  ⟨by decide, by decide,
   throttle_altitude_trigger
      (SwimPositionThrottle.mk 1700000000 (.finite 40) (.finite (-70)) 10000 5 (.finite (1 / 2))
        100)
      (SwimPosition.mk (.finite 40) (.finite (-70)) 10150 90 250 0 250 (.finite 0) false)
      1700000006 (by decide) (by decide) (by decide) (by decide) (by decide)⟩

/-- Claim C20, refuted as stated: at latitude 5399954295703659 / 2^59 and
longitude 1192776754826209 / 2^57 (two binary64 values), 6 s after a send from
the origin with a threshold of 0.75 nm, the distance over exact real arithmetic
is at least 0.75, but the distance computed in `double` arithmetic is
6755399441055743 / 2^53, the binary64 value just below 0.75, and
`swim_throttle_should_send` returns false. -/
theorem throttle_distance_rounding_counterexample :
    (throttleAtOrigin (3 / 4)).last_send_time ≠ 0 ∧
    1700000006 - (throttleAtOrigin (3 / 4)).last_send_time ≥
      (throttleAtOrigin (3 / 4)).min_interval_sec ∧
    |(positionAt (5399954295703659 / 2 ^ 59) (1192776754826209 / 2 ^ 57)).altitude_ft -
        (throttleAtOrigin (3 / 4)).last_alt| < (throttleAtOrigin (3 / 4)).min_alt_change_ft ∧
    Real.sqrt ((((5399954295703659 / 2 ^ 59 : ℚ) : ℝ) - ((0 : ℚ) : ℝ)) ^ 2 +
        (((1192776754826209 / 2 ^ 57 : ℚ) : ℝ) - ((0 : ℚ) : ℝ)) ^ 2) * 60 ≥ ((3 / 4 : ℚ) : ℝ) ∧
    throttleDistNm (throttleAtOrigin (3 / 4))
        (positionAt (5399954295703659 / 2 ^ 59) (1192776754826209 / 2 ^ 57)) =
      .finite (6755399441055743 / 2 ^ 53) ∧
    swim_throttle_should_send (some (throttleAtOrigin (3 / 4)))
        (some (positionAt (5399954295703659 / 2 ^ 59) (1192776754826209 / 2 ^ 57)))
        1700000006 = false := by
  refine ⟨by decide, by decide, by decide, ?_, by decide!, by decide!⟩
  have hq : (0 : ℚ) ≤ (5399954295703659 / 2 ^ 59 - 0) ^ 2 + (1192776754826209 / 2 ^ 57 - 0) ^ 2 :=
    by norm_num
  have h := (real_sqrt_mul_ge_iff _ 60 (3 / 4) hq (by norm_num)).mpr (Or.inr (by norm_num))
  push_cast at h ⊢
  exact h

/-- Claim C20, amended (distance trigger).  For every throttle with
last_send_time other than 0 and every position with
now - last_send_time >= min_interval_sec, whatever the altitude change,
`swim_throttle_should_send` returns true whenever the distance it computes in
`double` arithmetic, sqrt(dlat * dlat + dlon * dlon) * 60.0 with every operation
rounded to binary64 and dlat and dlon the rounded differences from the last-sent
latitude and longitude, is at least min_distance_nm. -/
theorem throttle_distance_trigger (t : SwimPositionThrottle) (p : SwimPosition) (now : Int)
    (h0 : t.last_send_time ≠ 0)
    (hint : now - t.last_send_time ≥ t.min_interval_sec)
    (hdist : (throttleDistNm t p).ge t.min_distance_nm = true) :
    swim_throttle_should_send (some t) (some p) now = true ∧
    throttleDistNm t p =
      ((((p.latitude.dsub t.last_lat).dmul (p.latitude.dsub t.last_lat)).dadd
        ((p.longitude.dsub t.last_lon).dmul (p.longitude.dsub t.last_lon))).dsqrt).dmul
        (.finite 60) := by
  have hi : ¬ now - t.last_send_time < t.min_interval_sec := by omega
  refine ⟨?_, rfl⟩
  unfold throttleDistNm at hdist
  simp [swim_throttle_should_send, h0, hi, hdist]

/-- Interval 5 s, threshold 0.5 nm, call 6 s after the last send 1/64 of a
degree of latitude away: the computed distance is 0.9375 nm and the position is
sent. -/
theorem throttle_distance_trigger_witness :
    (throttleAtOrigin (1 / 2)).last_send_time ≠ 0 ∧
    throttleDistNm (throttleAtOrigin (1 / 2)) (positionAt (1 / 64) 0) = .finite (15 / 16) ∧
    swim_throttle_should_send (some (throttleAtOrigin (1 / 2))) (some (positionAt (1 / 64) 0))
      1700000006 = true :=
  ⟨by decide, by decide!,
   (throttle_distance_trigger (throttleAtOrigin (1 / 2)) (positionAt (1 / 64) 0) 1700000006
      (by decide) (by decide) (by decide!)).1⟩

/-! ## Auxiliary facts about the throttle arithmetic -/

/-- A non-negative value never grows by wrap-around. -/
theorem wrapInt32_le_self (x : Int) (h : 0 ≤ x) : wrapInt32 x ≤ x := by
  unfold wrapInt32
  omega

/-! ## The position throttle: heartbeat, suppression and frame -/

/-- Claim C21 (heartbeat).  For every throttle with last_send_time other than 0
and min_interval_sec > 0, and every position, if now - last_send_time >=
3 * min_interval_sec then `swim_throttle_should_send` returns true. -/
theorem throttle_heartbeat (t : SwimPositionThrottle) (p : SwimPosition) (now : Int)
    (h0 : t.last_send_time ≠ 0) (hpos : 0 < t.min_interval_sec)
    (h : now - t.last_send_time ≥ 3 * t.min_interval_sec) :
    swim_throttle_should_send (some t) (some p) now = true := by
  have hi : ¬ now - t.last_send_time < t.min_interval_sec := by omega
  have hw := wrapInt32_le_self (t.min_interval_sec * 3) (by omega)
  have hh : wrapInt32 (t.min_interval_sec * 3) ≤ now - t.last_send_time := by omega
  simp [swim_throttle_should_send, h0, hi, hh]

/-- Interval 5 s, call 16 s after the last send with zero movement: sent. -/
theorem throttle_heartbeat_witness :
    (SwimPositionThrottle.mk 1700000000 (.finite 40) (.finite (-70)) 10000 5 (.finite (1 / 2))
        100).last_send_time ≠ 0 ∧
      swim_throttle_should_send
        (some (SwimPositionThrottle.mk 1700000000 (.finite 40) (.finite (-70)) 10000 5
          (.finite (1 / 2)) 100))
        (some (SwimPosition.mk (.finite 40) (.finite (-70)) 10000 90 0 0 0 (.finite 0) true))
        1700000016 = true :=
  ⟨by decide,
   throttle_heartbeat
      (SwimPositionThrottle.mk 1700000000 (.finite 40) (.finite (-70)) 10000 5 (.finite (1 / 2))
        100)
      (SwimPosition.mk (.finite 40) (.finite (-70)) 10000 90 0 0 0 (.finite 0) true)
      1700000016 (by decide) (by decide) (by decide)⟩

/-- Claim C22, refuted as stated, on two inputs.  At latitude
4803839602528529 / 2^59, the binary64 value nearest to 1/120, 6 s after a send
from the origin with interval 5 s and threshold 0.5 nm, the distance over exact
real arithmetic is below 0.5, but the distance computed in `double` arithmetic
is exactly 0.5 and `swim_throttle_should_send` returns true.  With
min_interval_sec = 1000000000 the product min_interval_sec * 3 does not fit an
`int` and wraps to a negative value, and 1500000000 s after the last send, with
no movement, the function returns true. -/
theorem throttle_suppress_counterexample :
    ((throttleAtOrigin (1 / 2)).last_send_time ≠ 0 ∧
      (throttleAtOrigin (1 / 2)).min_interval_sec ≤
        1700000006 - (throttleAtOrigin (1 / 2)).last_send_time ∧
      1700000006 - (throttleAtOrigin (1 / 2)).last_send_time <
        3 * (throttleAtOrigin (1 / 2)).min_interval_sec ∧
      |(positionAt (4803839602528529 / 2 ^ 59) 0).altitude_ft -
          (throttleAtOrigin (1 / 2)).last_alt| < (throttleAtOrigin (1 / 2)).min_alt_change_ft ∧
      Real.sqrt ((((4803839602528529 / 2 ^ 59 : ℚ) : ℝ) - ((0 : ℚ) : ℝ)) ^ 2 +
          (((0 : ℚ) : ℝ) - ((0 : ℚ) : ℝ)) ^ 2) * 60 < ((1 / 2 : ℚ) : ℝ) ∧
      throttleDistNm (throttleAtOrigin (1 / 2)) (positionAt (4803839602528529 / 2 ^ 59) 0) =
        .finite (1 / 2) ∧
      swim_throttle_should_send (some (throttleAtOrigin (1 / 2)))
          (some (positionAt (4803839602528529 / 2 ^ 59) 0)) 1700000006 = true) ∧
    ((SwimPositionThrottle.mk 100000000 (.finite 40) (.finite (-70)) 10000 1000000000
          (.finite (1 / 2)) 100).last_send_time ≠ 0 ∧
      (1000000000 : Int) ≤ 1600000000 - 100000000 ∧
      (1600000000 - 100000000 : Int) < 3 * 1000000000 ∧
      |(10000 : Int) - 10000| < 100 ∧
      Real.sqrt (((40 : ℝ) - 40) ^ 2 + ((-70 : ℝ) - (-70)) ^ 2) * 60 < ((1 / 2 : ℚ) : ℝ) ∧
      swim_throttle_should_send
        (some (SwimPositionThrottle.mk 100000000 (.finite 40) (.finite (-70)) 10000 1000000000
          (.finite (1 / 2)) 100))
        (some (SwimPosition.mk (.finite 40) (.finite (-70)) 10000 90 0 0 0 (.finite 0) true))
        1600000000 = true) := by
  refine ⟨⟨by decide, by decide, by decide, by decide, ?_, by decide!, by decide!⟩,
    ⟨by decide, by decide, by decide, by decide, ?_, by decide!⟩⟩
  · have hq : (0 : ℚ) ≤ (4803839602528529 / 2 ^ 59 - 0) ^ 2 + (0 - 0) ^ 2 := by norm_num
    have h := (real_sqrt_mul_ge_iff _ 60 (1 / 2) hq (by norm_num)).not
    have hn : ¬ ((1 / 2 : ℚ) ≤ 0 ∨
        (1 / 2 : ℚ) * (1 / 2) ≤ 60 * 60 * ((4803839602528529 / 2 ^ 59 - 0) ^ 2 + (0 - 0) ^ 2)) := by
      norm_num
    have h2 := h.mpr hn
    push_cast at h2 ⊢
    exact lt_of_not_le h2
  · have h : ((40 : ℝ) - 40) ^ 2 + ((-70 : ℝ) - (-70)) ^ 2 = 0 := by norm_num
    rw [h, Real.sqrt_zero]
    norm_num

/-- Claim C22, amended (otherwise suppress).  For every throttle with
last_send_time other than 0 whose product 3 * min_interval_sec fits an `int`,
and every position: if min_interval_sec <= now - last_send_time <
3 * min_interval_sec, the altitude change is below min_alt_change_ft and the
distance the function computes in `double` arithmetic,
sqrt(dlat * dlat + dlon * dlon) * 60.0 with every operation rounded to binary64,
is not at least min_distance_nm, then `swim_throttle_should_send` returns
false. -/
theorem throttle_otherwise_suppress (t : SwimPositionThrottle) (p : SwimPosition) (now : Int)
    (h0 : t.last_send_time ≠ 0)
    (hlo : t.min_interval_sec ≤ now - t.last_send_time)
    (hhi : now - t.last_send_time < 3 * t.min_interval_sec)
    (hfit : 3 * t.min_interval_sec ≤ 2147483647)
    (hthr : t.min_alt_change_ft ≤ 2147483647)
    (halt : |p.altitude_ft - t.last_alt| < t.min_alt_change_ft)
    (hdist : (throttleDistNm t p).ge t.min_distance_nm = false) :
    swim_throttle_should_send (some t) (some p) now = false := by
  have hi : ¬ now - t.last_send_time < t.min_interval_sec := by omega
  have habs := abs_lt.mp halt
  have ha : absInt32 (wrapInt32 (p.altitude_ft - t.last_alt)) = |p.altitude_ft - t.last_alt| :=
    absInt32_wrapInt32_of_range _ (by omega) (by omega)
  have ha' : ¬ t.min_alt_change_ft ≤ absInt32 (wrapInt32 (p.altitude_ft - t.last_alt)) := by
    rw [ha]; omega
  have hw : wrapInt32 (t.min_interval_sec * 3) = t.min_interval_sec * 3 :=
    wrapInt32_of_range _ (by omega) (by omega)
  have hh : ¬ wrapInt32 (t.min_interval_sec * 3) ≤ now - t.last_send_time := by
    rw [hw]; omega
  unfold throttleDistNm at hdist
  simp [swim_throttle_should_send, h0, hi, ha', hdist, hh]

/-- Interval 5 s, call 6 s after the last send with no altitude change and no
movement: the computed distance is 0 and the position is suppressed. -/
theorem throttle_otherwise_suppress_witness :
    (throttleAtOrigin (1 / 2)).last_send_time ≠ 0 ∧
    throttleDistNm (throttleAtOrigin (1 / 2)) (positionAt 0 0) = .finite 0 ∧
    swim_throttle_should_send (some (throttleAtOrigin (1 / 2))) (some (positionAt 0 0))
      1700000006 = false :=
  ⟨by decide, by decide!,
   throttle_otherwise_suppress (throttleAtOrigin (1 / 2)) (positionAt 0 0) 1700000006
     (by decide) (by decide) (by decide) (by decide) (by decide) (by decide) (by decide!)⟩

/-- Claim C23 (frame of the throttle operations).  `swim_throttle_should_send`
changes no field of the throttle; `swim_throttle_mark_sent` sets last_send_time
to the clock reading and last_lat, last_lon and last_alt to the latitude,
longitude and altitude of the position, and leaves min_interval_sec,
min_distance_nm and min_alt_change_ft as they are. -/
theorem throttle_frame (t : SwimPositionThrottle) (p : SwimPosition) (now : Int) :
    (swim_throttle_should_send_run (some t) (some p) now).1 = some t ∧
    (swim_throttle_should_send_run (some t) (some p) now).2 =
      swim_throttle_should_send (some t) (some p) now ∧
    ∃ t', swim_throttle_mark_sent (some t) (some p) now = some t' ∧
      t'.last_send_time = now ∧ t'.last_lat = p.latitude ∧ t'.last_lon = p.longitude ∧
      t'.last_alt = p.altitude_ft ∧
      t'.min_interval_sec = t.min_interval_sec ∧ t'.min_distance_nm = t.min_distance_nm ∧
      t'.min_alt_change_ft = t.min_alt_change_ft :=
  ⟨rfl, rfl, _, rfl, rfl, rfl, rfl, rfl, rfl, rfl, rfl⟩

/-! ## Auxiliary facts about the JSON builder -/

/-- Builders with equal fields are equal. -/
theorem SwimJsonBuilder.ext_fields (a b : SwimJsonBuilder) (h1 : a.buffer = b.buffer)
    (h2 : a.depth = b.depth) (h3 : a.first_item = b.first_item) (h4 : a.in_array = b.in_array) :
    a = b := by
  cases a; cases b; simp_all

/-- Emitting a text keeps the nesting depth. -/
@[simp]
theorem jsonEmit_depth (j : SwimJsonBuilder) (x : String) :
    (jsonEmit j x).depth = j.depth := rfl

/-- Emitting a text keeps the array marks. -/
@[simp]
theorem jsonEmit_in_array (j : SwimJsonBuilder) (x : String) :
    (jsonEmit j x).in_array = j.in_array := rfl

/-- The buffer after emitting a text. -/
@[simp]
theorem jsonEmit_buffer (j : SwimJsonBuilder) (x : String) :
    (jsonEmit j x).buffer = j.buffer ++ (jsonSep j ++ x) := rfl

/-- Within the nesting arrays a written value marks its depth as no longer
empty. -/
theorem jsonEmit_first_item (j : SwimJsonBuilder) (x : String) (h0 : 0 ≤ j.depth)
    (h1 : j.depth < 16) :
    (jsonEmit j x).first_item = Function.update j.first_item j.depth false := by
  have hn : ¬ (j.depth < 0 ∨ j.depth ≥ SWIM_JSON_MAX_DEPTH) := by
    simp only [SWIM_JSON_MAX_DEPTH]; omega
  simp [jsonEmit, hn]

/-- A value written after at least one other is preceded by a comma. -/
theorem jsonSep_emit (j : SwimJsonBuilder) (x : String) (h0 : 0 ≤ j.depth)
    (h1 : j.depth < 16) : jsonSep (jsonEmit j x) = "," := by
  have hn : ¬ (j.depth < 0 ∨ j.depth ≥ SWIM_JSON_MAX_DEPTH) := by
    simp only [SWIM_JSON_MAX_DEPTH]; omega
  simp [jsonSep, jsonEmit, hn]

/-- `swim_json_comma` writes the separator. -/
theorem swim_json_comma_eq (j : SwimJsonBuilder) : swim_json_comma j = jsonEmit j "" := by
  unfold swim_json_comma jsonEmit jsonSep swim_json_append
  by_cases hn : j.depth < 0 ∨ j.depth ≥ SWIM_JSON_MAX_DEPTH
  · simp [hn]
  · cases hf : j.first_item j.depth <;> simp [hn, hf]

/-- The escape loop appends the escaped text and changes nothing else. -/
theorem swim_json_escape_eq (cs : List Char) :
    ∀ j : SwimJsonBuilder,
      swim_json_escape j cs = { j with buffer := j.buffer ++ jsonEscapeText cs } := by
  induction cs with
  | nil => intro j; simp [swim_json_escape, jsonEscapeText]
  | cons c cs ih =>
    intro j
    simp only [swim_json_escape, jsonEscapeText, ih, swim_json_append]
    split_ifs <;> simp [String.append_assoc]

/-- `swim_json_string` writes its text as one value. -/
theorem swim_json_string_eq (j : SwimJsonBuilder) (key value : Option String)
    :
    swim_json_string j key value = jsonEmit j (jsonStringText key value) := by
  unfold swim_json_string
  rw [swim_json_comma_eq j]
  have hq : ∀ x : String, "\":\"" ++ x = "\":" ++ ("\"" ++ x) := fun x => by
    rw [← String.append_assoc]; rfl
  cases key <;> cases value <;>
    simp [jsonEmit, jsonStringText, jsonKeyText, swim_json_append, swim_json_escape_eq,
      String.append_assoc, hq]

/-- `swim_json_int` writes its text as one value. -/
theorem swim_json_int_eq (j : SwimJsonBuilder) (key : Option String) (value : Int)
    :
    swim_json_int j key value = jsonEmit j (jsonIntText key value) := by
  unfold swim_json_int
  rw [swim_json_comma_eq j]
  cases key <;> simp [jsonEmit, jsonIntText, swim_json_append, String.append_assoc]

/-- `swim_json_double` writes its text as one value. -/
theorem swim_json_double_eq (lib : CLib) (j : SwimJsonBuilder) (key : Option String)
    (value : CFloat) (precision : Int) :
    swim_json_double lib j key value precision =
      jsonEmit j (jsonDoubleText lib key value precision) := by
  unfold swim_json_double
  rw [swim_json_comma_eq j]
  cases key <;>
    simp [jsonEmit, jsonDoubleText, jsonKeyText, swim_json_append, String.append_assoc]

/-- `swim_json_bool` writes its text as one value. -/
theorem swim_json_bool_eq (j : SwimJsonBuilder) (key : Option String) (value : Bool)
    :
    swim_json_bool j key value = jsonEmit j (jsonBoolText key value) := by
  unfold swim_json_bool
  rw [swim_json_comma_eq j]
  cases key <;> simp [jsonEmit, jsonBoolText, swim_json_append, String.append_assoc]

/-- `swim_json_null` writes its text as one value. -/
theorem swim_json_null_eq (j : SwimJsonBuilder) (key : Option String) :
    swim_json_null j key = jsonEmit j (jsonNullText key) := by
  unfold swim_json_null
  rw [swim_json_comma_eq j]
  cases key <;> simp [jsonEmit, jsonNullText, swim_json_append, String.append_assoc]

/-- `swim_json_timestamp` writes its text as one value. -/
theorem swim_json_timestamp_eq (lib : CLib) (j : SwimJsonBuilder) (key : Option String)
    (timestamp : Int) :
    swim_json_timestamp lib j key timestamp =
      jsonEmit j (jsonTimestampText lib key timestamp) := by
  unfold swim_json_timestamp jsonTimestampText
  split_ifs
  · exact swim_json_null_eq j key
  · cases lib.gmtime_strftime timestamp with
    | none => exact swim_json_null_eq j key
    | some buf => exact swim_json_string_eq j key (some buf)

/-- The accumulator of `String.intercalate` is a leading part of its result. -/
theorem intercalate_go_eq (sep : String) (l : List String) :
    ∀ acc : String, String.intercalate.go acc sep l = acc ++ String.intercalate.go "" sep l := by
  induction l with
  | nil => intro acc; simp [String.intercalate.go]
  | cons a as ih =>
    intro acc
    simp only [String.intercalate.go]
    rw [ih (acc ++ sep ++ a), ih ("" ++ sep ++ a)]
    simp [String.append_assoc]

/-- Joining one text gives the text. -/
theorem intercalate_singleton (sep a : String) : sep.intercalate [a] = a := by
  simp [String.intercalate, String.intercalate.go]

/-- Joining at least two texts puts one separator after the first. -/
theorem intercalate_cons_cons (sep a b : String) (l : List String) :
    sep.intercalate (a :: b :: l) = a ++ (sep ++ sep.intercalate (b :: l)) := by
  simp only [String.intercalate, String.intercalate.go]
  rw [intercalate_go_eq sep l (a ++ sep ++ b), intercalate_go_eq sep l b]
  simp [String.append_assoc]

/-- Emitting no text changes nothing. -/
@[simp]
theorem jsonEmitAll_nil (j : SwimJsonBuilder) : jsonEmitAll j [] = j := rfl

/-- Emitting a list of texts, one step. -/
@[simp]
theorem jsonEmitAll_cons (j : SwimJsonBuilder) (x : String) (l : List String) :
    jsonEmitAll j (x :: l) = jsonEmitAll (jsonEmit j x) l := rfl

/-- Writing one list of values after another writes their concatenation. -/
theorem jsonEmitAll_append (j : SwimJsonBuilder) (a b : List String) :
    jsonEmitAll (jsonEmitAll j a) b = jsonEmitAll j (a ++ b) := by
  simp [jsonEmitAll, List.foldl_append]

/-- One value is a list of one value. -/
theorem jsonEmit_eq_all (j : SwimJsonBuilder) (x : String) : jsonEmit j x = jsonEmitAll j [x] :=
  rfl

/-- Values written under a condition are a list that is empty when the
condition fails. -/
theorem jsonEmitAll_ite (c : Prop) [Decidable c] (j : SwimJsonBuilder) (l : List String) :
    (if c then jsonEmitAll j l else j) = jsonEmitAll j (if c then l else []) := by
  split_ifs <;> rfl

/-- Values written in order at one depth are joined by commas. -/
theorem jsonEmitAll_eq (l : List String) :
    ∀ j : SwimJsonBuilder, 0 ≤ j.depth → j.depth < 16 → l ≠ [] →
      jsonEmitAll j l =
        { j with buffer := j.buffer ++ (jsonSep j ++ ",".intercalate l)
                 first_item := Function.update j.first_item j.depth false } := by
  induction l with
  | nil => intro j _ _ h; exact absurd rfl h
  | cons x l ih =>
    intro j h0 h1 _
    cases l with
    | nil =>
      apply SwimJsonBuilder.ext_fields <;>
        simp [intercalate_singleton, jsonEmit_first_item j x h0 h1]
    | cons y l =>
      rw [jsonEmitAll_cons, ih (jsonEmit j x) h0 h1 (by simp), intercalate_cons_cons]
      apply SwimJsonBuilder.ext_fields <;>
        simp [String.append_assoc, jsonEmit_first_item j x h0 h1, jsonSep_emit j x h0 h1]

/-- `swim_json_object_start` within the nesting arrays. -/
theorem swim_json_object_start_eq (j : SwimJsonBuilder) (h0 : 0 ≤ j.depth)
    (h1 : j.depth < 15) :
    swim_json_object_start j =
      { buffer := j.buffer ++ (jsonSep j ++ "\x7b")
        depth := j.depth + 1
        first_item :=
          Function.update (Function.update j.first_item j.depth false) (j.depth + 1) true
        in_array := Function.update j.in_array (j.depth + 1) false } := by
  have hn : ¬ j.depth ≥ SWIM_JSON_MAX_DEPTH - 1 := by
    simp only [SWIM_JSON_MAX_DEPTH]; omega
  unfold swim_json_object_start
  rw [if_neg hn, swim_json_comma_eq j]
  apply SwimJsonBuilder.ext_fields <;>
    simp [swim_json_append, String.append_assoc, jsonEmit_first_item j "" h0 (by omega)]

/-- An object: its fields, joined by commas, between braces, written as one
value at the depth of the builder. -/
theorem jsonObject_eq (j : SwimJsonBuilder) (l : List String) (h0 : 0 ≤ j.depth)
    (h1 : j.depth < 15) (hl : l ≠ []) :
    swim_json_object_end (jsonEmitAll (swim_json_object_start j) l) =
      { buffer := j.buffer ++ (jsonSep j ++ ("\x7b" ++ (",".intercalate l ++ "\x7d")))
        depth := j.depth
        first_item :=
          Function.update (Function.update j.first_item j.depth false) (j.depth + 1) false
        in_array := Function.update j.in_array (j.depth + 1) false } := by
  rw [swim_json_object_start_eq j h0 h1,
    jsonEmitAll_eq l _ (by simp only []; omega) (by simp only []; omega) hl]
  have hd : ¬ (j.depth + 1 ≤ 0) := by omega
  have hn : ¬ (j.depth + 1 < 0 ∨ j.depth + 1 ≥ SWIM_JSON_MAX_DEPTH) := by
    simp only [SWIM_JSON_MAX_DEPTH]; omega
  unfold swim_json_object_end
  simp only [hd, if_false]
  apply SwimJsonBuilder.ext_fields <;>
    simp [swim_json_append, jsonSep, String.append_assoc, hn]

/-- A value list extended under a condition. -/
theorem jsonEmitAll_ite_append (c : Prop) [Decidable c] (j : SwimJsonBuilder)
    (l m : List String) :
    (if c then jsonEmitAll j (l ++ m) else jsonEmitAll j l) =
      jsonEmitAll j (l ++ if c then m else []) := by
  split_ifs <;> simp

/-- A value list extended by six values under a condition. -/
theorem jsonEmitAll_ite_six (c : Prop) [Decidable c] (j : SwimJsonBuilder)
    (l : List String) (a b d e f g : String) :
    (if c then jsonEmitAll j (l ++ [a] ++ [b] ++ [d] ++ [e] ++ [f] ++ [g])
      else jsonEmitAll j l) =
      jsonEmitAll j (l ++ if c then [a, b, d, e, f, g] else []) := by
  split_ifs <;> simp

/-- `swim_json_track` writes one object whose fields are `trackFields`. -/
theorem swim_json_track_eq (lib : CLib) (j : SwimJsonBuilder) (t : SwimTrackUpdate) :
    swim_json_track lib j t =
      swim_json_object_end (jsonEmitAll (swim_json_object_start j) (trackFields lib t)) := by
  unfold swim_json_track
  simp only [swim_json_string_eq, swim_json_double_eq, swim_json_int_eq,
    swim_json_timestamp_eq, jsonEmit_eq_all, jsonEmitAll_append, jsonEmitAll_ite_append]
  rfl

/-- `swim_json_flight_ingest` writes one object whose fields are
`flightFields`. -/
theorem swim_json_flight_ingest_eq (lib : CLib) (j : SwimJsonBuilder) (f : SwimFlightIngest) :
    swim_json_flight_ingest lib j f =
      swim_json_object_end (jsonEmitAll (swim_json_object_start j) (flightFields lib f)) := by
  unfold swim_json_flight_ingest
  simp only [swim_json_string_eq, swim_json_double_eq, swim_json_int_eq, swim_json_bool_eq,
    swim_json_timestamp_eq, jsonEmit_eq_all, jsonEmitAll_append, jsonEmitAll_ite_append,
    jsonEmitAll_ite_six]
  rfl

/-- The text of an object with the given fields. -/
theorem trackFields_ne_nil (lib : CLib) (t : SwimTrackUpdate) : trackFields lib t ≠ [] := by
  simp [trackFields]

/-- A flight object always has a first field. -/
theorem flightFields_ne_nil (lib : CLib) (f : SwimFlightIngest) : flightFields lib f ≠ [] := by
  simp [flightFields]

/-- A freshly initialised builder is empty, at depth 0, with nothing written. -/
theorem swim_json_init_eq (n : Int) :
    (swim_json_init n).1.buffer = "" ∧ (swim_json_init n).1.depth = 0 ∧
      jsonSep (swim_json_init n).1 = "" ∧ (swim_json_init n).2 = true := by
  simp [swim_json_init, jsonSep]

/-- The object `swim_json_track` writes is its fields, joined by commas, between
braces. -/
theorem trackObject_eq (lib : CLib) (t : SwimTrackUpdate) :
    trackObject lib t = "\x7b" ++ (",".intercalate (trackFields lib t) ++ "\x7d") := by
  obtain ⟨hb, hd, hs, -⟩ := swim_json_init_eq 0
  unfold trackObject swim_json_get
  rw [swim_json_track_eq, jsonObject_eq _ _ (by omega) (by omega) (trackFields_ne_nil lib t)]
  simp [hb, hs]

/-- The object `swim_json_flight_ingest` writes is its fields, joined by commas,
between braces. -/
theorem flightObject_eq (lib : CLib) (f : SwimFlightIngest) :
    flightObject lib f = "\x7b" ++ (",".intercalate (flightFields lib f) ++ "\x7d") := by
  obtain ⟨hb, hd, hs, -⟩ := swim_json_init_eq 0
  unfold flightObject swim_json_get
  rw [swim_json_flight_ingest_eq,
    jsonObject_eq _ _ (by omega) (by omega) (flightFields_ne_nil lib f)]
  simp [hb, hs]

/-- A non-empty batch written by an element writer that writes one object per
element: the objects joined by commas, at the depth of the builder. -/
theorem jsonFold_eq {α : Type} (w : SwimJsonBuilder → α → SwimJsonBuilder)
    (fields : α → List String) (hf : ∀ a, fields a ≠ [])
    (hw : ∀ j a, w j a =
      swim_json_object_end (jsonEmitAll (swim_json_object_start j) (fields a)))
    (as : List α) :
    ∀ (a : α) (j : SwimJsonBuilder), 0 ≤ j.depth → j.depth < 15 →
      ((a :: as).foldl w j).buffer =
          j.buffer ++ (jsonSep j ++ ",".intercalate
            ((a :: as).map (fun x => "\x7b" ++ (",".intercalate (fields x) ++ "\x7d")))) ∧
        ((a :: as).foldl w j).depth = j.depth := by
  induction as with
  | nil =>
    intro a j h0 h1
    simp only [List.foldl_cons, List.foldl_nil, List.map_cons, List.map_nil,
      intercalate_singleton]
    rw [hw, jsonObject_eq j _ h0 h1 (hf a)]
    exact ⟨rfl, rfl⟩
  | cons b as ih =>
    intro a j h0 h1
    rw [List.foldl_cons, hw, jsonObject_eq j _ h0 h1 (hf a)]
    have hn : ¬ (j.depth < 0 ∨ j.depth ≥ SWIM_JSON_MAX_DEPTH) := by
      simp only [SWIM_JSON_MAX_DEPTH]; omega
    obtain ⟨e1, e2⟩ := ih b
      { buffer := j.buffer ++ (jsonSep j ++ ("\x7b" ++ (",".intercalate (fields a) ++ "\x7d")))
        depth := j.depth
        first_item :=
          Function.update (Function.update j.first_item j.depth false) (j.depth + 1) false
        in_array := Function.update j.in_array (j.depth + 1) false } h0 h1
    rw [e1, e2]
    refine ⟨?_, rfl⟩
    simp [List.map_cons, intercalate_cons_cons, jsonSep, hn, String.append_assoc]

/-- The request body built around a non-empty batch: an object whose single
field is the array named `key`, holding the objects of the batch. -/
theorem jsonBody_eq {α : Type} (w : SwimJsonBuilder → α → SwimJsonBuilder)
    (fields : α → List String) (hf : ∀ a, fields a ≠ [])
    (hw : ∀ j a, w j a =
      swim_json_object_end (jsonEmitAll (swim_json_object_start j) (fields a)))
    (key : String) (n : Int) (a : α) (as : List α) :
    swim_json_get
        (swim_json_object_end
          (swim_json_array_end
            ((a :: as).foldl w
              (swim_json_array_start (swim_json_object_start (swim_json_init n).1)
                (some key))))) =
      "\x7b" ++ ("\"" ++ (key ++ ("\":[" ++ (",".intercalate
        ((a :: as).map (fun x => "\x7b" ++ (",".intercalate (fields x) ++ "\x7d"))) ++
          ("]" ++ "\x7d"))))) := by
  obtain ⟨hb, hd, hs, -⟩ := swim_json_init_eq n
  have h1 := swim_json_object_start_eq (swim_json_init n).1 (by omega) (by omega)
  rw [hb, hd, hs] at h1
  have h2 : swim_json_array_start (swim_json_object_start (swim_json_init n).1) (some key) =
      { buffer := "\x7b" ++ ("\"" ++ (key ++ "\":["))
        depth := 2
        first_item := Function.update (Function.update
          (Function.update (Function.update (swim_json_init n).1.first_item 0 false) 1 true)
          1 false) 2 true
        in_array := Function.update
          (Function.update (swim_json_init n).1.in_array 1 false) 2 true } := by
    rw [h1]
    unfold swim_json_array_start
    simp only [SWIM_JSON_MAX_DEPTH, swim_json_comma_eq]
    have hq : ∀ x : String, "\x7b\"" ++ x = "\x7b" ++ ("\"" ++ x) := fun x => by
      rw [← String.append_assoc]; rfl
    apply SwimJsonBuilder.ext_fields <;>
      simp [swim_json_append, jsonEmit, jsonSep, SWIM_JSON_MAX_DEPTH, String.append_assoc, hq]
  obtain ⟨e1, e2⟩ := jsonFold_eq w fields hf hw as a
    (swim_json_array_start (swim_json_object_start (swim_json_init n).1) (some key))
    (by rw [h2]; simp) (by rw [h2]; simp)
  have hsep : jsonSep
      (swim_json_array_start (swim_json_object_start (swim_json_init n).1) (some key)) = "" := by
    rw [h2]; simp [jsonSep, SWIM_JSON_MAX_DEPTH]
  rw [hsep] at e1
  have hd2 : (swim_json_array_start (swim_json_object_start (swim_json_init n).1)
      (some key)).depth = 2 := by rw [h2]
  have hb2 : (swim_json_array_start (swim_json_object_start (swim_json_init n).1)
      (some key)).buffer = "\x7b" ++ ("\"" ++ (key ++ "\":[")) := by rw [h2]
  rw [hd2] at e2
  rw [hb2] at e1
  generalize List.foldl w
    (swim_json_array_start (swim_json_object_start (swim_json_init n).1) (some key))
    (a :: as) = out at e1 e2
  simp [swim_json_get, swim_json_object_end, swim_json_array_end, swim_json_append, e1, e2,
    String.append_assoc]

/-! ## Auxiliary facts about the ingestion client -/

/-- The body of a non-empty track batch: an object whose single field is the
array `tracks` of the objects of the entries, in order, joined by commas. -/
theorem trackBatchBody_eq (lib : CLib) (batch : List SwimTrackUpdate) (capacity : Int)
    (h : batch ≠ []) :
    trackBatchBody lib batch capacity =
      "\x7b\"tracks\":[" ++ ",".intercalate (batch.map (trackObject lib)) ++ "]\x7d" := by
  cases batch with
  | nil => exact absurd rfl h
  | cons a as =>
    have hm : (fun x => "\x7b" ++ (",".intercalate (trackFields lib x) ++ "\x7d")) =
        trackObject lib := funext fun x => (trackObject_eq lib x).symm
    unfold trackBatchBody
    rw [jsonBody_eq (swim_json_track lib) (trackFields lib) (trackFields_ne_nil lib)
      (swim_json_track_eq lib) "tracks" capacity a as, hm]
    have l1 : ("\x7b\"tracks\":[" : String) = "\x7b" ++ ("\"" ++ ("tracks" ++ "\":[")) := rfl
    have l2 : ("]\x7d" : String) = "]" ++ "\x7d" := rfl
    rw [l1, l2]
    simp only [String.append_assoc]

/-- The body of a non-empty flight batch: an object whose single field is the
array `flights` of the objects of the entries, in order, joined by commas. -/
theorem flightBatchBody_eq (lib : CLib) (batch : List SwimFlightIngest) (capacity : Int)
    (h : batch ≠ []) :
    flightBatchBody lib batch capacity =
      "\x7b\"flights\":[" ++ ",".intercalate (batch.map (flightObject lib)) ++ "]\x7d" := by
  cases batch with
  | nil => exact absurd rfl h
  | cons a as =>
    have hm : (fun x => "\x7b" ++ (",".intercalate (flightFields lib x) ++ "\x7d")) =
        flightObject lib := funext fun x => (flightObject_eq lib x).symm
    unfold flightBatchBody
    rw [jsonBody_eq (swim_json_flight_ingest lib) (flightFields lib) (flightFields_ne_nil lib)
      (swim_json_flight_ingest_eq lib) "flights" capacity a as, hm]
    have l1 : ("\x7b\"flights\":[" : String) = "\x7b" ++ ("\"" ++ ("flights" ++ "\":[")) := rfl
    have l2 : ("]\x7d" : String) = "]" ++ "\x7d" := rfl
    rw [l1, l2]
    simp only [String.append_assoc]

/-- The ingest of a batch of at least one track by an initialised client: the
first `count` entries, capped at 1000, are serialized into one body, which is
handed to `swim_http_post` once. -/
theorem swim_client_ingest_track_eq (lib : CLib) (c : SwimClient) (ts : List SwimTrackUpdate)
    (count : Int) (r : SwimIngestResult) (curl : CurlOutcome) (hi : c.initialized = true)
    (hc : 1 ≤ count) :
    swim_client_ingest_track lib (some c) (some ts) count (some r) curl =
      ⟨(swim_http_post (some c.http) (some "/ingest/track")
          (some (trackBatchBody lib (ts.take (batchSize count 1000))
            ((if count > 1000 then 1000 else count) * 256)))
          (some r) curl).status,
       (swim_http_post (some c.http) (some "/ingest/track")
          (some (trackBatchBody lib (ts.take (batchSize count 1000))
            ((if count > 1000 then 1000 else count) * 256)))
          (some r) curl).result,
       (ts.take (batchSize count 1000)).map ClientEvent.serialize_track ++
        [ClientEvent.http_post "/ingest/track"
          (trackBatchBody lib (ts.take (batchSize count 1000))
            ((if count > 1000 then 1000 else count) * 256))
          (swim_http_post (some c.http) (some "/ingest/track")
            (some (trackBatchBody lib (ts.take (batchSize count 1000))
              ((if count > 1000 then 1000 else count) * 256)))
            (some r) curl).requests]⟩ := by
  have hn : ¬ count ≤ 0 := by omega
  simp [swim_client_ingest_track, hi, hn, SWIM_MAX_BATCH_TRACKS, swim_json_init,
    trackBatchBody, batchSize]

/-- The ingest of a batch of at least one flight by an initialised client: the
first `count` entries, capped at 500, are serialized into one body, which is
handed to `swim_http_post` once. -/
theorem swim_client_ingest_adl_eq (lib : CLib) (c : SwimClient) (fs : List SwimFlightIngest)
    (count : Int) (r : SwimIngestResult) (curl : CurlOutcome) (hi : c.initialized = true)
    (hc : 1 ≤ count) :
    swim_client_ingest_adl lib (some c) (some fs) count (some r) curl =
      ⟨(swim_http_post (some c.http) (some "/ingest/adl")
          (some (flightBatchBody lib (fs.take (batchSize count 500))
            ((if count > 500 then 500 else count) * 512)))
          (some r) curl).status,
       (swim_http_post (some c.http) (some "/ingest/adl")
          (some (flightBatchBody lib (fs.take (batchSize count 500))
            ((if count > 500 then 500 else count) * 512)))
          (some r) curl).result,
       (fs.take (batchSize count 500)).map ClientEvent.serialize_flight ++
        [ClientEvent.http_post "/ingest/adl"
          (flightBatchBody lib (fs.take (batchSize count 500))
            ((if count > 500 then 500 else count) * 512))
          (swim_http_post (some c.http) (some "/ingest/adl")
            (some (flightBatchBody lib (fs.take (batchSize count 500))
              ((if count > 500 then 500 else count) * 512)))
            (some r) curl).requests]⟩ := by
  have hn : ¬ count ≤ 0 := by omega
  simp [swim_client_ingest_adl, hi, hn, SWIM_MAX_BATCH_ADL, swim_json_init,
    flightBatchBody, batchSize]

/-- A transfer is performed for every `swim_http_post` call on a client with a
curl handle: one request, carrying the body, to the base URL followed by the
endpoint. -/
theorem swim_http_post_requests (h : SwimHttpClient) (endpoint body : String)
    (r : SwimIngestResult) (curl : CurlOutcome) (hc : h.curl = true) :
    ∃ q, (swim_http_post (some h) (some endpoint) (some body) (some r) curl).requests = [q] ∧
      q.json_body = body ∧
      q.url = ((if h.config.base_url ≠ "" then h.config.base_url else SWIM_DEFAULT_BASE_URL)
        ++ endpoint).take 511 := by
  simp only [swim_http_post, hc, Bool.not_true, Bool.false_eq_true, if_false]
  by_cases h0 : curl.res ≠ CURLE_OK
  · rw [if_pos h0]; simp
  · rw [if_neg h0]
    by_cases h1 : curl.response_code = 200 ∨ curl.response_code = 201
    · rw [if_pos h1]; simp
    · rw [if_neg h1]
      by_cases h2 : curl.response_code = 401 ∨ curl.response_code = 403
      · rw [if_pos h2]; simp
      · rw [if_neg h2]
        by_cases h3 : curl.response_code = 429
        · rw [if_pos h3]; simp
        · rw [if_neg h3]
          by_cases h4 : curl.response_code ≥ 500
          · rw [if_pos h4]; simp
          · rw [if_neg h4]; simp

/-! ## The ingestion client: properties -/

/-- Claim C24 (a send marks the throttle only on success).  For every
initialised client, callsign and position that the throttle says is due: if
the underlying `swim_client_ingest_track` call returns SWIM_OK,
`swim_client_send_position_throttled` returns true and the throttle's last-sent
time, latitude, longitude and altitude become the clock reading and that
position; if it returns any other status, the function returns false and the
client, its throttle included, is exactly what it was before the call. -/
theorem send_position_marks_only_on_ok (lib : CLib) (c : SwimClient) (callsign : String)
    (p : SwimPosition) (result : Option SwimIngestResult) (now_check now_stamp now_mark : Int)
    (local_result : SwimIngestResult) (curl : CurlOutcome)
    (hi : c.initialized = true)
    (hdue : swim_throttle_should_send (some c.throttle) (some p) now_check = true) :
    ((swim_client_ingest_track lib (some c)
          (some [{ callsign := callsign.take 15, position := p, timestamp := now_stamp,
                   squawk := "" }]) 1 (some (result.getD local_result)) curl).status = SWIM_OK →
      (swim_client_send_position_throttled lib (some c) (some callsign) (some p) result
          now_check now_stamp now_mark local_result curl).sent = true ∧
      (swim_client_send_position_throttled lib (some c) (some callsign) (some p) result
          now_check now_stamp now_mark local_result curl).client =
        some { c with throttle :=
                 { c.throttle with last_send_time := now_mark, last_lat := p.latitude,
                                   last_lon := p.longitude, last_alt := p.altitude_ft } }) ∧
    ((swim_client_ingest_track lib (some c)
          (some [{ callsign := callsign.take 15, position := p, timestamp := now_stamp,
                   squawk := "" }]) 1 (some (result.getD local_result)) curl).status ≠ SWIM_OK →
      (swim_client_send_position_throttled lib (some c) (some callsign) (some p) result
          now_check now_stamp now_mark local_result curl).sent = false ∧
      (swim_client_send_position_throttled lib (some c) (some callsign) (some p) result
          now_check now_stamp now_mark local_result curl).client = some c) := by
  constructor
  · intro h
    simp only [SWIM_MAX_CALLSIGN] at *
    simp [swim_client_send_position_throttled, hi, swim_client_should_send_position, hdue,
      SWIM_MAX_CALLSIGN, h, swim_client_mark_position_sent, swim_throttle_mark_sent]
  · intro h
    simp [swim_client_send_position_throttled, hi, swim_client_should_send_position, hdue,
      SWIM_MAX_CALLSIGN, h]

/-- An initialised client 6 s after its last send, altitude changed by 150 ft:
the position is due; with a transfer answered 200 the send returns true and the
throttle takes the clock reading and the position, with a transfer that timed
out it returns false and the client is unchanged. -/
theorem send_position_marks_only_on_ok_witness :
    sampleClient.initialized = true ∧
    swim_throttle_should_send (some sampleClient.throttle) (some samplePosition) 1700000006
      = true ∧
    (swim_client_send_position_throttled sampleLib (some sampleClient) (some "UAL123")
        (some samplePosition) none 1700000006 1700000006 1700000007 zeroResult
        sampleCurlOk).sent = true ∧
    (swim_client_send_position_throttled sampleLib (some sampleClient) (some "UAL123")
        (some samplePosition) none 1700000006 1700000006 1700000007 zeroResult
        sampleCurlOk).client =
      some { sampleClient with throttle :=
               { sampleClient.throttle with last_send_time := 1700000007,
                                            last_lat := .finite 40, last_lon := .finite (-70),
                                            last_alt := 10150 } } ∧
    (swim_client_send_position_throttled sampleLib (some sampleClient) (some "UAL123")
        (some samplePosition) none 1700000006 1700000006 1700000007 zeroResult
        sampleCurlTimeout).sent = false ∧
    (swim_client_send_position_throttled sampleLib (some sampleClient) (some "UAL123")
        (some samplePosition) none 1700000006 1700000006 1700000007 zeroResult
        sampleCurlTimeout).client = some sampleClient := by
  have hdue : swim_throttle_should_send (some sampleClient.throttle) (some samplePosition)
      1700000006 = true := by
    simp [swim_throttle_should_send, sampleClient, samplePosition, absInt32, wrapInt32]
  have hok : (swim_client_ingest_track sampleLib (some sampleClient)
      (some [{ callsign := ("UAL123" : String).take 15, position := samplePosition,
               timestamp := 1700000006, squawk := "" }]) 1
      (some ((none : Option SwimIngestResult).getD zeroResult)) sampleCurlOk).status = SWIM_OK := by
    rw [swim_client_ingest_track_eq _ _ _ _ _ _ rfl (by decide)]
    simp [swim_http_post, sampleClient, sampleCurlOk, CURLE_OK]
  have hto : (swim_client_ingest_track sampleLib (some sampleClient)
      (some [{ callsign := ("UAL123" : String).take 15, position := samplePosition,
               timestamp := 1700000006, squawk := "" }]) 1
      (some ((none : Option SwimIngestResult).getD zeroResult)) sampleCurlTimeout).status
        ≠ SWIM_OK := by
    rw [swim_client_ingest_track_eq _ _ _ _ _ _ rfl (by decide)]
    simp [swim_http_post, sampleClient, sampleCurlTimeout, CURLE_OK, CURLE_OPERATION_TIMEDOUT]
  have h1 := (send_position_marks_only_on_ok sampleLib sampleClient "UAL123" samplePosition none
    1700000006 1700000006 1700000007 zeroResult sampleCurlOk rfl hdue).1 hok
  have h2 := (send_position_marks_only_on_ok sampleLib sampleClient "UAL123" samplePosition none
    1700000006 1700000006 1700000007 zeroResult sampleCurlTimeout rfl hdue).2 hto
  exact ⟨rfl, hdue, h1.1, h1.2, h2.1, h2.2⟩

/-- Claim C25 (a declined send does nothing).  For every initialised client,
callsign and position for which `swim_throttle_should_send` returns false,
`swim_client_send_position_throttled` returns false without serializing
anything and without calling `swim_http_post`, and leaves the client, its
throttle and detector included, and the caller's result unchanged. -/
theorem send_position_declined (lib : CLib) (c : SwimClient) (callsign : String)
    (p : SwimPosition) (result : Option SwimIngestResult) (now_check now_stamp now_mark : Int)
    (local_result : SwimIngestResult) (curl : CurlOutcome)
    (hi : c.initialized = true)
    (hnot : swim_throttle_should_send (some c.throttle) (some p) now_check = false) :
    swim_client_send_position_throttled lib (some c) (some callsign) (some p) result
        now_check now_stamp now_mark local_result curl =
      ⟨false, some c, result, []⟩ := by
  simp [swim_client_send_position_throttled, hi, swim_client_should_send_position, hnot]

/-- An initialised client 2 s after its last send, interval 5 s: the throttle
declines, nothing is serialized or posted and the client is unchanged. -/
theorem send_position_declined_witness :
    sampleClient.initialized = true ∧
    swim_throttle_should_send (some sampleClient.throttle) (some samplePosition) 1700000002
      = false ∧
    swim_client_send_position_throttled sampleLib (some sampleClient) (some "UAL123")
        (some samplePosition) (some zeroResult) 1700000002 1700000002 1700000003 zeroResult
        sampleCurlOk =
      ⟨false, some sampleClient, some zeroResult, []⟩ := by
  have hnot : swim_throttle_should_send (some sampleClient.throttle) (some samplePosition)
      1700000002 = false := by
    simp [swim_throttle_should_send, sampleClient]
  exact ⟨rfl, hnot,
    send_position_declined sampleLib sampleClient "UAL123" samplePosition (some zeroResult)
      1700000002 1700000002 1700000003 zeroResult sampleCurlOk rfl hnot⟩

/-- Claim C26 (invalid input is rejected before any work).  For every client
and batch with count <= 0, and likewise for a missing batch, a missing client
or an uninitialised client, `swim_client_ingest_track` returns
SWIM_ERROR_INVALID_DATA, sets result.status to SWIM_ERROR_INVALID_DATA, and
neither serializes an entry nor calls the transport. -/
theorem ingest_track_rejects_invalid (lib : CLib) (client : Option SwimClient)
    (tracks : Option (List SwimTrackUpdate)) (count : Int) (r : SwimIngestResult)
    (curl : CurlOutcome)
    (h : count ≤ 0 ∨ tracks = none ∨ client = none ∨
      ∃ c, client = some c ∧ c.initialized = false) :
    swim_client_ingest_track lib client tracks count (some r) curl =
        ⟨SWIM_ERROR_INVALID_DATA,
         some { r with status := SWIM_ERROR_INVALID_DATA, error_message := "Invalid parameters" },
         []⟩ ∧
    swim_client_ingest_track lib client tracks count none curl =
        ⟨SWIM_ERROR_INVALID_DATA, none, []⟩ := by
  constructor
  · cases client with
    | none => cases tracks <;> rfl
    | some c =>
      cases tracks with
      | none => rfl
      | some ts =>
        rcases h with h | h | h | ⟨c', hc, hi⟩
        · simp [swim_client_ingest_track, h]
        · cases h
        · cases h
        · cases hc
          simp [swim_client_ingest_track, hi]
  · cases client <;> cases tracks <;> rfl

/-- An initialised client given an empty batch with count 0: rejected as
invalid data, nothing serialized or posted. -/
theorem ingest_track_rejects_invalid_witness :
    ((0 : Int) ≤ 0 ∨ some ([] : List SwimTrackUpdate) = none ∨ some sampleClient = none ∨
      ∃ c, some sampleClient = some c ∧ c.initialized = false) ∧
    swim_client_ingest_track sampleLib (some sampleClient) (some []) 0 (some zeroResult)
        sampleCurlOk =
      ⟨SWIM_ERROR_INVALID_DATA,
       some { zeroResult with status := SWIM_ERROR_INVALID_DATA,
                              error_message := "Invalid parameters" }, []⟩ :=
  ⟨Or.inl (le_refl 0),
   (ingest_track_rejects_invalid sampleLib (some sampleClient) (some []) 0 zeroResult
      sampleCurlOk (Or.inl (le_refl 0))).1⟩

/-- Claim C27 (batch truncation).  For every initialised client and every batch
of count >= 1 track updates, `swim_client_ingest_track` serializes exactly
min(count, 1000) entries, namely the first min(count, 1000) entries of the
batch in input order, and then calls `swim_http_post` exactly once, with the
endpoint suffix /ingest/track and the serialized body of those entries; with a
curl handle that call performs exactly one request, to the base URL followed by
/ingest/track.  Entries beyond the 1000th are dropped without an error: the
status returned is the status of that one call. -/
theorem ingest_track_truncates (lib : CLib) (c : SwimClient) (ts : List SwimTrackUpdate)
    (count : Int) (r : SwimIngestResult) (curl : CurlOutcome)
    (hi : c.initialized = true) (hc : 1 ≤ count) (hlen : count ≤ ts.length) :
    ∃ body reqs,
      (swim_client_ingest_track lib (some c) (some ts) count (some r) curl).events =
        (ts.take (min count.toNat 1000)).map ClientEvent.serialize_track ++
          [ClientEvent.http_post "/ingest/track" body reqs] ∧
      (ts.take (min count.toNat 1000)).length = min count.toNat 1000 ∧
      body = "\x7b\"tracks\":[" ++
        ",".intercalate ((ts.take (min count.toNat 1000)).map (trackObject lib)) ++ "]\x7d" ∧
      (c.http.curl = true → ∃ q, reqs = [q] ∧ q.json_body = body ∧
        q.url = ((if c.http.config.base_url ≠ "" then c.http.config.base_url
          else SWIM_DEFAULT_BASE_URL) ++ "/ingest/track").take 511) ∧
      (swim_client_ingest_track lib (some c) (some ts) count (some r) curl).status =
        (swim_http_post (some c.http) (some "/ingest/track") (some body) (some r) curl).status ∧
      reqs =
        (swim_http_post (some c.http) (some "/ingest/track") (some body) (some r) curl).requests
      := by
  have hb : batchSize count 1000 = min count.toNat 1000 := by
    unfold batchSize
    split_ifs with h
    · have : (1000 : Nat) ≤ count.toNat := by omega
      simp [this]
    · have : count.toNat ≤ 1000 := by omega
      simp [this]
  have hl : (ts.take (min count.toNat 1000)).length = min count.toNat 1000 := by
    rw [List.length_take]
    omega
  have hne : ts.take (min count.toNat 1000) ≠ [] := by
    intro h
    rw [h] at hl
    simp at hl
    omega
  rw [swim_client_ingest_track_eq lib c ts count r curl hi hc, hb,
    trackBatchBody_eq lib _ _ hne]
  refine ⟨_, _, rfl, hl, rfl, ?_, rfl, rfl⟩
  intro hcurl
  exact swim_http_post_requests c.http "/ingest/track" _ r curl hcurl

/-- A batch of 1200 entries: exactly 1000 are serialized, followed by one call
of `swim_http_post`, and the status is SWIM_OK when the transfer is answered
200. -/
theorem ingest_track_truncates_witness :
    sampleClient.initialized = true ∧ (1 : Int) ≤ 1200 ∧
    (1200 : Int) ≤ (List.replicate 1200 sampleTrack).length ∧
    ∃ body reqs,
      (swim_client_ingest_track sampleLib (some sampleClient)
          (some (List.replicate 1200 sampleTrack)) 1200 (some zeroResult) sampleCurlOk).events =
        List.replicate 1000 (ClientEvent.serialize_track sampleTrack) ++
          [ClientEvent.http_post "/ingest/track" body reqs] ∧
      (swim_client_ingest_track sampleLib (some sampleClient)
          (some (List.replicate 1200 sampleTrack)) 1200 (some zeroResult) sampleCurlOk).status =
        SWIM_OK := by
  have hl : (1200 : Int) ≤ (List.replicate 1200 sampleTrack).length := by
    rw [List.length_replicate]
    decide
  have hm : min (min (1200 : Int).toNat 1000) 1200 = 1000 := by decide
  obtain ⟨body, reqs, he, -, -, -, hs, -⟩ :=
    ingest_track_truncates sampleLib sampleClient (List.replicate 1200 sampleTrack) 1200
      zeroResult sampleCurlOk rfl (by decide) hl
  refine ⟨rfl, by decide, hl, body, reqs, ?_, ?_⟩
  · rw [he, List.take_replicate, hm, List.map_replicate]
  · rw [hs]
    simp [swim_http_post, sampleClient, sampleCurlOk, CURLE_OK]

/-- Claim C28 (ADL ingest).  For every initialised client,
`swim_client_ingest_adl` rejects count <= 0 with SWIM_ERROR_INVALID_DATA
without serializing a flight or calling `swim_http_post`; for count >= 1 it
serializes exactly the first min(count, 500) flights in input order into an
object whose single field is the array `flights`, and calls `swim_http_post`
exactly once, with the endpoint suffix /ingest/adl and that body; with a curl
handle that call performs exactly one request, to the base URL followed by
/ingest/adl. -/
theorem ingest_adl_discipline (lib : CLib) (c : SwimClient) (fs : List SwimFlightIngest)
    (count : Int) (r : SwimIngestResult) (curl : CurlOutcome)
    (hi : c.initialized = true) (hlen : count ≤ fs.length) :
    (count ≤ 0 →
      swim_client_ingest_adl lib (some c) (some fs) count (some r) curl =
        ⟨SWIM_ERROR_INVALID_DATA,
         some { r with status := SWIM_ERROR_INVALID_DATA, error_message := "Invalid parameters" },
         []⟩) ∧
    (1 ≤ count →
      ∃ body reqs,
        (swim_client_ingest_adl lib (some c) (some fs) count (some r) curl).events =
          (fs.take (min count.toNat 500)).map ClientEvent.serialize_flight ++
            [ClientEvent.http_post "/ingest/adl" body reqs] ∧
        (fs.take (min count.toNat 500)).length = min count.toNat 500 ∧
        body = "\x7b\"flights\":[" ++
          ",".intercalate ((fs.take (min count.toNat 500)).map (flightObject lib)) ++ "]\x7d" ∧
        (c.http.curl = true → ∃ q, reqs = [q] ∧ q.json_body = body ∧
          q.url = ((if c.http.config.base_url ≠ "" then c.http.config.base_url
            else SWIM_DEFAULT_BASE_URL) ++ "/ingest/adl").take 511) ∧
        (swim_client_ingest_adl lib (some c) (some fs) count (some r) curl).status =
          (swim_http_post (some c.http) (some "/ingest/adl") (some body) (some r) curl).status ∧
        reqs =
          (swim_http_post (some c.http) (some "/ingest/adl") (some body) (some r) curl).requests)
      := by
  constructor
  · intro h0
    simp [swim_client_ingest_adl, h0]
  · intro hc
    have hb : batchSize count 500 = min count.toNat 500 := by
      unfold batchSize
      split_ifs with h
      · have : (500 : Nat) ≤ count.toNat := by omega
        simp [this]
      · have : count.toNat ≤ 500 := by omega
        simp [this]
    have hl : (fs.take (min count.toNat 500)).length = min count.toNat 500 := by
      rw [List.length_take]
      omega
    have hne : fs.take (min count.toNat 500) ≠ [] := by
      intro h
      rw [h] at hl
      simp at hl
      omega
    rw [swim_client_ingest_adl_eq lib c fs count r curl hi hc, hb,
      flightBatchBody_eq lib _ _ hne]
    refine ⟨_, _, rfl, hl, rfl, ?_, rfl, rfl⟩
    intro hcurl
    exact swim_http_post_requests c.http "/ingest/adl" _ r curl hcurl

/-- A batch of 600 flights: exactly 500 are serialized into the array `flights`,
followed by one call of `swim_http_post`. -/
theorem ingest_adl_discipline_witness :
    sampleClient.initialized = true ∧
    (600 : Int) ≤ (List.replicate 600 sampleFlight).length ∧
    ∃ body reqs,
      (swim_client_ingest_adl sampleLib (some sampleClient)
          (some (List.replicate 600 sampleFlight)) 600 (some zeroResult) sampleCurlOk).events =
        List.replicate 500 (ClientEvent.serialize_flight sampleFlight) ++
          [ClientEvent.http_post "/ingest/adl" body reqs] ∧
      body = "\x7b\"flights\":[" ++
        ",".intercalate (List.replicate 500 (flightObject sampleLib sampleFlight)) ++ "]\x7d" := by
  have hl : (600 : Int) ≤ (List.replicate 600 sampleFlight).length := by
    rw [List.length_replicate]
    decide
  have hm : min (min (600 : Int).toNat 500) 600 = 500 := by decide
  obtain ⟨body, reqs, he, -, hb, -, -, -⟩ :=
    (ingest_adl_discipline sampleLib sampleClient (List.replicate 600 sampleFlight) 600
      zeroResult sampleCurlOk rfl hl).2 (by decide)
  refine ⟨rfl, hl, body, reqs, ?_, ?_⟩
  · rw [he, List.take_replicate, hm, List.map_replicate]
  · rw [hb, List.take_replicate, hm, List.map_replicate]

/-! ## The HTTP transport: properties -/

/-- Claim C29 (transport outcome mapping).  On a client with a curl handle, for
every completed request whose HTTP status code c fits an `int`,
`swim_http_post` sets result.http_code = c and returns, and stores in
result.status, SWIM_OK iff c is 200 or 201, SWIM_ERROR_AUTH iff c is 401 or
403, SWIM_ERROR_RATE_LIMIT iff c is 429, SWIM_ERROR_SERVER iff c >= 500, and
SWIM_ERROR_INVALID_DATA for every other code; when the request does not
complete it returns SWIM_ERROR_TIMEOUT for a timeout and SWIM_ERROR_NETWORK for
any other failure, with http_code left 0. -/
theorem http_post_outcome_mapping (c : SwimHttpClient) (endpoint json_body : String)
    (r : SwimIngestResult) (curl : CurlOutcome) (hc : c.curl = true) :
    (curl.res = CURLE_OK → -2147483648 ≤ curl.response_code →
      curl.response_code ≤ 2147483647 →
      ∃ r', (swim_http_post (some c) (some endpoint) (some json_body) (some r) curl).result
          = some r' ∧
        r'.http_code = curl.response_code ∧
        r'.status =
          (swim_http_post (some c) (some endpoint) (some json_body) (some r) curl).status ∧
        (r'.status = SWIM_OK ↔ (curl.response_code = 200 ∨ curl.response_code = 201)) ∧
        (r'.status = SWIM_ERROR_AUTH ↔
          (curl.response_code = 401 ∨ curl.response_code = 403)) ∧
        (r'.status = SWIM_ERROR_RATE_LIMIT ↔ curl.response_code = 429) ∧
        (r'.status = SWIM_ERROR_SERVER ↔ curl.response_code ≥ 500) ∧
        (r'.status = SWIM_ERROR_INVALID_DATA ↔
          ¬ (curl.response_code = 200 ∨ curl.response_code = 201 ∨
             curl.response_code = 401 ∨ curl.response_code = 403 ∨
             curl.response_code = 429 ∨ curl.response_code ≥ 500))) ∧
    (curl.res ≠ CURLE_OK →
      ∃ r', (swim_http_post (some c) (some endpoint) (some json_body) (some r) curl).result
          = some r' ∧
        r'.http_code = 0 ∧
        r'.status =
          (swim_http_post (some c) (some endpoint) (some json_body) (some r) curl).status ∧
        (curl.res = CURLE_OPERATION_TIMEDOUT → r'.status = SWIM_ERROR_TIMEOUT) ∧
        (curl.res ≠ CURLE_OPERATION_TIMEDOUT → r'.status = SWIM_ERROR_NETWORK)) := by
  constructor
  · intro hres hlo hhi
    have hw : wrapInt32 curl.response_code = curl.response_code :=
      wrapInt32_of_range _ hlo hhi
    have hres' : ¬ curl.res ≠ CURLE_OK := by simp [hres]
    by_cases h1 : curl.response_code = 200 ∨ curl.response_code = 201
    · simp only [swim_http_post, hc, Bool.not_true, Bool.false_eq_true, if_false, hres',
        h1, if_true]
      refine ⟨_, rfl, ?_⟩
      simp [zeroResult, hw, h1]
      omega
    · by_cases h2 : curl.response_code = 401 ∨ curl.response_code = 403
      · simp only [swim_http_post, hc, Bool.not_true, Bool.false_eq_true, if_false, hres',
          h1, h2, if_true]
        refine ⟨_, rfl, ?_⟩
        simp [zeroResult, hw, h1, h2]
        omega
      · by_cases h3 : curl.response_code = 429
        · simp only [swim_http_post, hc, Bool.not_true, Bool.false_eq_true, if_false, hres',
            h1, h2, h3, if_true]
          refine ⟨_, rfl, ?_⟩
          simp [zeroResult, wrapInt32]
        · by_cases h4 : curl.response_code ≥ 500
          · simp only [swim_http_post, hc, Bool.not_true, Bool.false_eq_true, if_false, hres',
              h1, h2, h3, h4, if_true]
            refine ⟨_, rfl, ?_⟩
            simp [zeroResult, hw, h1, h2, h3, h4]
          · simp only [swim_http_post, hc, Bool.not_true, Bool.false_eq_true, if_false, hres',
              h1, h2, h3, h4, if_true]
            refine ⟨_, rfl, ?_⟩
            simp [zeroResult, hw, h1, h2, h3, h4]
  · intro hres
    simp only [swim_http_post, hc, Bool.not_true, Bool.false_eq_true, if_false]
    rw [if_pos hres]
    refine ⟨_, rfl, ?_⟩
    refine ⟨rfl, rfl, ?_, ?_⟩
    · intro h; exact if_pos h
    · intro h; exact if_neg h

/-- A transfer answered 202 gives SWIM_ERROR_INVALID_DATA with http_code 202; a
transfer that timed out gives SWIM_ERROR_TIMEOUT with http_code 0. -/
theorem http_post_outcome_mapping_witness :
    sampleClient.http.curl = true ∧
    (∃ r', (swim_http_post (some sampleClient.http) (some "/ingest/track")
          (some "\x7b\"tracks\":[]\x7d") (some zeroResult) sampleCurlAccepted).result = some r' ∧
      r'.http_code = 202 ∧ r'.status = SWIM_ERROR_INVALID_DATA) ∧
    (∃ r', (swim_http_post (some sampleClient.http) (some "/ingest/track")
          (some "\x7b\"tracks\":[]\x7d") (some zeroResult) sampleCurlTimeout).result = some r' ∧
      r'.http_code = 0 ∧ r'.status = SWIM_ERROR_TIMEOUT) := by
  obtain ⟨r1, h1, hcode, -, -, -, -, -, hinv⟩ :=
    (http_post_outcome_mapping sampleClient.http "/ingest/track" "\x7b\"tracks\":[]\x7d"
      zeroResult sampleCurlAccepted rfl).1 rfl (by decide) (by decide)
  obtain ⟨r2, h2, hzero, -, hto, -⟩ :=
    (http_post_outcome_mapping sampleClient.http "/ingest/track" "\x7b\"tracks\":[]\x7d"
      zeroResult sampleCurlTimeout rfl).2 (by decide)
  exact ⟨rfl, ⟨r1, h1, hcode, hinv.mpr (by decide)⟩, ⟨r2, h2, hzero, hto rfl⟩⟩

/-! ## The wire body: properties -/

/-- Claim C30 (wire body shape).  For every initialised client and every batch
of n tracks with 1 <= n <= 1000, the request body `swim_client_ingest_track`
builds and hands to `swim_http_post` is exactly the text \x7b"tracks":[ followed
by the n objects `swim_json_track` writes for the entries, in input order and
separated by exactly one comma each, followed by ]\x7d; each of those objects is
an opening brace, its fields and a closing brace, so there is no leading or
trailing comma and braces and brackets are balanced. -/
theorem ingest_track_body_shape (lib : CLib) (c : SwimClient) (ts : List SwimTrackUpdate)
    (r : SwimIngestResult) (curl : CurlOutcome)
    (hi : c.initialized = true) (h1 : 1 ≤ ts.length) (h2 : ts.length ≤ 1000) :
    (∃ reqs,
      (swim_client_ingest_track lib (some c) (some ts) ts.length (some r) curl).events =
        ts.map ClientEvent.serialize_track ++
          [ClientEvent.http_post "/ingest/track"
            ("\x7b\"tracks\":[" ++ ",".intercalate (ts.map (trackObject lib)) ++ "]\x7d") reqs] ∧
      (c.http.curl = true → ∃ q, reqs = [q] ∧
        q.json_body =
          "\x7b\"tracks\":[" ++ ",".intercalate (ts.map (trackObject lib)) ++ "]\x7d")) ∧
    (∀ t, trackObject lib t = swim_json_get (swim_json_track lib (swim_json_init 0).1 t) ∧
      trackObject lib t = "\x7b" ++ (",".intercalate (trackFields lib t) ++ "\x7d") ∧
      trackFields lib t ≠ []) := by
  have hc : (1 : Int) ≤ (ts.length : Int) := by omega
  have ht : ts.take (batchSize (ts.length : Int) 1000) = ts := by
    unfold batchSize
    rw [if_neg (by omega), Int.toNat_ofNat, List.take_of_length_le (le_refl _)]
  have hne : ts ≠ [] := by
    intro h
    rw [h] at h1
    simp at h1
  constructor
  · rw [swim_client_ingest_track_eq lib c ts _ r curl hi hc, ht, trackBatchBody_eq lib _ _ hne]
    refine ⟨_, rfl, ?_⟩
    intro hcurl
    obtain ⟨q, hq, hb, _⟩ := swim_http_post_requests c.http "/ingest/track"
      ("\x7b\"tracks\":[" ++ ",".intercalate (ts.map (trackObject lib)) ++ "]\x7d") r curl hcurl
    exact ⟨q, hq, hb⟩
  · intro t
    exact ⟨rfl, trackObject_eq lib t, trackFields_ne_nil lib t⟩

/-- A batch of two entries: the body is the two objects separated by one comma
between the opening and closing texts. -/
theorem ingest_track_body_shape_witness :
    sampleClient.initialized = true ∧ 1 ≤ [sampleTrack, sampleTrack].length ∧
    [sampleTrack, sampleTrack].length ≤ 1000 ∧
    ∃ reqs,
      (swim_client_ingest_track sampleLib (some sampleClient) (some [sampleTrack, sampleTrack])
          2 (some zeroResult) sampleCurlOk).events =
        [ClientEvent.serialize_track sampleTrack, ClientEvent.serialize_track sampleTrack,
         ClientEvent.http_post "/ingest/track"
           ("\x7b\"tracks\":[" ++ (trackObject sampleLib sampleTrack ++ "," ++
              trackObject sampleLib sampleTrack) ++ "]\x7d") reqs] := by
  obtain ⟨⟨reqs, he, -⟩, -⟩ :=
    ingest_track_body_shape sampleLib sampleClient [sampleTrack, sampleTrack] zeroResult
      sampleCurlOk rfl (by decide) (by decide)
  exact ⟨rfl, by decide, by decide, reqs, he⟩

/-! ## Auxiliary facts about floating-point comparisons -/

/-- A value at or above a bound is not below a smaller or equal bound. -/
theorem CFloat.lt_eq_false_of_ge (x : CFloat) (a b : ℚ) (hab : a ≤ b)
    (h : x.ge (.finite b) = true) : x.lt (.finite a) = false := by
  cases x <;> simp_all [CFloat.lt, CFloat.ge, CFloat.le]
  linarith

/-- A value below a bound is not at or above a larger or equal bound. -/
theorem CFloat.ge_eq_false_of_lt (x : CFloat) (a b : ℚ) (hab : a ≤ b)
    (h : x.lt (.finite a) = true) : x.ge (.finite b) = false := by
  cases x <;> simp_all [CFloat.lt, CFloat.ge, CFloat.le]
  linarith

/-- A value below a bound is below every larger bound. -/
theorem CFloat.lt_of_lt_of_le (x : CFloat) (a b : ℚ) (hab : a ≤ b)
    (h : x.lt (.finite a) = true) : x.lt (.finite b) = true := by
  cases x <;> simp_all [CFloat.lt]
  linarith

/-- A value that is not a NaN is below a bound or at or above it. -/
theorem CFloat.lt_or_ge (x : CFloat) (a : ℚ) (hx : x ≠ .nan) :
    x.lt (.finite a) = true ∨ x.ge (.finite a) = true := by
  cases x <;> simp_all [CFloat.lt, CFloat.ge, CFloat.le]
  exact lt_or_le _ _

/-- A value at or below a bound is not above it. -/
theorem CFloat.gt_eq_false_of_le (x : CFloat) (a : ℚ)
    (h : x.le (.finite a) = true) : x.gt (.finite a) = false := by
  cases x <;> simp_all [CFloat.lt, CFloat.gt, CFloat.le]

/-- A value below some bound and not at or above another is below the latter. -/
theorem CFloat.lt_of_ge_eq_false (x : CFloat) (a b : ℚ) (h : x.ge (.finite a) = false)
    (hb : x.lt (.finite b) = true) : x.lt (.finite a) = true := by
  have hx : x ≠ .nan := by
    intro e
    rw [e] at hb
    simp [CFloat.lt] at hb
  rcases CFloat.lt_or_ge x a hx with h1 | h1
  · exact h1
  · rw [h1] at h
    cases h

/-! ## Auxiliary facts about keys -/

/-- The text of a key has at least three characters. -/
theorem jsonKeyText_length (k : String) : 3 ≤ (jsonKeyText (some k)).data.length := by
  simp [jsonKeyText, String.data_append]

/-- The keys of `swim_json_track` differ within the first three characters of
their texts. -/
theorem trackKeyNames_distinct :
    ∀ k ∈ trackKeyNames, ∀ k' ∈ trackKeyNames,
      (jsonKeyText (some k)).data.take 3 = (jsonKeyText (some k')).data.take 3 → k = k' := by
  decide

/-- A field carries at most one of the keys of `swim_json_track`. -/
theorem fieldHasKey_unique (k k' f : String) (hk : k ∈ trackKeyNames)
    (hk' : k' ∈ trackKeyNames) (h : fieldHasKey k f) (h' : fieldHasKey k' f) : k = k' := by
  obtain ⟨r, e⟩ := h
  obtain ⟨r', e'⟩ := h'
  apply trackKeyNames_distinct k hk k' hk'
  have h1 := congrArg (List.take 3) e
  have h2 := congrArg (List.take 3) e'
  rw [List.take_append_of_le_length (jsonKeyText_length k)] at h1
  rw [List.take_append_of_le_length (jsonKeyText_length k')] at h2
  rw [h1, h2]

/-- The field `swim_json_string` writes carries its key. -/
theorem fieldHasKey_string (k : String) (v : Option String) :
    fieldHasKey k (jsonStringText (some k) v) := by
  unfold fieldHasKey jsonStringText
  rw [String.data_append]
  exact List.prefix_append _ _

/-- The field `swim_json_double` writes carries its key. -/
theorem fieldHasKey_double (lib : CLib) (k : String) (v : CFloat) (p : Int) :
    fieldHasKey k (jsonDoubleText lib (some k) v p) := by
  unfold fieldHasKey jsonDoubleText
  rw [String.data_append]
  exact List.prefix_append _ _

/-- A text cut to 63 characters still starts with a key text of at most 63
characters. -/
theorem fieldHasKey_take (k rest : String) (h : (jsonKeyText (some k)).data.length ≤ 63) :
    fieldHasKey k (("\"" ++ k ++ "\":" ++ rest).take 63) := by
  unfold fieldHasKey
  have e : ("\"" ++ k ++ "\":" ++ rest).data = (jsonKeyText (some k)).data ++ rest.data := by
    simp [jsonKeyText, String.data_append, List.append_assoc]
  rw [String.data_take, e, List.take_append_eq_append_take, List.take_of_length_le h]
  exact List.prefix_append _ _

/-- The field `swim_json_int` writes carries its key. -/
theorem fieldHasKey_int (k : String) (v : Int)
    (h : (jsonKeyText (some k)).data.length ≤ 63) :
    fieldHasKey k (jsonIntText (some k) v) :=
  fieldHasKey_take k (toString v) h

/-- The field `swim_json_null` writes carries its key. -/
theorem fieldHasKey_null (k : String) (h : (jsonKeyText (some k)).data.length ≤ 63) :
    fieldHasKey k (jsonNullText (some k)) := by
  have hl : ("\":null" : String) = "\":" ++ "null" := by decide
  have e : jsonNullText (some k) = ("\"" ++ k ++ "\":" ++ "null").take 63 := by
    unfold jsonNullText
    rw [String.append_assoc ("\"" ++ k), ← hl]
  rw [e]
  exact fieldHasKey_take k "null" h

/-- The field `swim_json_timestamp` writes carries its key. -/
theorem fieldHasKey_timestamp (lib : CLib) (k : String) (ts : Int)
    (h : (jsonKeyText (some k)).data.length ≤ 63) :
    fieldHasKey k (jsonTimestampText lib (some k) ts) := by
  unfold jsonTimestampText
  split_ifs
  · exact fieldHasKey_null k h
  · cases lib.gmtime_strftime ts with
    | none => exact fieldHasKey_null k h
    | some buf => exact fieldHasKey_string k (some buf)

/-- A field written under a condition carries its key. -/
theorem fieldHasKey_ite_related (c : Prop) [Decidable c] (k f : String)
    (h : fieldHasKey k f) :
    List.Forall₂ fieldHasKey (if c then [k] else []) (if c then [f] else []) := by
  split_ifs
  · exact List.Forall₂.cons h List.Forall₂.nil
  · exact List.Forall₂.nil

/-- The fields `swim_json_track` writes carry, in order, the keys `trackKeys`. -/
theorem trackFields_keys (lib : CLib) (t : SwimTrackUpdate) :
    List.Forall₂ fieldHasKey (trackKeys t) (trackFields lib t) := by
  unfold trackKeys trackFields
  refine List.rel_append (List.rel_append (List.rel_append (List.rel_append (List.rel_append
    (List.rel_append ?_ ?_) ?_) ?_) ?_) ?_) ?_
  · exact List.Forall₂.cons (fieldHasKey_string _ _)
      (List.Forall₂.cons (fieldHasKey_double _ _ _ _)
        (List.Forall₂.cons (fieldHasKey_double _ _ _ _) List.Forall₂.nil))
  · exact fieldHasKey_ite_related _ _ _ (fieldHasKey_int _ _ (by decide))
  · exact fieldHasKey_ite_related _ _ _ (fieldHasKey_int _ _ (by decide))
  · exact fieldHasKey_ite_related _ _ _ (fieldHasKey_int _ _ (by decide))
  · exact fieldHasKey_ite_related _ _ _ (fieldHasKey_int _ _ (by decide))
  · exact fieldHasKey_ite_related _ _ _ (fieldHasKey_string _ _)
  · exact fieldHasKey_ite_related _ _ _ (fieldHasKey_timestamp _ _ _ (by decide))

/-- The keys of the fields written are among the keys of `swim_json_track`. -/
theorem trackKeys_subset (t : SwimTrackUpdate) : ∀ k ∈ trackKeys t, k ∈ trackKeyNames := by
  intro k hk
  unfold trackKeys at hk
  simp only [List.mem_append] at hk
  rcases hk with ((((((hk | hk) | hk) | hk) | hk) | hk) | hk)
  · revert k
    decide
  all_goals
    split_ifs at hk
    · rw [List.mem_singleton.mp hk]
      decide
    · cases hk

/-- Related lists: every element of the first has a related element in the
second. -/
theorem related_exists_right {α β : Type} {R : α → β → Prop} {l₁ : List α} {l₂ : List β}
    (h : List.Forall₂ R l₁ l₂) : ∀ a ∈ l₁, ∃ b ∈ l₂, R a b := by
  induction h with
  | nil => intro a ha; cases ha
  | cons hab _ ih =>
    intro a ha
    rcases List.mem_cons.mp ha with e | hm
    · rw [e]
      exact ⟨_, List.mem_cons_self _ _, hab⟩
    · obtain ⟨b, hb, hr⟩ := ih a hm
      exact ⟨b, List.mem_cons_of_mem _ hb, hr⟩

/-- Related lists: every element of the second has a related element in the
first. -/
theorem related_exists_left {α β : Type} {R : α → β → Prop} {l₁ : List α} {l₂ : List β}
    (h : List.Forall₂ R l₁ l₂) : ∀ b ∈ l₂, ∃ a ∈ l₁, R a b := by
  induction h with
  | nil => intro b hb; cases hb
  | cons hab _ ih =>
    intro b hb
    rcases List.mem_cons.mp hb with e | hm
    · rw [e]
      exact ⟨_, List.mem_cons_self _ _, hab⟩
    · obtain ⟨a, ha, hr⟩ := ih b hm
      exact ⟨a, List.mem_cons_of_mem _ ha, hr⟩

/-- Membership in a list of one element kept under a condition. -/
theorem mem_ite_singleton {α : Type} (c : Prop) [Decidable c] (a k : α) :
    k ∈ (if c then [a] else []) ↔ c ∧ k = a := by
  split_ifs with h <;> simp [h]

/-- One of the keys of `swim_json_track` is present in the object written for a
track exactly when it is one of `trackKeys`. -/
theorem objectHasKey_track_iff (lib : CLib) (t : SwimTrackUpdate) (k : String)
    (hk : k ∈ trackKeyNames) :
    objectHasKey k (trackFields lib t) ↔ k ∈ trackKeys t := by
  have hall := trackFields_keys lib t
  constructor
  · rintro ⟨f, hf, hkf⟩
    obtain ⟨k', hk', hkf'⟩ := related_exists_left hall f hf
    rw [fieldHasKey_unique k k' f hk (trackKeys_subset t k' hk') hkf hkf']
    exact hk'
  · intro hm
    exact related_exists_right hall k hm

/-! ## The JSON serializer: sparse encoding of a track -/

/-- Claim C31, refuted as stated: the object written for a track update with an
empty callsign and latitude and longitude 0 has the keys callsign, latitude and
longitude. -/
theorem track_always_fields_counterexample :
    zeroTrack.callsign = "" ∧ zeroTrack.position.latitude = .finite 0 ∧
    zeroTrack.position.longitude = .finite 0 ∧
    swim_json_get (swim_json_track zeroLib (swim_json_init 0).1 zeroTrack) =
      "\x7b\"callsign\":\"\",\"latitude\":0.000000,\"longitude\":0.000000\x7d" := by
  refine ⟨rfl, rfl, rfl, ?_⟩
  have h := trackObject_eq zeroLib zeroTrack
  unfold trackObject at h
  rw [h]
  decide

/-- Claim C31, amended (sparse encoding of a track element).  The object
`swim_json_track` writes for a track update is an opening brace, the field texts
joined by commas and a closing brace; the keys callsign, latitude and longitude
are always present, whatever their values; each of the keys altitude_ft,
ground_speed_kts, heading_deg and vertical_rate_fpm is present if and only if
the field's value is not zero, squawk if and only if the squawk is not empty,
and timestamp if and only if the timestamp is not zero. -/
theorem track_sparse_encoding (lib : CLib) (t : SwimTrackUpdate) :
    swim_json_get (swim_json_track lib (swim_json_init 0).1 t) =
      "\x7b" ++ (",".intercalate (trackFields lib t) ++ "\x7d") ∧
    objectHasKey "callsign" (trackFields lib t) ∧
    objectHasKey "latitude" (trackFields lib t) ∧
    objectHasKey "longitude" (trackFields lib t) ∧
    (objectHasKey "altitude_ft" (trackFields lib t) ↔ t.position.altitude_ft ≠ 0) ∧
    (objectHasKey "ground_speed_kts" (trackFields lib t) ↔ t.position.groundspeed_kts ≠ 0) ∧
    (objectHasKey "heading_deg" (trackFields lib t) ↔ t.position.heading_deg ≠ 0) ∧
    (objectHasKey "vertical_rate_fpm" (trackFields lib t) ↔ t.position.vertical_rate ≠ 0) ∧
    (objectHasKey "squawk" (trackFields lib t) ↔ t.squawk ≠ "") ∧
    (objectHasKey "timestamp" (trackFields lib t) ↔ t.timestamp ≠ 0) := by
  have hobj := trackObject_eq lib t
  unfold trackObject at hobj
  refine ⟨hobj, ?_, ?_, ?_, ?_, ?_, ?_, ?_, ?_, ?_⟩
  · exact (objectHasKey_track_iff lib t _ (by decide)).mpr (by simp [trackKeys])
  · exact (objectHasKey_track_iff lib t _ (by decide)).mpr (by simp [trackKeys])
  · exact (objectHasKey_track_iff lib t _ (by decide)).mpr (by simp [trackKeys])
  all_goals
    rw [objectHasKey_track_iff lib t _ (by decide)]
    unfold trackKeys
    simp only [List.mem_append, mem_ite_singleton, List.mem_cons, List.not_mem_nil]
    simp

/-! ## The phase estimator: properties -/

/-- Claim C32 (phase priority).  For every sample and distance,
`swim_detect_phase` returns Arrived whenever the detector has in_detected set,
and TaxiIn whenever the detector has on_detected set and in_detected not set,
regardless of ground contact, speed, AGL, vertical rate and distance. -/
theorem detect_phase_priority (d : SwimOOOIDetector) (gs agl vs dist : CFloat) (og : Bool) :
    (d.in_detected = true →
      swim_detect_phase (some d) gs og agl vs dist = SWIM_PHASE_ARRIVED) ∧
    (d.on_detected = true → d.in_detected = false →
      swim_detect_phase (some d) gs og agl vs dist = SWIM_PHASE_TAXI_IN) := by
  constructor
  · intro h
    simp [swim_detect_phase, h]
  · intro h1 h2
    simp [swim_detect_phase, h1, h2]

/-- Claim C33 (ground phases).  For every detector with neither IN nor ON
detected and every sample with on_ground true, `swim_detect_phase` returns: for
gs < 5, TaxiOut if OUT is detected, else Preflight; for gs >= 60, Landing if OFF
is detected, else Takeoff; for 5 <= gs < 60, TaxiOut if OUT is detected, else
Pushback.  AGL, vertical rate and distance do not affect the result. -/
theorem detect_phase_ground (d : SwimOOOIDetector) (gs agl vs dist : CFloat)
    (hin : d.in_detected = false) (hon : d.on_detected = false) :
    (gs.lt (.finite 5) = true →
      swim_detect_phase (some d) gs true agl vs dist =
        if d.out_detected = true then SWIM_PHASE_TAXI_OUT else SWIM_PHASE_PREFLIGHT) ∧
    (gs.ge (.finite 60) = true →
      swim_detect_phase (some d) gs true agl vs dist =
        if d.off_detected = true then SWIM_PHASE_LANDING else SWIM_PHASE_TAKEOFF) ∧
    (gs.ge (.finite 5) = true → gs.lt (.finite 60) = true →
      swim_detect_phase (some d) gs true agl vs dist =
        if d.out_detected = true then SWIM_PHASE_TAXI_OUT else SWIM_PHASE_PUSHBACK) := by
  refine ⟨?_, ?_, ?_⟩
  · intro h
    simp [swim_detect_phase, hin, hon, h]
  · intro h
    have h5 : gs.lt (.finite 5) = false := CFloat.lt_eq_false_of_ge gs 5 60 (by norm_num) h
    simp [swim_detect_phase, hin, hon, h, h5]
  · intro h1 h2
    have h5 : gs.lt (.finite 5) = false := CFloat.lt_eq_false_of_ge gs 5 5 le_rfl h1
    have h60 : gs.ge (.finite 60) = false := CFloat.ge_eq_false_of_lt gs 60 60 le_rfl h2
    simp [swim_detect_phase, hin, hon, h5, h60]

/-- Detector with OUT and OFF detected at 80 kt on the ground: Landing; the same
detector at 2 kt and at 20 kt: TaxiOut. -/
theorem detect_phase_ground_witness :
    (SwimOOOIDetector.mk SWIM_ZONE_AIRBORNE SWIM_ZONE_RUNWAY ⟨100, 200, 0, 0⟩ true true false
        false 300).in_detected = false ∧
    (SwimOOOIDetector.mk SWIM_ZONE_AIRBORNE SWIM_ZONE_RUNWAY ⟨100, 200, 0, 0⟩ true true false
        false 300).on_detected = false ∧
    swim_detect_phase
        (some (SwimOOOIDetector.mk SWIM_ZONE_AIRBORNE SWIM_ZONE_RUNWAY ⟨100, 200, 0, 0⟩ true true
          false false 300))
        (.finite 80) true (.finite 0) (.finite 0) (.finite 500) = SWIM_PHASE_LANDING ∧
    swim_detect_phase
        (some (SwimOOOIDetector.mk SWIM_ZONE_AIRBORNE SWIM_ZONE_RUNWAY ⟨100, 200, 0, 0⟩ true true
          false false 300))
        (.finite 2) true (.finite 0) (.finite 0) (.finite 500) = SWIM_PHASE_TAXI_OUT ∧
    swim_detect_phase
        (some (SwimOOOIDetector.mk SWIM_ZONE_AIRBORNE SWIM_ZONE_RUNWAY ⟨100, 200, 0, 0⟩ true true
          false false 300))
        (.finite 20) true (.finite 0) (.finite 0) (.finite 500) = SWIM_PHASE_TAXI_OUT :=
  ⟨rfl, rfl,
   (detect_phase_ground _ (.finite 80) (.finite 0) (.finite 0) (.finite 500) rfl rfl).2.1
     (by decide),
   (detect_phase_ground _ (.finite 2) (.finite 0) (.finite 0) (.finite 500) rfl rfl).1
     (by decide),
   (detect_phase_ground _ (.finite 20) (.finite 0) (.finite 0) (.finite 500) rfl rfl).2.2
     (by decide) (by decide)⟩

/-- Claim C34 (airborne phases).  For every detector with neither IN nor ON
detected and every sample with on_ground false, `swim_detect_phase` returns
Departure if AGL < 3000 and vertical rate > 300; otherwise Approach if
AGL < 3000 and vertical rate < -300; otherwise Descent if vertical rate < -300
or distance to destination < 100; otherwise Enroute.  The boundaries are strict:
AGL exactly 3000, vertical rate exactly 300 or -300 and distance exactly 100 do
not satisfy their conditions. -/
theorem detect_phase_airborne (d : SwimOOOIDetector) (gs agl vs dist : CFloat)
    (hin : d.in_detected = false) (hon : d.on_detected = false) :
    swim_detect_phase (some d) gs false agl vs dist =
      (if agl.lt (.finite 3000) = true ∧ vs.gt (.finite 300) = true then SWIM_PHASE_DEPARTURE
       else if agl.lt (.finite 3000) = true ∧ vs.lt (.finite (-300)) = true then
         SWIM_PHASE_APPROACH
       else if vs.lt (.finite (-300)) = true ∨ dist.lt (.finite 100) = true then
         SWIM_PHASE_DESCENT
       else SWIM_PHASE_ENROUTE) ∧
    swim_detect_phase (some d) gs false (.finite 3000) (.finite 1000) (.finite 500) =
      SWIM_PHASE_ENROUTE ∧
    swim_detect_phase (some d) gs false (.finite 3000) (.finite (-1000)) (.finite 500) =
      SWIM_PHASE_DESCENT ∧
    swim_detect_phase (some d) gs false (.finite 2000) (.finite 300) (.finite 500) =
      SWIM_PHASE_ENROUTE ∧
    swim_detect_phase (some d) gs false (.finite 2000) (.finite (-300)) (.finite 500) =
      SWIM_PHASE_ENROUTE ∧
    swim_detect_phase (some d) gs false (.finite 5000) (.finite 0) (.finite 100) =
      SWIM_PHASE_ENROUTE := by
  refine ⟨?_, ?_, ?_, ?_, ?_, ?_⟩
  · simp [swim_detect_phase, hin, hon, SWIM_OOOI_CLIMB_MIN_VS, SWIM_OOOI_DESCENT_MAX_VS]
  all_goals
    simp [swim_detect_phase, hin, hon, SWIM_OOOI_CLIMB_MIN_VS, SWIM_OOOI_DESCENT_MAX_VS,
      CFloat.lt, CFloat.gt]
    norm_num

/-- Detector with OUT and OFF detected, off the ground at 2000 ft AGL climbing
1500 fpm: Departure. -/
theorem detect_phase_airborne_witness :
    (SwimOOOIDetector.mk SWIM_ZONE_AIRBORNE SWIM_ZONE_RUNWAY ⟨100, 200, 0, 0⟩ true true false
        false 300).in_detected = false ∧
    (SwimOOOIDetector.mk SWIM_ZONE_AIRBORNE SWIM_ZONE_RUNWAY ⟨100, 200, 0, 0⟩ true true false
        false 300).on_detected = false ∧
    swim_detect_phase
        (some (SwimOOOIDetector.mk SWIM_ZONE_AIRBORNE SWIM_ZONE_RUNWAY ⟨100, 200, 0, 0⟩ true true
          false false 300))
        (.finite 180) false (.finite 2000) (.finite 1500) (.finite 500) =
      SWIM_PHASE_DEPARTURE :=
  ⟨rfl, rfl,
   (detect_phase_airborne _ (.finite 180) (.finite 2000) (.finite 1500) (.finite 500) rfl
     rfl).1.trans (by decide)⟩

/-! ## The OOOI transition detector: rules fired per call -/

/-- Claim C35, refuted as stated: there are no detector state and sample for
which one `swim_oooi_update` call sets two or more of the four flags. -/
theorem oooi_update_never_fires_two :
    ¬ ∃ (d : SwimOOOIDetector) (now : Int) (gs agl vs : CFloat) (og pb : Bool)
        (d' : SwimOOOIDetector),
      (swim_oooi_update (some d) now gs og agl vs pb).1 = some d' ∧
        2 ≤ flagsNewlySet d d' := by
  rintro ⟨d, now, gs, agl, vs, og, pb, d', h, h2⟩
  obtain ⟨d1, e1, -, hs⟩ := flagsSet_update d ⟨now, gs, og, agl, vs, pb⟩
  have e : d1 = d' := Option.some.inj (e1.symm.trans h)
  rw [e] at hs
  have hb : (updateFrame (some d) ⟨now, gs, og, agl, vs, pb⟩).2.toNat ≤ 1 := Bool.toNat_le _
  omega

/-- Claim C35, amended.  For every detector state and sample, whatever the zone
jump, a single `swim_oooi_update` call fires at most one of the four rules OUT,
OFF, ON, IN: it sets exactly one flag when it returns true and none when it
returns false.  A jump from Parking straight to Airborne fires none. -/
theorem oooi_update_fires_at_most_one (d : SwimOOOIDetector) (now : Int)
    (gs agl vs : CFloat) (og pb : Bool) :
    (∃ d', (swim_oooi_update (some d) now gs og agl vs pb).1 = some d' ∧
      flagsNewlySet d d' ≤ 1 ∧
      (flagsNewlySet d d' = 1 ↔ (swim_oooi_update (some d) now gs og agl vs pb).2 = true) ∧
      (flagsNewlySet d d' = 0 ↔ (swim_oooi_update (some d) now gs og agl vs pb).2 = false)) ∧
    (swim_oooi_update (some { zeroDetector with current_zone := SWIM_ZONE_PARKING }) now
        (.finite 150) false (.finite 500) (.finite 1500) false).2 = false := by
  constructor
  · obtain ⟨d1, e1, -, hs⟩ := flagsSet_update d ⟨now, gs, og, agl, vs, pb⟩
    refine ⟨d1, e1, ?_, ?_, ?_⟩
    · rw [hs]; exact Bool.toNat_le _
    · rw [hs]
      change (swim_oooi_update (some d) now gs og agl vs pb).2.toNat = 1 ↔ _
      cases (swim_oooi_update (some d) now gs og agl vs pb).2 <;> simp
    · rw [hs]
      change (swim_oooi_update (some d) now gs og agl vs pb).2.toNat = 0 ↔ _
      cases (swim_oooi_update (some d) now gs og agl vs pb).2 <;> simp
  · rfl

/-! ## The position throttle: a due position stays due -/

/-- Claim C36 (a due position stays due).  For every throttle state and
position, if `swim_throttle_should_send` returns true at clock value t, it also
returns true at every clock value t2 >= t for the same state and position. -/
theorem throttle_due_stays_due (throttle : Option SwimPositionThrottle)
    (pos : Option SwimPosition) (t t2 : Int) (hle : t ≤ t2)
    (hdue : swim_throttle_should_send throttle pos t = true) :
    swim_throttle_should_send throttle pos t2 = true := by
  cases throttle with
  | none => simp [swim_throttle_should_send] at hdue
  | some th =>
    cases pos with
    | none => simp [swim_throttle_should_send] at hdue
    | some p =>
      simp only [swim_throttle_should_send] at hdue ⊢
      by_cases h0 : (th.last_send_time == 0) = true
      · simp [h0]
      · simp only [h0, Bool.false_eq_true, if_false] at hdue ⊢
        by_cases hi : t - th.last_send_time < th.min_interval_sec
        · simp [hi] at hdue
        · have hi2 : ¬ t2 - th.last_send_time < th.min_interval_sec := by omega
          simp only [hi, hi2, if_false] at hdue ⊢
          by_cases ha : absInt32 (wrapInt32 (p.altitude_ft - th.last_alt)) ≥ th.min_alt_change_ft
          · simp [ha]
          · simp only [ha, if_false] at hdue ⊢
            split_ifs at hdue ⊢ with hd hh hh2 <;> first | rfl | omega

/-- Interval 5 s, altitude changed by 150 ft: due 6 s after the last send, and
still due 60 s after it. -/
theorem throttle_due_stays_due_witness :
    (1700000006 : Int) ≤ 1700000060 ∧
    swim_throttle_should_send (some sampleClient.throttle) (some samplePosition) 1700000006
      = true ∧
    swim_throttle_should_send (some sampleClient.throttle) (some samplePosition) 1700000060
      = true := by
  have hdue : swim_throttle_should_send (some sampleClient.throttle) (some samplePosition)
      1700000006 = true := by
    simp [swim_throttle_should_send, sampleClient, samplePosition, absInt32, wrapInt32]
  exact ⟨by decide, hdue,
    throttle_due_stays_due (some sampleClient.throttle) (some samplePosition) 1700000006
      1700000060 (by decide) hdue⟩

/-! ## The OOOI transition detector: events lost through an Unknown sample -/

/-- Claim C37 (a lift-off or touchdown sampled through an off-ground reading at
AGL <= 50 is lost).  For every detector state with OUT detected, OFF not
detected and current zone Runway or Taxiway: if the next sample has on_ground
false and AGL <= 50, it classifies as Unknown, and if the sample after that
classifies as Airborne, then neither `swim_oooi_update` call fires OFF (both
return false) and off_detected is still false after both calls.  The same holds
for ON: for every detector state with OFF detected, ON not detected and current
zone Airborne, Approach or Final, an off-ground sample at AGL <= 50 followed by
a sample that classifies as Runway or Taxiway leaves on_detected false. -/
theorem oooi_unknown_sample_loses_event (d : SwimOOOIDetector) (n1 n2 : Int)
    (gs1 agl1 vs1 gs2 agl2 vs2 : CFloat) (pb1 og2 pb2 : Bool)
    (hagl : agl1.le (.finite 50) = true) :
    swim_detect_zone gs1 false agl1 vs1 pb1 = SWIM_ZONE_UNKNOWN ∧
    (d.out_detected = true → d.off_detected = false →
      (d.current_zone = SWIM_ZONE_RUNWAY ∨ d.current_zone = SWIM_ZONE_TAXIWAY) →
      swim_detect_zone gs2 og2 agl2 vs2 pb2 = SWIM_ZONE_AIRBORNE →
      ∃ d1 d2, swim_oooi_update (some d) n1 gs1 false agl1 vs1 pb1 = (some d1, false) ∧
        swim_oooi_update (some d1) n2 gs2 og2 agl2 vs2 pb2 = (some d2, false) ∧
        d1.off_detected = false ∧ d2.off_detected = false ∧
        d2.current_zone = SWIM_ZONE_AIRBORNE) ∧
    (d.off_detected = true → d.on_detected = false →
      (d.current_zone = SWIM_ZONE_AIRBORNE ∨ d.current_zone = SWIM_ZONE_APPROACH ∨
        d.current_zone = SWIM_ZONE_FINAL) →
      (swim_detect_zone gs2 og2 agl2 vs2 pb2 = SWIM_ZONE_RUNWAY ∨
        swim_detect_zone gs2 og2 agl2 vs2 pb2 = SWIM_ZONE_TAXIWAY) →
      ∃ d1 d2, swim_oooi_update (some d) n1 gs1 false agl1 vs1 pb1 = (some d1, false) ∧
        swim_oooi_update (some d1) n2 gs2 og2 agl2 vs2 pb2 = (some d2, false) ∧
        d1.on_detected = false ∧ d2.on_detected = false) := by
  have hgt : agl1.gt SWIM_OOOI_AIRBORNE_MIN_AGL = false := CFloat.gt_eq_false_of_le agl1 50 hagl
  have hz : swim_detect_zone gs1 false agl1 vs1 pb1 = SWIM_ZONE_UNKNOWN := by
    simp [swim_detect_zone, hgt]
  refine ⟨hz, ?_, ?_⟩
  · intro hout hoff hcur hz2
    rcases d with ⟨cz, pz, ts, o, f, n, i, lu⟩
    simp only at hout hoff hcur
    subst hout hoff
    rcases hcur with h | h <;> subst h <;>
      simp [swim_oooi_update, hz, hz2, oooiTransition]
  · intro hoff hon hcur hz2
    rcases d with ⟨cz, pz, ts, o, f, n, i, lu⟩
    simp only at hoff hon hcur
    subst hoff hon
    rcases hcur with h | h | h <;> subst h <;> rcases hz2 with h2 | h2 <;>
      simp [swim_oooi_update, hz, h2, oooiTransition]

/-- An aircraft on the runway with OUT detected, sampled off the ground at 30 ft
AGL and then at 400 ft AGL: both calls return false and OFF stays undetected. -/
theorem oooi_unknown_sample_loses_event_witness :
    (CFloat.finite 30).le (.finite 50) = true ∧
    ∃ d1 d2,
      swim_oooi_update
          (some ⟨SWIM_ZONE_RUNWAY, SWIM_ZONE_TAXIWAY, ⟨100, 0, 0, 0⟩, true, false, false, false,
            150⟩)
          200 (.finite 150) false (.finite 30) (.finite 500) false = (some d1, false) ∧
      swim_oooi_update (some d1) 201 (.finite 160) false (.finite 400) (.finite 1500) false =
        (some d2, false) ∧
      d1.off_detected = false ∧ d2.off_detected = false ∧
      d2.current_zone = SWIM_ZONE_AIRBORNE :=
  ⟨by decide,
   (oooi_unknown_sample_loses_event
      ⟨SWIM_ZONE_RUNWAY, SWIM_ZONE_TAXIWAY, ⟨100, 0, 0, 0⟩, true, false, false, false, 150⟩
      200 201 (.finite 150) (.finite 30) (.finite 500) (.finite 160) (.finite 400) (.finite 1500)
      false false false (by decide)).2.1 rfl rfl (Or.inl rfl) (by decide)⟩

/-! ## The zone classifier: Hold and the last return of the ground branch -/

/-- Claim C38 (Hold).  `swim_detect_zone` returns Hold if and only if on_ground
is true, the parking brake is not set and gs < 3; an on-ground sample with the
brake released and 3 <= gs < 5 classifies as Taxiway, not Hold; and for every
ground speed that is not a NaN the last `return SWIM_ZONE_PARKING` of the ground
branch (return statement 8) is never reached; a NaN ground speed on the ground
does reach it. -/
theorem detect_zone_hold_iff (gs agl vs : CFloat) (og pb : Bool) :
    (swim_detect_zone gs og agl vs pb = SWIM_ZONE_HOLD ↔
      (og = true ∧ pb = false ∧ gs.lt (.finite 3) = true)) ∧
    (gs.ge (.finite 3) = true → gs.lt (.finite 5) = true →
      swim_detect_zone gs true agl vs false = SWIM_ZONE_TAXIWAY) ∧
    (swim_detect_zone_return gs og agl vs pb).1 = swim_detect_zone gs og agl vs pb ∧
    (gs ≠ .nan → (swim_detect_zone_return gs og agl vs pb).2 ≠ 8) ∧
    swim_detect_zone_return .nan true agl vs pb = (SWIM_ZONE_PARKING, 8) := by
  have f1 : gs.lt (.finite 3) = true → gs.lt (.finite 5) = true :=
    CFloat.lt_of_lt_of_le gs 3 5 (by norm_num)
  have f2 : gs.lt (.finite 3) = true → gs.ge (.finite 3) = false :=
    CFloat.ge_eq_false_of_lt gs 3 3 le_rfl
  have f3 : gs.lt (.finite 3) = true → gs.ge (.finite 60) = false :=
    CFloat.ge_eq_false_of_lt gs 3 60 (by norm_num)
  have f4 : gs.ge (.finite 3) = false → gs.lt (.finite 5) = true → gs.lt (.finite 3) = true :=
    CFloat.lt_of_ge_eq_false gs 3 5
  have f5 : gs ≠ .nan → gs.ge (.finite 3) = false → gs.lt (.finite 5) = true := by
    intro hx h
    rcases CFloat.lt_or_ge gs 3 hx with h1 | h1
    · exact f1 h1
    · rw [h1] at h
      cases h
  refine ⟨?_, ?_, ?_, ?_, ?_⟩
  · cases og
    · simp only [swim_detect_zone, Bool.false_eq_true, if_false]
      split_ifs <;> simp
    · rcases Bool.eq_false_or_eq_true (gs.lt (.finite 3)) with hl3 | hl3 <;>
        rcases Bool.eq_false_or_eq_true (gs.lt (.finite 5)) with hl5 | hl5 <;>
        rcases Bool.eq_false_or_eq_true (gs.ge (.finite 60)) with hg60 | hg60 <;>
        rcases Bool.eq_false_or_eq_true (gs.ge (.finite 3)) with hg3 | hg3 <;>
        cases pb <;>
        simp [swim_detect_zone, SWIM_OOOI_PARKED_MAX_GS, SWIM_OOOI_TAKEOFF_MIN_GS,
          SWIM_OOOI_TAXI_MIN_GS, hl3, hl5, hg60, hg3] at f1 f2 f3 f4 ⊢
  · intro h3 h5
    have h60 : gs.ge (.finite 60) = false := CFloat.ge_eq_false_of_lt gs 5 60 (by norm_num) h5
    simp [swim_detect_zone, SWIM_OOOI_PARKED_MAX_GS, SWIM_OOOI_TAKEOFF_MIN_GS,
      SWIM_OOOI_TAXI_MIN_GS, h3, h60]
  · simp only [swim_detect_zone_return, swim_detect_zone]
    split_ifs <;> rfl
  · intro hnan
    have f6 := f5 hnan
    cases og
    · simp only [swim_detect_zone_return, Bool.false_eq_true, if_false]
      split_ifs <;> simp
    · rcases Bool.eq_false_or_eq_true (gs.lt (.finite 5)) with hl5 | hl5 <;>
        rcases Bool.eq_false_or_eq_true (gs.ge (.finite 60)) with hg60 | hg60 <;>
        rcases Bool.eq_false_or_eq_true (gs.ge (.finite 3)) with hg3 | hg3 <;>
        cases pb <;>
        simp [swim_detect_zone_return, SWIM_OOOI_PARKED_MAX_GS, SWIM_OOOI_TAKEOFF_MIN_GS,
          SWIM_OOOI_TAXI_MIN_GS, hl5, hg60, hg3] at f6 ⊢
  · cases pb <;> rfl

/-! ## The update-then-estimate pipeline -/

/-- When `swim_oooi_update` fires ON on a detector without IN detected, the
updated detector has ON detected and IN not detected, and the phase estimated
for it is TaxiIn. -/
theorem phase_after_on_fires (d d' : SwimOOOIDetector) (now : Int)
    (gs agl vs dist : CFloat) (og pb : Bool)
    (hupd : (swim_oooi_update (some d) now gs og agl vs pb).1 = some d')
    (hbefore : d.on_detected = false) (hafter : d'.on_detected = true)
    (hin : d.in_detected = false) :
    d'.in_detected = false ∧
    swim_detect_phase (some d') gs og agl vs dist = SWIM_PHASE_TAXI_IN := by
  have hin' : d'.in_detected = d.in_detected := by
    have hu : updateFrame (some d) ⟨now, gs, og, agl, vs, pb⟩ =
        swim_oooi_update (some d) now gs og agl vs pb := rfl
    rw [← hu, updateFrame_some] at hupd
    by_cases hz : (Frame.mk now gs og agl vs pb).zone = d.current_zone
    · rw [if_pos hz] at hupd
      have e := Option.some.inj hupd
      rw [← e] at hafter
      rw [hbefore] at hafter
      cases hafter
    · rw [if_neg hz, oooiTransition_eq] at hupd
      have e := Option.some.inj hupd
      rw [← e]
      simp [hbefore]
  rw [hin] at hin'
  exact ⟨hin', by simp [swim_detect_phase, hin', hafter]⟩

/-- Claim C39 (a detected touchdown is reported as TaxiIn).  In the
update-then-estimate pipeline, that is for every detector state reached from
`swim_oooi_init` (or `swim_oooi_reset`, which is the same function) by any
sequence of `swim_oooi_update` calls, and for every sample: if `swim_oooi_update`
fires ON on that sample (on_detected is false before the call and true after
it), then `swim_detect_phase` applied to the updated detector and the same
sample returns TaxiIn, not Landing, whatever the ground speed. -/
theorem touchdown_phase_taxi_in (d0 : SwimOOOIDetector) (frames : List Frame)
    (d d' : SwimOOOIDetector) (now : Int) (gs agl vs dist : CFloat) (og pb : Bool)
    (hrun : runUpdates (swim_oooi_init (some d0)) frames = some d)
    (hupd : (swim_oooi_update (some d) now gs og agl vs pb).1 = some d')
    (hbefore : d.on_detected = false) (hafter : d'.on_detected = true) :
    swim_detect_phase (some d') gs og agl vs dist = SWIM_PHASE_TAXI_IN ∧
    swim_detect_phase (some d') gs og agl vs dist ≠ SWIM_PHASE_LANDING := by
  obtain ⟨dr, er, hr⟩ := flagsOrdered_run frames zeroDetector flagsOrdered_zero
  have e : dr = d := Option.some.inj (er.symm.trans hrun)
  rw [e] at hr
  have hin : d.in_detected = false := by
    cases h : d.in_detected
    · rfl
    · rw [hr.2.2 h] at hbefore
      cases hbefore
  have h := (phase_after_on_fires d d' now gs agl vs dist og pb hupd hbefore hafter hin).2
  rw [h]
  exact ⟨rfl, by decide⟩

/-- A flight from the gate to lift-off (parked, brake released, taxi, take-off
roll, airborne at clocks 1 to 5) followed by a sample on the runway at 80 kt at
clock 6: ON fires and the phase is TaxiIn. -/
theorem touchdown_phase_taxi_in_witness :
    runUpdates (swim_oooi_init (some zeroDetector))
        [⟨1, .finite 0, true, .finite 0, .finite 0, true⟩,
         ⟨2, .finite 0, true, .finite 0, .finite 0, false⟩,
         ⟨3, .finite 15, true, .finite 0, .finite 0, false⟩,
         ⟨4, .finite 80, true, .finite 0, .finite 0, false⟩,
         ⟨5, .finite 150, false, .finite 100, .finite 1500, false⟩] =
      some ⟨SWIM_ZONE_AIRBORNE, SWIM_ZONE_RUNWAY, ⟨2, 5, 0, 0⟩, true, true, false, false, 5⟩ ∧
    (swim_oooi_update
        (some ⟨SWIM_ZONE_AIRBORNE, SWIM_ZONE_RUNWAY, ⟨2, 5, 0, 0⟩, true, true, false, false, 5⟩)
        6 (.finite 80) true (.finite 0) (.finite 0) false).1 =
      some ⟨SWIM_ZONE_RUNWAY, SWIM_ZONE_AIRBORNE, ⟨2, 5, 6, 0⟩, true, true, true, false, 6⟩ ∧
    swim_detect_phase
        (some ⟨SWIM_ZONE_RUNWAY, SWIM_ZONE_AIRBORNE, ⟨2, 5, 6, 0⟩, true, true, true, false, 6⟩)
        (.finite 80) true (.finite 0) (.finite 0) (.finite 5) = SWIM_PHASE_TAXI_IN :=
  ⟨by decide, by decide,
   (touchdown_phase_taxi_in zeroDetector
      [⟨1, .finite 0, true, .finite 0, .finite 0, true⟩,
       ⟨2, .finite 0, true, .finite 0, .finite 0, false⟩,
       ⟨3, .finite 15, true, .finite 0, .finite 0, false⟩,
       ⟨4, .finite 80, true, .finite 0, .finite 0, false⟩,
       ⟨5, .finite 150, false, .finite 100, .finite 1500, false⟩]
      ⟨SWIM_ZONE_AIRBORNE, SWIM_ZONE_RUNWAY, ⟨2, 5, 0, 0⟩, true, true, false, false, 5⟩
      ⟨SWIM_ZONE_RUNWAY, SWIM_ZONE_AIRBORNE, ⟨2, 5, 6, 0⟩, true, true, true, false, 6⟩
      6 (.finite 80) (.finite 0) (.finite 0) (.finite 5) true false
      (by decide) (by decide) rfl rfl).1⟩

/-! ## Auxiliary facts about throttled sends -/

/-- A call whose clock reading is less than `min_interval_sec` after a last
send time other than 0 is declined: nothing is serialized or posted and the
client is unchanged. -/
theorem sendCall_declined (lib : CLib) (c : SwimClient) (k : SendCall)
    (h0 : c.throttle.last_send_time ≠ 0)
    (hw : k.now_check - c.throttle.last_send_time < c.throttle.min_interval_sec) :
    sendCall lib (some c) k = ⟨false, some c, k.result, []⟩ := by
  have hs : ∀ p, swim_throttle_should_send (some c.throttle) (some p) k.now_check = false := by
    intro p
    simp [swim_throttle_should_send, h0, hw]
  unfold sendCall swim_client_send_position_throttled
  cases k.callsign with
  | none => rfl
  | some cs =>
    cases k.pos with
    | none => rfl
    | some p =>
      cases hi : c.initialized
      · simp [hi]
      · simp [hi, swim_client_should_send_position, hs p]

/-- A call that returns true leaves a client whose throttle has the clock
reading of `swim_throttle_mark_sent` as last send time and the thresholds it
had. -/
theorem sendCall_sent (lib : CLib) (c : SwimClient) (k : SendCall)
    (h : (sendCall lib (some c) k).sent = true) :
    ∃ c', (sendCall lib (some c) k).client = some c' ∧
      c'.throttle.last_send_time = k.now_mark ∧
      c'.throttle.min_interval_sec = c.throttle.min_interval_sec := by
  unfold sendCall swim_client_send_position_throttled at h ⊢
  cases hcs : k.callsign with
  | none => simp [hcs] at h
  | some cs =>
    cases hp : k.pos with
    | none => simp [hcs, hp] at h
    | some p =>
      simp only [hcs, hp] at h ⊢
      by_cases h1 : c.initialized = true
      · by_cases h2 : swim_client_should_send_position (some c) (some p) k.now_check = true
        · by_cases h3 : (swim_client_ingest_track lib (some c)
              (some [{ callsign := cs.take (SWIM_MAX_CALLSIGN - 1), position := p,
                       timestamp := k.now_stamp, squawk := "" }]) 1
              (some (k.result.getD k.local_result)) k.curl).status = SWIM_OK
          · simp [h1, h2, h3, swim_client_mark_position_sent, swim_throttle_mark_sent]
          · simp [h1, h2, h3] at h
        · simp [h1, h2] at h
      · simp [h1] at h

/-- Calls that all fall less than `min_interval_sec` after a last send time
other than 0 are all declined and leave the client unchanged. -/
theorem runSends_declined (lib : CLib) (c : SwimClient) (calls : List SendCall)
    (h0 : c.throttle.last_send_time ≠ 0)
    (hw : ∀ k ∈ calls,
      k.now_check - c.throttle.last_send_time < c.throttle.min_interval_sec) :
    (∀ o ∈ runSends lib (some c) calls,
      o.sent = false ∧ o.events = [] ∧ o.client = some c) ∧
    clientAfterSends lib (some c) calls = some c := by
  induction calls with
  | nil => exact ⟨fun o ho => (by cases ho), rfl⟩
  | cons k ks ih =>
    have hk := sendCall_declined lib c k h0 (hw k (List.mem_cons_self _ _))
    have ih' := ih (fun j hj => hw j (List.mem_cons_of_mem _ hj))
    constructor
    · intro o ho
      simp only [runSends, hk, List.mem_cons] at ho
      rcases ho with ho | ho
      · rw [ho]
        exact ⟨rfl, rfl, rfl⟩
      · exact ih'.1 o ho
    · simp only [clientAfterSends, hk]
      exact ih'.2

/-! ## The ingestion client: spacing of throttled sends -/

/-- Claim C40 (minimum spacing of sends).  In any run of a client, after
`swim_client_send_position_throttled` returns true with the clock reading t
other than 0 recorded as the send time, every later call whose clock reading t2
satisfies t <= t2 < t + min_interval_sec returns false, serializes nothing and
makes no `swim_http_post` call, whatever position it is given, and leaves the
client as the successful send left it; hence a later call that returns true at
a clock reading t2 >= t, the clock never running backwards in between, has
t2 >= t + min_interval_sec. -/
theorem throttled_sends_min_spacing (lib : CLib) (c : SwimClient) (first : SendCall)
    (later : List SendCall)
    (hsent : (sendCall lib (some c) first).sent = true) (ht : first.now_mark ≠ 0) :
    c.initialized = true ∧
    ((∀ k ∈ later, first.now_mark ≤ k.now_check ∧
        k.now_check < first.now_mark + c.throttle.min_interval_sec) →
      ∀ o ∈ runSends lib (sendCall lib (some c) first).client later,
        o.sent = false ∧ o.events = [] ∧ o.client = (sendCall lib (some c) first).client) ∧
    (∀ k : SendCall,
      (∀ j ∈ later, first.now_mark ≤ j.now_check ∧ j.now_check ≤ k.now_check) →
      first.now_mark ≤ k.now_check →
      (sendCall lib (clientAfterSends lib (sendCall lib (some c) first).client later) k).sent
        = true →
      first.now_mark + c.throttle.min_interval_sec ≤ k.now_check) := by
  obtain ⟨c1, e1, hl, hm⟩ := sendCall_sent lib c first hsent
  have h0 : c1.throttle.last_send_time ≠ 0 := by rw [hl]; exact ht
  refine ⟨?_, ?_, ?_⟩
  · cases hi : c.initialized
    · have : (sendCall lib (some c) first).sent = false := by
        unfold sendCall swim_client_send_position_throttled
        cases first.callsign <;> cases first.pos <;> simp [hi]
      rw [this] at hsent
      cases hsent
    · rfl
  · intro hw o ho
    rw [e1] at ho ⊢
    refine (runSends_declined lib c1 later h0 ?_).1 o ho
    intro k hk
    have := hw k hk
    rw [hl, hm]
    omega
  · intro k hmono hk hs
    by_contra hlt
    have hw : ∀ j ∈ later,
        j.now_check - c1.throttle.last_send_time < c1.throttle.min_interval_sec := by
      intro j hj
      have := hmono j hj
      rw [hl, hm]
      omega
    rw [e1, (runSends_declined lib c1 later h0 hw).2,
      sendCall_declined lib c1 k h0 (by rw [hl, hm]; omega)] at hs
    cases hs

/-- The sample call 6 s after the last send of `sampleClient` is sent. -/
theorem sampleSend_sent :
    (sendCall sampleLib (some sampleClient) (sampleSend 1700000006 1700000007)).sent = true := by
  have hi : sampleClient.initialized = true := rfl
  have hdue : swim_throttle_should_send (some sampleClient.throttle) (some samplePosition)
      1700000006 = true := by
    simp [swim_throttle_should_send, sampleClient, samplePosition, absInt32, wrapInt32]
  have hok : (swim_client_ingest_track sampleLib (some sampleClient)
      (some [{ callsign := ("UAL123" : String).take (SWIM_MAX_CALLSIGN - 1),
               position := samplePosition, timestamp := 1700000006, squawk := "" }]) 1
      (some zeroResult) sampleCurlOk).status = SWIM_OK := by
    rw [swim_client_ingest_track_eq _ _ _ _ _ _ rfl (by decide)]
    simp [swim_http_post, sampleClient, sampleCurlOk, CURLE_OK]
  simp [sendCall, sampleSend, swim_client_send_position_throttled, hi,
    swim_client_should_send_position, hdue, hok]

/-- A send recorded at clock 1700000007 with interval 5 s: the calls at clocks
1700000008 and 1700000011 are declined without serializing or posting. -/
theorem throttled_sends_min_spacing_witness :
    (sendCall sampleLib (some sampleClient) (sampleSend 1700000006 1700000007)).sent = true ∧
    (sampleSend 1700000006 1700000007).now_mark ≠ 0 ∧
    ∀ o ∈ runSends sampleLib
        (sendCall sampleLib (some sampleClient) (sampleSend 1700000006 1700000007)).client
        [sampleSend 1700000008 1700000009, sampleSend 1700000011 1700000012],
      o.sent = false ∧ o.events = [] := by
  refine ⟨sampleSend_sent, by decide, fun o ho => ?_⟩
  have hw : ∀ k ∈ [sampleSend 1700000008 1700000009, sampleSend 1700000011 1700000012],
      (sampleSend 1700000006 1700000007).now_mark ≤ k.now_check ∧
      k.now_check < (sampleSend 1700000006 1700000007).now_mark +
        sampleClient.throttle.min_interval_sec := by
    intro k hk
    simp only [List.mem_cons, List.mem_singleton, List.not_mem_nil, or_false] at hk
    rcases hk with e | e <;> rw [e] <;> decide
  have h := (throttled_sends_min_spacing sampleLib sampleClient
    (sampleSend 1700000006 1700000007)
    [sampleSend 1700000008 1700000009, sampleSend 1700000011 1700000012]
    sampleSend_sent (by decide)).2.1 hw o ho
  exact ⟨h.1, h.2.1⟩

end Swim
